import Mathlib

/-!
Group cycle state aggregation (bidir-group)

A shallow embedding of the status reducers (`statusChecker`) of the three stage
controllers `controllers/groupScreening.js`, `controllers/groupLoan.js` and
`controllers/groupACAT.js`, of their `submit`, `approve` and `updateStatus` request
handlers, of the cycle gates and stage-start handlers, and of the group handlers of
`controllers/group.js`, together with theorems about them.

JavaScript objects become structures; an object key that a branch leaves out
(`all_submitted`, `for_review`) is an `Option` field that is `none`.
`Array.prototype.includes` on strings is `List.contains`, `filter` is
`List.filter`, and `!(n)` on a number `n` is `n == 0`.
-/

namespace BidirGroup

/-! ## Member-level records -/

/-- A member-level application record (Screening, Loan or ClientACAT) as the
reducers see it: only `status` is read. -/
structure MemberRecord where
  client : Nat
  status : String
  deriving DecidableEq, Repr

/-- The helper `containsOnly(orig, against)`, textually identical in the three
stage controllers. -/
def containsOnly (orig against : List String) : Bool :=
  let filterAgainst := against.filter (fun item => !orig.contains item)
  let filterOrig := orig.filter (fun item => !against.contains item)
  (filterAgainst.length + filterOrig.length) == 0

/-! ## Screening reducer (`controllers/groupScreening.js`) -/

namespace GroupScreeningCtl

/-- Result object of the screening `statusChecker`. -/
structure Statuses where
  group : String
  group_screening : String
  all_submitted : Option Bool := none
  for_review : Option Bool := none
  deriving DecidableEq, Repr

/-- The function `statusChecker(screenings)` of `controllers/groupScreening.js`. -/
def statusChecker (screenings : List MemberRecord) : Statuses :=
  let statuses := screenings.map (fun screening => screening.status)
  -- Case 1: the group screenings are just created and are all new
  if containsOnly statuses ["new"] then
    { group := "screening_in_progress", group_screening := "new" }
  -- Case 2: the submitter has submitted all screenings
  else if containsOnly statuses ["submitted"] then
    { group := "screening_submitted", group_screening := "submitted",
      all_submitted := some true }
  -- Case 3: the approver has approved all screenings
  else if containsOnly statuses ["approved"] then
    { group := "eligible", group_screening := "approved" }
  -- Case 4: the approver rejects one of the screenings and all others are processed
  else if statuses.contains "declined_final" &&
      !(statuses.contains "new" || statuses.contains "submitted" ||
        statuses.contains "screening_inprogress") then
    { group := "ineligible", group_screening := "declined_final" }
  -- Case 5: the approver declines one of the screenings for review
  else if statuses.contains "declined_under_review" &&
      !(statuses.contains "new" || statuses.contains "submitted" ||
        statuses.contains "screening_inprogress") then
    { group := "screening_in_progress", group_screening := "declined_under_review",
      for_review := some true }
  -- Case 6: all other cases
  else
    { group := "screening_in_progress", group_screening := "screening_inprogress" }

end GroupScreeningCtl

/-! ## Loan reducer (`controllers/groupLoan.js`) -/

namespace GroupLoanCtl

/-- Result object of the loan `statusChecker`. -/
structure Statuses where
  group : String
  group_loan : String
  all_submitted : Option Bool := none
  for_review : Option Bool := none
  deriving DecidableEq, Repr

/-- The function `statusChecker(loans)` of `controllers/groupLoan.js`. -/
def statusChecker (loans : List MemberRecord) : Statuses :=
  let statuses := loans.map (fun loan => loan.status)
  -- Case 1: the group loan applications are just created and are all new
  if containsOnly statuses ["new"] then
    { group := "loan_application_inprogress", group_loan := "new" }
  -- Case 2: the submitter has submitted all loan applications
  else if containsOnly statuses ["submitted"] then
    { group := "loan_application_submitted", group_loan := "submitted",
      all_submitted := some true }
  -- Case 3: the approver accepts all loan applications
  else if containsOnly statuses ["accepted"] then
    { group := "loan_application_accepted", group_loan := "accepted" }
  -- Case 4: the approver rejects one of the loan applications
  else if statuses.contains "rejected" &&
      !(statuses.contains "new" || statuses.contains "submitted" ||
        statuses.contains "inprogress") then
    { group := "loan_application_rejected", group_loan := "rejected" }
  -- Case 5: the approver declines one of the loan applications for review
  else if statuses.contains "declined_under_review" &&
      !(statuses.contains "new" || statuses.contains "submitted" ||
        statuses.contains "inprogress") then
    { group := "loan_application_inprogress", group_loan := "declined_under_review",
      for_review := some true }
  else
    { group := "loan_application_inprogress", group_loan := "inprogress" }

end GroupLoanCtl

/-! ## ACAT reducer (`controllers/groupACAT.js`) -/

namespace GroupACATCtl

/-- Result object of the ACAT `statusChecker`. -/
structure Statuses where
  group : String
  group_acat : String
  all_submitted : Option Bool := none
  for_review : Option Bool := none
  deriving DecidableEq, Repr

/-- The function `statusChecker(acats)` of `controllers/groupACAT.js`. -/
def statusChecker (acats : List MemberRecord) : Statuses :=
  let statuses := acats.map (fun acat => acat.status)
  -- Case 1: the ACAT applications are just created and are all new
  if containsOnly statuses ["new"] then
    { group := "ACAT_IN_PROGRESS", group_acat := "new" }
  -- Case 2: the submitter has submitted all ACAT applications
  else if containsOnly statuses ["submitted"] then
    { group := "ACAT-submitted", group_acat := "submitted",
      all_submitted := some true }
  -- Case 3: the approver authorizes all ACAT applications
  else if containsOnly statuses ["authorized"] then
    { group := "ACAT-Authorized", group_acat := "authorized" }
  -- Case 4: the approver declines one of the ACAT applications
  else if statuses.contains "declined_for_review" &&
      !(statuses.contains "new" || statuses.contains "submitted" ||
        statuses.contains "resubmitted" || statuses.contains "inprogress") then
    { group := "ACAT_Declined_For_Review", group_acat := "declined_for_review" }
  -- Case 5: the approver resubmits one of the ACAT applications
  else if statuses.contains "resubmitted" &&
      !(statuses.contains "new" || statuses.contains "declined_for_review" ||
        statuses.contains "inprogress") then
    { group := "ACAT-Resubmitted", group_acat := "resubmitted" }
  else
    { group := "ACAT_IN_PROGRESS", group_acat := "inprogress" }

end GroupACATCtl

/-! ## Persisted state and data-access helpers

The models and the DAL modules for groups, tasks, notifications and logs are
outside the repository slice; the documents carry the fields the handlers read
and write, and every store call is taken to succeed. -/

/-- The Group aggregate, with the fields the stage handlers use. -/
structure Group where
  _id : Nat
  name : String
  branch : Nat
  created_by : Nat
  status : String
  members : List Nat := []
  leader : Option Nat := none
  no_of_members : Nat := 0
  loan_cycle_number : Nat := 1
  total_amount : Nat := 0
  total_granted_amount : Nat := 0
  total_paid_amount : Nat := 0
  deriving DecidableEq, Repr

/-- Stage aggregate for screenings; `screenings` is the populated member list. -/
structure GroupScreening where
  _id : Nat
  group : Nat
  status : String
  screenings : List MemberRecord
  date_created : Nat
  deriving DecidableEq, Repr

/-- Stage aggregate for loans; `loans` is the populated member list. -/
structure GroupLoan where
  _id : Nat
  group : Nat
  status : String
  loans : List MemberRecord
  date_created : Nat
  deriving DecidableEq, Repr

/-- Stage aggregate for ACATs; `acats` is the populated member list. -/
structure GroupACAT where
  _id : Nat
  group : Nat
  status : String
  acats : List MemberRecord
  date_created : Nat
  deriving DecidableEq, Repr

/-- A task document as passed to `TaskDal.create`; `_id` is assigned on creation. -/
structure Task where
  _id : Nat
  task : String
  task_type : String
  entity_ref : Nat
  entity_type : String
  created_by : Nat
  user : Nat
  branch : Nat
  comment : String
  deriving DecidableEq, Repr

/-- A notification document as passed to `NotificationDal.create`. -/
structure Notification where
  for_user : Nat
  message : String
  task_ref : Nat
  deriving DecidableEq, Repr

/-- An audit entry as passed to `LogDal.track` (the `diff` payload is left out). -/
structure LogEntry where
  event : String
  group : Nat
  message : String
  deriving DecidableEq, Repr

/-- One entry of `GroupHistory.cycles`: the record of one loan cycle. A stage
reference that is not set yet is `none`. -/
structure CycleRecord where
  cycle_number : Nat
  screening : Option Nat := none
  loan : Option Nat := none
  acat : Option Nat := none
  total_amount : Nat := 0
  total_granted_amount : Nat := 0
  total_paid_amount : Nat := 0
  started_by : Option Nat := none
  last_edit_by : Option Nat := none
  last_modified : Nat := 0
  deriving DecidableEq, Repr

/-- The cycle-history ledger of a group. -/
structure GroupHistory where
  _id : Nat
  group : Nat
  branch : Nat := 0
  cycle_number : Nat
  cycles : List CycleRecord
  last_modified : Nat := 0
  deriving DecidableEq, Repr

/-- A client (group member) document, with the status the group handlers write. -/
structure Client where
  _id : Nat
  status : String
  deriving DecidableEq, Repr

/-- A loan proposal of a client, with the approved amount. -/
structure LoanProposal where
  client : Nat
  loan_approved : Nat
  date_created : Nat
  deriving DecidableEq, Repr

/-- The error object every handler throws. -/
structure CustomError where
  type : String
  message : String
  deriving DecidableEq, Repr

/-- The document store the handlers run against. -/
structure Db where
  groups : List Group := []
  groupScreenings : List GroupScreening := []
  groupLoans : List GroupLoan := []
  groupACATs : List GroupACAT := []
  tasks : List Task := []
  notifications : List Notification := []
  logs : List LogEntry := []
  groupHistories : List GroupHistory := []
  clients : List Client := []
  loanProposals : List LoanProposal := []
  screenings : List MemberRecord := []
  loans : List MemberRecord := []
  deriving DecidableEq, Repr

/-- Mongoose `Model.findOne(query)`: the first document matching the query. -/
def findOne {α : Type} (q : α → Bool) (docs : List α) : Option α :=
  docs.find? q

/-- Mongoose `Model.findOne(query).sort({ date_created: "desc" })`: the matching
document with the greatest `date_created` (the first such one on a tie). -/
def findOneSortDesc {α : Type} (date : α → Nat) (q : α → Bool) (docs : List α) : Option α :=
  (docs.filter q).foldl
    (fun best d =>
      match best with
      | none => some d
      | some b => if date b < date d then some d else some b)
    none

/-- Mongoose `Model.findOneAndUpdate(query, updates)`: the first matching
document is updated, the others are left alone. -/
def findOneAndUpdate {α : Type} (q : α → Bool) (upd : α → α) : List α → List α
  | [] => []
  | d :: ds => if q d then upd d :: ds else d :: findOneAndUpdate q upd ds

/-- Message of the TypeError raised by reading a property of `null`. -/
def nullPropertyMessage (prop : String) : String :=
  "Cannot read property '" ++ prop ++ "' of null"

/-- The message used when the permission check fails. -/
def notPermittedMessage : String :=
  "You Don't have enough permissions to complete this action"

/-- Modelled from the spec: `dal/task.js` and `dal/notification.js` are not in the
slice. The call `TaskDal.create(data)` followed by `NotificationDal.create`, as the
submit handlers do it: the task gets a fresh `_id`, the notification refers to it. -/
def createTaskAndNotify (db : Db) (task : Task) (recipient : Nat) (message : String) : Db :=
  let created : Task := { task with _id := db.tasks.length }
  { db with
    tasks := db.tasks ++ [created]
    notifications := db.notifications ++
      [{ for_user := recipient, message := message, task_ref := created._id }] }

/-- Modelled from the spec: `dal/group.js` is not in the slice. The call
`GroupDal.update({ _id }, { status })` persists the group status. -/
def GroupDal.update (db : Db) (id : Nat) (status : String) : Db :=
  { db with groups :=
      findOneAndUpdate (fun g => g._id == id) (fun g => { g with status := status }) db.groups }

/-- Modelled from the spec: `dal/log.js` is not in the slice. The call
`LogDal.track(entry)` appends an audit entry. -/
def LogDal.track (db : Db) (entry : LogEntry) : Db :=
  { db with logs := db.logs ++ [entry] }

namespace GroupScreeningDal

/-- The DAL function `get({ group })` of `dal/groupScreening.js`. -/
def get (db : Db) (group : Nat) : Option GroupScreening :=
  findOneSortDesc (fun d => d.date_created) (fun d => d.group == group) db.groupScreenings

/-- The DAL function `update({ _id }, { status })` of `dal/groupScreening.js`. -/
def update (db : Db) (id : Nat) (status : String) : Db :=
  { db with groupScreenings :=
      (findOneAndUpdate (fun d => d._id == id) (fun d => { d with status := status })
        db.groupScreenings) }

end GroupScreeningDal

namespace GroupLoanDal

/-- The DAL function `get({ group })` of `dal/groupLoan.js`. -/
def get (db : Db) (group : Nat) : Option GroupLoan :=
  findOneSortDesc (fun d => d.date_created) (fun d => d.group == group) db.groupLoans

/-- The DAL function `update({ _id }, { status })` of `dal/groupLoan.js`. -/
def update (db : Db) (id : Nat) (status : String) : Db :=
  { db with groupLoans :=
      (findOneAndUpdate (fun d => d._id == id) (fun d => { d with status := status })
        db.groupLoans) }

end GroupLoanDal

namespace GroupACATDal

/-- Modelled from the spec: `dal/groupACAT.js` is not in the slice; `get({ group })`
loads the group's stage aggregate the way the screening and loan DALs do. -/
def get (db : Db) (group : Nat) : Option GroupACAT :=
  findOneSortDesc (fun d => d.date_created) (fun d => d.group == group) db.groupACATs

/-- Modelled from the spec: `dal/groupACAT.js` is not in the slice;
`update({ _id }, { status })` persists the stage status like the other two DALs. -/
def update (db : Db) (id : Nat) (status : String) : Db :=
  { db with groupACATs :=
      (findOneAndUpdate (fun d => d._id == id) (fun d => { d with status := status })
        db.groupACATs) }

end GroupACATDal

/-! ## Request handlers: submit, approve, updateStatus

Each handler takes the outcome of the permission check, the acting user, the
group id of the route and the store; it returns the store after the request or
the `CustomError` it throws. Every `throw` of these handlers precedes their
first write, so a failed request leaves the store as it was. -/

/-- The test `!statuses` on the value a `statusChecker` returns: every branch of
the three reducers returns an object, and an object is never falsy. -/
def isFalsy {α : Type} (_statuses : α) : Bool := false

namespace GroupScreeningCtl

/-- The handler `exports.submit` of `controllers/groupScreening.js`
(`submitGroupScreenings`), run by `user` on the group `id`. -/
def submitGroupScreenings (isPermitted : Bool) (user : Nat) (id : Nat) (db : Db) :
    Except CustomError Db :=
  if !isPermitted then
    .error { type := "GROUP_SCREENING_UPDATE_ERROR", message := notPermittedMessage }
  else
    match findOne (fun g => g._id == id) db.groups with
    | none => .error { type := "GROUP_SCREENINGS_SUBMIT_ERROR", message := "Group Does Not Exist" }
    | some group =>
      match GroupScreeningDal.get db group._id with
      | none =>
        .error { type := "GROUP_SCREENINGS_SUBMIT_ERROR", message := nullPropertyMessage "screenings" }
      | some doc =>
        let statuses := statusChecker doc.screenings
        if isFalsy statuses then
          .error { type := "GROUP_SCREENINGS_SUBMIT_ERROR", message := "Screening Statuses are incomplete" }
        else
          let db1 :=
            if statuses.all_submitted.getD false then
              -- task for approver
              createTaskAndNotify db
                { _id := 0, task := group.name ++ " Group Screenings Application Submitted",
                  task_type := "approve", entity_ref := doc._id,
                  entity_type := "group_screening", created_by := user,
                  user := group.created_by, branch := group.branch, comment := "None" }
                user (group.name ++ " Group Screenings Application Submitted Ready For Approval")
            else if statuses.for_review.getD false then
              createTaskAndNotify db
                { _id := 0, task := group.name ++ " Group Screenings Application Review",
                  task_type := "review", entity_ref := doc._id,
                  entity_type := "group_screening", created_by := user,
                  user := group.created_by, branch := group.branch, comment := "None" }
                user (group.name ++ " Group Screenings Application Submitted Review")
            else db
          let db2 := GroupScreeningDal.update db1 doc._id statuses.group_screening
          let db3 := GroupDal.update db2 group._id statuses.group
          .ok (LogDal.track db3
            { event := "group_screening_submit", group := user,
              message := "Submit Screenings for " ++ toString doc._id })

/-- The handler `exports.approve` of `controllers/groupScreening.js`
(`approveGroupScreenings`), run by `user` on the group `id`. -/
def approveGroupScreenings (isPermitted : Bool) (user : Nat) (id : Nat) (db : Db) :
    Except CustomError Db :=
  if !isPermitted then
    .error { type := "GROUP_APPROVE_UPDATE_ERROR", message := notPermittedMessage }
  else
    match findOne (fun g => g._id == id) db.groups with
    | none => .error { type := "GROUP_SCREENINGS_APPROVE_ERROR", message := "Group Does Not Exist" }
    | some group =>
      match GroupScreeningDal.get db group._id with
      | none =>
        .error { type := "GROUP_SCREENINGS_APPROVE_ERROR", message := nullPropertyMessage "screenings" }
      | some doc =>
        let statuses := statusChecker doc.screenings
        if isFalsy statuses then
          .error { type := "GROUP_SCREENINGS_APPROVE_ERROR", message := "Screening Statuses are incomplete" }
        else
          let db2 := GroupScreeningDal.update db doc._id statuses.group_screening
          let db3 := GroupDal.update db2 group._id statuses.group
          .ok (LogDal.track db3
            { event := "group_screening_approve", group := user,
              message := "Approve Screenings for " ++ toString doc._id })

/-- The handler `exports.updateStatus` of `controllers/groupScreening.js`
(`updateGroupScreeningStatus`), run by `user` on the group `id`. -/
def updateGroupScreeningStatus (isPermitted : Bool) (user : Nat) (id : Nat) (db : Db) :
    Except CustomError Db :=
  if !isPermitted then
    .error { type := "GROUP_APPROVE_UPDATE_ERROR", message := notPermittedMessage }
  else
    match findOne (fun g => g._id == id) db.groups with
    | none => .error { type := "GROUP_SCREENINGS_UPDATE_STATUS_ERROR", message := "Group Does Not Exist" }
    | some group =>
      match GroupScreeningDal.get db group._id with
      | none =>
        .error { type := "GROUP_SCREENINGS_UPDATE_STATUS_ERROR", message := nullPropertyMessage "screenings" }
      | some doc =>
        let statuses := statusChecker doc.screenings
        if isFalsy statuses then
          .error { type := "GROUP_SCREENINGS_UPDATE_STATUS_ERROR", message := "Screening Statuses are incomplete" }
        else
          let db2 := GroupScreeningDal.update db doc._id statuses.group_screening
          let db3 := GroupDal.update db2 group._id statuses.group
          .ok (LogDal.track db3
            { event := "group_screening_status_update", group := user,
              message := "Update Status of Screenings for " ++ toString doc._id })

end GroupScreeningCtl

namespace GroupLoanCtl

/-- The handler `exports.submit` of `controllers/groupLoan.js`
(`submitGroupLoans`), run by `user` on the group `id`. -/
def submitGroupLoans (isPermitted : Bool) (user : Nat) (id : Nat) (db : Db) :
    Except CustomError Db :=
  if !isPermitted then
    .error { type := "GROUP_LOAN_UPDATE_ERROR", message := notPermittedMessage }
  else
    match findOne (fun g => g._id == id) db.groups with
    | none => .error { type := "GROUP_LOANS_SUBMIT_ERROR", message := "Group Does Not Exist" }
    | some group =>
      match GroupLoanDal.get db group._id with
      | none =>
        .error { type := "GROUP_LOANS_SUBMIT_ERROR", message := nullPropertyMessage "loans" }
      | some doc =>
        if doc.loans.length == 0 then
          .error { type := "GROUP_LOANS_SUBMIT_ERROR", message := "No Loan Applications Present!" }
        else
          let statuses := statusChecker doc.loans
          if isFalsy statuses then
            .error { type := "GROUP_LOANS_SUBMIT_ERROR", message := "Loan Statuses are incomplete" }
          else
            let db1 :=
              if statuses.all_submitted.getD false then
                -- task for approver
                createTaskAndNotify db
                  { _id := 0, task := group.name ++ " Group Loans Application Submitted",
                    task_type := "approve", entity_ref := doc._id,
                    entity_type := "group_loan", created_by := user,
                    user := group.created_by, branch := group.branch, comment := "None" }
                  user (group.name ++ " Group Loans Application Submitted Ready For Approval")
              else if statuses.for_review.getD false then
                createTaskAndNotify db
                  { _id := 0, task := group.name ++ " Group Loans Application Review",
                    task_type := "review", entity_ref := doc._id,
                    entity_type := "group_loan", created_by := user,
                    user := group.created_by, branch := group.branch, comment := "None" }
                  user (group.name ++ " Group Loans Application Submitted Review")
              else db
            let db2 := GroupLoanDal.update db1 doc._id statuses.group_loan
            let db3 := GroupDal.update db2 group._id statuses.group
            .ok (LogDal.track db3
              { event := "group_loan_submit", group := user,
                message := "Submit Loans for " ++ toString doc._id })

/-- The handler `exports.approve` of `controllers/groupLoan.js`
(`approveGroupLoans`), run by `user` on the group `id`. -/
def approveGroupLoans (isPermitted : Bool) (user : Nat) (id : Nat) (db : Db) :
    Except CustomError Db :=
  if !isPermitted then
    .error { type := "GROUP_APPROVE_UPDATE_ERROR", message := notPermittedMessage }
  else
    match findOne (fun g => g._id == id) db.groups with
    | none => .error { type := "GROUP_LOANS_APPROVE_ERROR", message := "Group Does Not Exist" }
    | some group =>
      match GroupLoanDal.get db group._id with
      | none =>
        .error { type := "GROUP_LOANS_APPROVE_ERROR", message := nullPropertyMessage "loans" }
      | some doc =>
        if doc.loans.length == 0 then
          .error { type := "GROUP_LOANS_APPROVE_ERROR", message := "No Loan Applications Present!" }
        else
          let statuses := statusChecker doc.loans
          if isFalsy statuses then
            .error { type := "GROUP_LOANS_APPROVE_ERROR", message := "Loan Statuses are incomplete" }
          else
            let db2 := GroupLoanDal.update db doc._id statuses.group_loan
            let db3 := GroupDal.update db2 group._id statuses.group
            .ok (LogDal.track db3
              { event := "group_loan_approve", group := user,
                message := "Approve Loans for " ++ toString doc._id })

/-- The handler `exports.updateStatus` of `controllers/groupLoan.js`
(`updateGroupLoanStatus`), run by `user` on the group `id`. -/
def updateGroupLoanStatus (isPermitted : Bool) (user : Nat) (id : Nat) (db : Db) :
    Except CustomError Db :=
  if !isPermitted then
    .error { type := "GROUP_LOAN_STATUS_UPDATE_ERROR", message := notPermittedMessage }
  else
    match findOne (fun g => g._id == id) db.groups with
    | none => .error { type := "GROUP_LOANS_UPDATE_STATUS_ERROR", message := "Group Does Not Exist" }
    | some group =>
      match GroupLoanDal.get db group._id with
      | none =>
        .error { type := "GROUP_LOANS_UPDATE_STATUS_ERROR", message := nullPropertyMessage "loans" }
      | some doc =>
        if doc.loans.length == 0 then
          .error { type := "GROUP_LOANS_UPDATE_STATUS_ERROR", message := "No Loan Applications Present!" }
        else
          let statuses := statusChecker doc.loans
          if isFalsy statuses then
            .error { type := "GROUP_LOANS_UPDATE_STATUS_ERROR", message := "Loan Statuses are incomplete" }
          else
            let db2 := GroupLoanDal.update db doc._id statuses.group_loan
            let db3 := GroupDal.update db2 group._id statuses.group
            .ok (LogDal.track db3
              { event := "group_loan_status_update", group := user,
                message := "Update Status of Screenings for  " ++ toString doc._id })

end GroupLoanCtl

namespace GroupACATCtl

/-- The handler `exports.submit` of `controllers/groupACAT.js`
(`submitGroupACATs`), run by `user` on the group `id`. -/
def submitGroupACATs (isPermitted : Bool) (user : Nat) (id : Nat) (db : Db) :
    Except CustomError Db :=
  if !isPermitted then
    .error { type := "GROUP_ACAT_UPDATE_ERROR", message := notPermittedMessage }
  else
    match findOne (fun g => g._id == id) db.groups with
    | none => .error { type := "GROUP_ACATS_SUBMIT_ERROR", message := "Group Does Not Exist" }
    | some group =>
      match GroupACATDal.get db group._id with
      | none =>
        .error { type := "GROUP_ACATS_SUBMIT_ERROR", message := nullPropertyMessage "acats" }
      | some doc =>
        if doc.acats.length == 0 then
          .error { type := "GROUP_ACATS_SUBMIT_ERROR", message := "No ACATs Applications Present!" }
        else
          let statuses := statusChecker doc.acats
          if isFalsy statuses then
            .error { type := "GROUP_ACATS_SUBMIT_ERROR", message := "ACAT Statuses are incomplete" }
          else
            let db1 :=
              if statuses.all_submitted.getD false then
                -- task for approver
                createTaskAndNotify db
                  { _id := 0, task := group.name ++ " Group ACATs Application Submitted",
                    task_type := "approve", entity_ref := doc._id,
                    entity_type := "group_acat", created_by := user,
                    user := group.created_by, branch := group.branch, comment := "None" }
                  user (group.name ++ " Group ACATs Application Submitted Ready For Approval")
              else if statuses.for_review.getD false then
                createTaskAndNotify db
                  { _id := 0, task := group.name ++ " Group ACATs Application Review",
                    task_type := "review", entity_ref := doc._id,
                    entity_type := "group_acat", created_by := user,
                    user := group.created_by, branch := group.branch, comment := "None" }
                  user (group.name ++ " Group ACATs Application Submitted Review")
              else db
            let db2 := GroupACATDal.update db1 doc._id statuses.group_acat
            let db3 := GroupDal.update db2 group._id statuses.group
            .ok (LogDal.track db3
              { event := "group_acat_submit", group := user,
                message := "Submit ACATs for " ++ toString doc._id })

/-- The handler `exports.approve` of `controllers/groupACAT.js`
(`approveGroupACATs`), run by `user` on the group `id`. -/
def approveGroupACATs (isPermitted : Bool) (user : Nat) (id : Nat) (db : Db) :
    Except CustomError Db :=
  if !isPermitted then
    .error { type := "GROUP_APPROVE_UPDATE_ERROR", message := notPermittedMessage }
  else
    match findOne (fun g => g._id == id) db.groups with
    | none => .error { type := "GROUP_ACATS_APPROVE_ERROR", message := "Group Does Not Exist" }
    | some group =>
      match GroupACATDal.get db group._id with
      | none =>
        .error { type := "GROUP_ACATS_APPROVE_ERROR", message := nullPropertyMessage "acats" }
      | some doc =>
        if doc.acats.length == 0 then
          .error { type := "GROUP_ACATS_APPROVE_ERROR", message := "No ACATs Applications Present!" }
        else
          let statuses := statusChecker doc.acats
          if isFalsy statuses then
            .error { type := "GROUP_ACATS_APPROVE_ERROR", message := "ACAT Statuses are incomplete" }
          else
            let db2 := GroupACATDal.update db doc._id statuses.group_acat
            let db3 := GroupDal.update db2 group._id statuses.group
            .ok (LogDal.track db3
              { event := "group_acat_approve", group := user,
                message := "Approve ACATs for " ++ toString doc._id })

/-- The handler `exports.updateStatus` of `controllers/groupACAT.js`
(`updateGroupACATStatus`), run by `user` on the group `id`. -/
def updateGroupACATStatus (isPermitted : Bool) (user : Nat) (id : Nat) (db : Db) :
    Except CustomError Db :=
  if !isPermitted then
    .error { type := "GROUP_ACAT_STATUS_UPDATE_ERROR", message := notPermittedMessage }
  else
    match findOne (fun g => g._id == id) db.groups with
    | none => .error { type := "GROUP_ACAT_UPDATE_STATUS_ERROR", message := "Group Does Not Exist" }
    | some group =>
      match GroupACATDal.get db group._id with
      | none =>
        .error { type := "GROUP_ACAT_UPDATE_STATUS_ERROR", message := nullPropertyMessage "acats" }
      | some doc =>
        if doc.acats.length == 0 then
          .error { type := "GROUP_ACAT_UPDATE_STATUS_ERROR", message := "No ACATs Applications Present!" }
        else
          let statuses := statusChecker doc.acats
          if isFalsy statuses then
            .error { type := "GROUP_ACAT_UPDATE_STATUS_ERROR", message := "ACAT Statuses are incomplete" }
          else
            let db2 := GroupACATDal.update db doc._id statuses.group_acat
            let db3 := GroupDal.update db2 group._id statuses.group
            .ok (LogDal.track db3
              { event := "group_acat_update_status", group := user,
                message := "Update ACATs for " ++ toString doc._id })

end GroupACATCtl

/-! ## Cycle gates and stage-start handlers

The stage-start handlers write before their last possible `throw` (a member
application can fail to be created in the middle of the loop, the history can lack
the active record), so they return an `Outcome`: the store the request leaves behind
together with the error it threw, if any. The external Screening and Loan services
are parameters: a call returns the created member record or fails with a message. -/

/-- What a stage-start request leaves behind: the store, and the error thrown
(`none` when the handler returned). -/
structure Outcome where
  db : Db
  error : Option CustomError
  deriving DecidableEq, Repr

/-- JavaScript `Array.prototype.findIndex`; `none` stands for `-1`. -/
def findIndex {α : Type} (p : α → Bool) : List α → Option Nat
  | [] => none
  | x :: xs => if p x then some 0 else (findIndex p xs).map (fun i => i + 1)

/-- JavaScript `String.prototype.includes`. -/
def includes (s sub : String) : Bool :=
  decide (sub.data <:+: s.data)

/-- A document id not used by any of `ids`. -/
def freshId (ids : List Nat) : Nat :=
  ids.foldl max 0 + 1

/-- Message of the TypeError raised by writing a property of `undefined`. -/
def undefinedPropertyMessage (prop : String) : String :=
  "Cannot set property '" ++ prop ++ "' of undefined"

/-- Modelled from the spec: `dal/group.js` is not in the slice. The call
`GroupDal.update({ _id }, fields)` with several fields, given as a record update. -/
def GroupDal.updateWith (db : Db) (id : Nat) (upd : Group → Group) : Db :=
  { db with groups := findOneAndUpdate (fun g => g._id == id) upd db.groups }

/-- The DAL function `create` of `dal/groupScreening.js`: the saved document gets a
fresh `_id`; `status` and `date_created` take the schema defaults. -/
def GroupScreeningDal.create (db : Db) (group : Nat) (screenings : List MemberRecord)
    (now : Nat) : Db × GroupScreening :=
  let doc : GroupScreening :=
    { _id := freshId (db.groupScreenings.map (fun d => d._id)), group := group,
      status := "new", screenings := screenings, date_created := now }
  ({ db with groupScreenings := db.groupScreenings ++ [doc] }, doc)

/-- The DAL function `create` of `dal/groupLoan.js`, same shape. -/
def GroupLoanDal.create (db : Db) (group : Nat) (now : Nat) : Db × GroupLoan :=
  let doc : GroupLoan :=
    { _id := freshId (db.groupLoans.map (fun d => d._id)), group := group,
      status := "new", loans := [], date_created := now }
  ({ db with groupLoans := db.groupLoans ++ [doc] }, doc)

/-- The DAL call `update({ _id }, { loans })` of `dal/groupLoan.js`. -/
def GroupLoanDal.updateLoans (db : Db) (id : Nat) (loans : List MemberRecord) : Db :=
  { db with groupLoans :=
      (findOneAndUpdate (fun d => d._id == id) (fun d => { d with loans := loans })
        db.groupLoans) }

/-- Modelled from the spec: `dal/groupACAT.js` is not in the slice; `create` saves a
new stage aggregate like the other two DALs. -/
def GroupACATDal.create (db : Db) (group : Nat) (now : Nat) : Db × GroupACAT :=
  let doc : GroupACAT :=
    { _id := freshId (db.groupACATs.map (fun d => d._id)), group := group,
      status := "new", acats := [], date_created := now }
  ({ db with groupACATs := db.groupACATs ++ [doc] }, doc)

/-- A screening record blocks the gates: `new`, `screening_inprogress` or `submitted`. -/
def screeningOpen (status : String) : Bool :=
  status == "new" || status == "screening_inprogress" || status == "submitted"

/-- A loan record blocks the gates: `new`, `submitted` or `inprogress`. -/
def loanOpen (status : String) : Bool :=
  status == "new" || status == "submitted" || status == "inprogress"

/-- An ACAT record blocks the gates: `new`, `submitted`, `resubmitted` or `inprogress`. -/
def acatOpen (status : String) : Bool :=
  status == "new" || status == "submitted" || status == "resubmitted" ||
    status == "inprogress"

namespace GroupScreeningCtl

/-- The gate `validateGroupCycle(body)` of `controllers/groupScreening.js`. Each loop
throws the same error whichever record matches, so the sort order of `find` plays no
role and a loop is `any`. -/
def validateGroupCycle (db : Db) (group : Nat) : Except String (Option GroupScreening) :=
  let screenings := db.groupScreenings.filter (fun d => d.group == group)
  if screenings.any (fun screening => screeningOpen screening.status) then
    .error "The group has a screening in progress and thus has an incomplete loan cycle."
  else
    let loans := db.groupLoans.filter (fun d => d.group == group)
    if loans.any (fun loan => loanOpen loan.status) then
      .error "The group has a loan application in progress and thus has an incomplete loan cycle."
    else
      let clientACATS := db.groupACATs.filter (fun d => d.group == group)
      if clientACATS.any (fun acat => acatOpen acat.status) then
        .error "The group has an ACAT in progress and thus has an incomplete loan cycle."
      else
        .ok (findOneSortDesc (fun d => d.date_created) (fun d => d.group == group)
          db.groupScreenings)

end GroupScreeningCtl

namespace GroupLoanCtl

/-- The gate `validateGroupCycle(body)` of `controllers/groupLoan.js`. -/
def validateGroupCycle (db : Db) (group : Nat) : Except String (Option GroupLoan) :=
  let screenings := db.groupScreenings.filter (fun d => d.group == group)
  if screenings.length == 0 then
    .error "No screening is created for the group yet and loan application can not be created!"
  else if screenings.any (fun screening => screeningOpen screening.status) then
    .error "The group is under screening and loan application can not be created"
  else
    let loans := db.groupLoans.filter (fun d => d.group == group)
    if loans.any (fun loan => loanOpen loan.status) then
      .error "The group has a loan application in progress!!"
    else
      let clientACATS := db.groupACATs.filter (fun d => d.group == group)
      if clientACATS.any (fun acat => acatOpen acat.status) then
        .error "The group has an ACAT in progress and past the loan application stage!!"
      else
        .ok (findOneSortDesc (fun d => d.date_created) (fun d => d.group == group)
          db.groupLoans)

end GroupLoanCtl

namespace GroupACATCtl

/-- The gate `validateGroupCycle(body)` of `controllers/groupACAT.js`. Reading
`loan.status` of an absent most recent loan raises a TypeError. -/
def validateGroupCycle (db : Db) (group : Nat) : Except String (Option GroupACAT) :=
  let screenings := db.groupScreenings.filter (fun d => d.group == group)
  if screenings.length == 0 then
    .error "No screening is created for the group yet and A-CAT processing can not be started!"
  else if screenings.any (fun screening => screeningOpen screening.status) then
    .error "The group is under screening and A-CAT processing can not be started."
  else
    let loans := db.groupLoans.filter (fun d => d.group == group)
    if loans.any (fun loan => loanOpen loan.status) then
      .error "Loan application stage is not completed for the group and A-CAT processing can not be started."
    else
      -- make sure the immediate preceding group loan is accepted (not rejected)
      match findOneSortDesc (fun d => d.date_created) (fun d => d.group == group)
          db.groupLoans with
      | none => .error (nullPropertyMessage "status")
      | some loan =>
        if loan.status == "rejected" then
          .error "The group loan application is rejected and A-CAT processing can not started."
        else
          let clientACATS := db.groupACATs.filter (fun d => d.group == group)
          if clientACATS.any (fun acat => acatOpen acat.status) then
            .error "The group has already an A-CAT application in progress."
          else
            .ok (findOneSortDesc (fun d => d.date_created) (fun d => d.group == group)
              db.groupACATs)

end GroupACATCtl

/-- The request body of `createGroupScreening`; a missing `group` is `none`, a
missing (or zero) `total_amount` is `0`. -/
structure GroupScreeningBody where
  group : Option Nat
  total_amount : Nat
  deriving DecidableEq, Repr

namespace GroupScreeningCtl

/-- The loop of `createGroupScreening` over the member screenings of the last group
screening: one call of the Screening service per member, in order; the first failure
aborts the loop and keeps what was created. -/
def createScreenings (createScreening : MemberRecord → Except String MemberRecord) :
    List MemberRecord → Db → List MemberRecord → Db × Except String (List MemberRecord)
  | [], db, newScreenings => (db, .ok newScreenings)
  | lastScreening :: rest, db, newScreenings =>
    match createScreening lastScreening with
    | .error message => (db, .error message)
    | .ok newScreening =>
      createScreenings createScreening rest
        { db with screenings := db.screenings ++ [newScreening] }
        (newScreenings ++ [newScreening])

/-- The `try` block of `createGroupScreening`: the store it leaves and the message
of the error it throws, if any. -/
def createGroupScreeningTry (user now : Nat)
    (createScreening : MemberRecord → Except String MemberRecord)
    (body : GroupScreeningBody) (db : Db) : Db × Option String :=
  -- 0. do validations
  match body.group with
  | none => (db, some "Group reference is empty")
  | some groupId =>
    if body.total_amount == 0 then (db, some "Total amount is not provided.")
    else
      match findOne (fun g => g._id == groupId) db.groups with
      | none => (db, some "Group Does Not Exist!")
      | some group =>
        match validateGroupCycle db groupId with
        | .error message => (db, some message)
        | .ok lastGroupScreening =>
          match findOne (fun h => h.group == groupId) db.groupHistories with
          | none => (db, some "Group Has No Loan History")
          | some history =>
            let whichCycle := history.cycle_number
            let cycles := history.cycles
            let currentCycleIndex :=
              findIndex (fun cycle => cycle.cycle_number == whichCycle) cycles
            let currentCycle := currentCycleIndex.bind (fun i => cycles[i]?)
            let missingApplications : List String :=
              match currentCycle with
              | some c =>
                (if c.screening.isNone then ["Screening"] else []) ++
                (if c.loan.isNone then ["Loan"] else []) ++
                (if c.acat.isNone then ["ACAT"] else [])
              | none => []
            let cycleOk : Bool :=
              match currentCycle with
              | some c => !(c.acat.isNone || c.loan.isNone || c.screening.isNone)
              | none => true
            if !cycleOk then
              (db, some ("Loan Cycle (" ++ toString whichCycle ++ ") is in progress. Missing " ++
                ",".intercalate missingApplications ++ " Application(s)"))
            else if group.status != "loan_paid" && group.status == "ACAT-Authorized" then
              (db, some "Loan is not even granted for the current loan cycle and thus new loan cycle can not be started.")
            else if group.status != "loan_paid" && group.status == "appraisal_in_progress" then
              (db, some "Loan appraisal is not completed for the current loan cycle and thus new loan cycle can not be started")
            else if group.status != "loan_paid" &&
                (group.status == "loan_granted" || group.status == "payment_in_progress") then
              (db, some "The current loan is not paid fully and thus new loan cycle can not be started.")
            else
              -- 1. create the group screening
              match lastGroupScreening with
              | none => (db, some (nullPropertyMessage "screenings"))
              | some last =>
                match createScreenings createScreening last.screenings db [] with
                | (db1, .error message) => (db1, some message)
                | (db1, .ok newScreenings) =>
                  let created := GroupScreeningDal.create db1 groupId newScreenings now
                  let newGroupScreening := created.2
                  -- 2. update the group status and loan cycle number
                  let db2 := GroupDal.updateWith created.1 group._id (fun g =>
                    { g with
                      status := "new", total_granted_amount := 0, total_paid_amount := 0,
                      total_amount := body.total_amount,
                      loan_cycle_number := group.loan_cycle_number + 1 })
                  -- 3. update history to add the new loan cycle
                  let cycleNumber := history.cycle_number + 1
                  ({ db2 with groupHistories :=
                      (findOneAndUpdate (fun h => h._id == history._id)
                        (fun h =>
                          { h with
                            cycle_number := cycleNumber, last_modified := now,
                            cycles := h.cycles ++
                              [{ cycle_number := cycleNumber, started_by := some user,
                                 last_edit_by := some user,
                                 screening := some newGroupScreening._id,
                                 total_amount := body.total_amount }] })
                        db2.groupHistories) }, none)

/-- The handler `exports.createGroupScreening` of `controllers/groupScreening.js`:
start a new loan cycle for the group of the request body. -/
def createGroupScreening (isPermitted : Bool) (user now : Nat)
    (createScreening : MemberRecord → Except String MemberRecord)
    (body : GroupScreeningBody) (db : Db) : Outcome :=
  if !isPermitted then
    { db := db,
      error := some { type := "GROUP_SCREENING_CREATION_ERROR",
                      message := notPermittedMessage } }
  else
    match createGroupScreeningTry user now createScreening body db with
    | (db1, none) => { db := db1, error := none }
    | (db1, some message) =>
      { db := db1,
        error := some { type := "GROUP_SCREENING_CREATION_ERROR", message := message } }

end GroupScreeningCtl

namespace GroupLoanCtl

/-- The loop of `initializeGroupLoan` over the group members: one call of the Loan
service per member, in order; the first failure aborts the loop and keeps what was
created. -/
def createLoanApplications (createLoanApplication : Nat → Except String MemberRecord) :
    List Nat → Db → List MemberRecord → Db × Except String (List MemberRecord)
  | [], db, loanApps => (db, .ok loanApps)
  | member :: rest, db, loanApps =>
    match createLoanApplication member with
    | .error message => (db, .error message)
    | .ok newLoanApp =>
      createLoanApplications createLoanApplication rest
        { db with loans := db.loans ++ [newLoanApp] } (loanApps ++ [newLoanApp])

/-- The `catch` block of `initializeGroupLoan`: messages of the Loan service are
recognised by substring and replaced by a hint. -/
def remapMessage (message : String) : String :=
  if includes message "Client Has No Loan Application" then
    "One of the members has no loan application."
  else if includes message "Loan Cycle " then
    "One of the members has an unfinished loan cycle."
  else if includes message "Client Has A Loan" then
    "One of the members has a loan application which is in progress."
  else if includes message "Client Has A Screening" then
    "One of the members has a screening which is in progress."
  else message

/-- The `try` block of `initializeGroupLoan`: the store it leaves and the message of
the error it throws, if any. -/
def initializeGroupLoanTry (user now : Nat)
    (createLoanApplication : Nat → Except String MemberRecord)
    (groupId : Nat) (db : Db) : Db × Option String :=
  -- 0. do validations
  match findOne (fun g => g._id == groupId) db.groups with
  | none => (db, some "Group Does Not Exist!")
  | some group =>
    if group.status == "new" then
      (db, some "The group is in pre-screening stage. Thus loan applications can not be created.")
    else
      match validateGroupCycle db groupId with
      | .error message => (db, some message)
      | .ok _ =>
        match findOne (fun h => h.group == groupId) db.groupHistories with
        | none => (db, some "Group Has No Loan History")
        | some history =>
          let whichCycle := history.cycle_number
          let cycles := history.cycles
          let currentCycleIndex :=
            findIndex (fun cycle => cycle.cycle_number == whichCycle) cycles
          let currentCycle := currentCycleIndex.bind (fun i => cycles[i]?)
          let missingApplications : List String :=
            match currentCycle with
            | some c => if c.screening.isNone then ["Screening"] else []
            | none => []
          let cycleOk : Bool :=
            match currentCycle with
            | some c => !c.screening.isNone
            | none => true
          let loanPresent : Bool :=
            match currentCycle with
            | some c => !(!c.screening.isNone && c.loan.isSome)
            | none => true
          if !cycleOk then
            (db, some ("Loan Cycle (" ++ toString whichCycle ++ ") is in progress. Missing " ++
              ", ".intercalate missingApplications ++ " Application(s)"))
          else if !loanPresent then
            (db, some ("Loan Cycle (" ++ toString whichCycle ++
              ") is in progress. Move To A-CAT Application(s)"))
          else
            -- 1. initialize the group loan and set the group status
            let created := GroupLoanDal.create db groupId now
            let groupLoan := created.2
            let db1 := GroupDal.update created.1 groupId "loan_application_new"
            -- 2. create loan applications for all members
            match createLoanApplications createLoanApplication group.members db1
                groupLoan.loans with
            | (db2, .error message) => (db2, some message)
            | (db2, .ok loanApps) =>
              -- 3. update the group loan with the loan applications of the members
              let db3 := GroupLoanDal.updateLoans db2 groupLoan._id loanApps
              -- 4. update the history of the current loan cycle
              match currentCycleIndex with
              | none => (db3, some (undefinedPropertyMessage "loan"))
              | some i =>
                let cycles1 := cycles.modify
                  (fun c =>
                    { c with
                      loan := some groupLoan._id, last_edit_by := some user,
                      last_modified := now }) i
                ({ db3 with groupHistories :=
                    (findOneAndUpdate (fun h => h._id == history._id)
                      (fun h => { h with cycles := cycles1, last_modified := now })
                      db3.groupHistories) }, none)

/-- The handler `exports.initializeGroupLoan` of `controllers/groupLoan.js`. -/
def initializeGroupLoan (isPermitted : Bool) (user now : Nat)
    (createLoanApplication : Nat → Except String MemberRecord)
    (groupId : Nat) (db : Db) : Outcome :=
  if !isPermitted then
    { db := db,
      error := some { type := "GROUP_LOAN_CREATION_ERROR", message := notPermittedMessage } }
  else
    match initializeGroupLoanTry user now createLoanApplication groupId db with
    | (db1, none) => { db := db1, error := none }
    | (db1, some message) =>
      { db := db1,
        error := some { type := "GROUP_LOAN_INITIALIZE_ERROR",
                        message := remapMessage message } }

end GroupLoanCtl

namespace GroupACATCtl

/-- The `try` block of `createGroupACAT`: the store it leaves and the message of the
error it throws, if any. -/
def createGroupACATTry (user now : Nat) (groupId : Nat) (db : Db) : Db × Option String :=
  -- 0. do validations
  match findOne (fun g => g._id == groupId) db.groups with
  | none => (db, some "Group Does Not Exist!")
  | some group =>
    if group.status == "new" then
      (db, some "The group is in pre-screening stage. Thus A-CAT evalaution can not be started.")
    else
      match validateGroupCycle db groupId with
      | .error message => (db, some message)
      | .ok _ =>
        match findOne (fun h => h.group == groupId) db.groupHistories with
        | none => (db, some "Group Has No Loan History")
        | some history =>
          let whichCycle := history.cycle_number
          let cycles := history.cycles
          let currentCycleIndex :=
            findIndex (fun cycle => cycle.cycle_number == whichCycle) cycles
          let currentCycle := currentCycleIndex.bind (fun i => cycles[i]?)
          let missingApplications : List String :=
            match currentCycle with
            | some c =>
              if c.screening.isNone || c.loan.isNone then
                (if c.screening.isNone then ["Screening"] else []) ++
                (if c.loan.isNone then ["Loan"] else [])
              else []
            | none => []
          let cycleOk : Bool :=
            match currentCycle with
            | some c => !(c.screening.isNone || c.loan.isNone)
            | none => true
          let acatPresent : Bool :=
            match currentCycle with
            | some c => !(!(c.screening.isNone || c.loan.isNone) && c.acat.isSome)
            | none => true
          if !cycleOk then
            (db, some ("Loan Cycle (" ++ toString whichCycle ++ ") is in progress. Missing " ++
              ", ".intercalate missingApplications ++ " Application(s)"))
          else if !acatPresent then
            (db, some ("Loan Cycle (" ++ toString whichCycle ++ ") is in progress."))
          else
            -- 1. create the group ACAT
            let created := GroupACATDal.create db groupId now
            let groupACAT := created.2
            let db1 := GroupDal.update created.1 groupId "ACAT_New"
            -- 2. update the history of the current loan cycle
            match currentCycleIndex with
            | none => (db1, some (undefinedPropertyMessage "acat"))
            | some i =>
              let cycles1 := cycles.modify
                (fun c =>
                  { c with
                    acat := some groupACAT._id, last_edit_by := some user,
                    last_modified := now }) i
              ({ db1 with groupHistories :=
                  (findOneAndUpdate (fun h => h._id == history._id)
                    (fun h => { h with cycles := cycles1, last_modified := now })
                    db1.groupHistories) }, none)

/-- The handler `exports.create` of `controllers/groupACAT.js` (`createGroupACAT`);
a request body without `group` is refused by the body check. -/
def createGroupACAT (isPermitted : Bool) (user now : Nat) (bodyGroup : Option Nat)
    (db : Db) : Outcome :=
  if !isPermitted then
    { db := db,
      error := some { type := "GROUP_ACAT_CREATION_ERROR", message := notPermittedMessage } }
  else
    match bodyGroup with
    | none =>
      { db := db,
        error := some { type := "GROUP_ACAT_CREATION_ERROR",
                        message := "Group Reference is Empty" } }
    | some groupId =>
      match createGroupACATTry user now groupId db with
      | (db1, none) => { db := db1, error := none }
      | (db1, some message) =>
        { db := db1, error := some { type := "GROUP_ACAT_VIEW_ERROR", message := message } }

end GroupACATCtl

/-! ## Group status handler (`controllers/group.js`) -/

/-- Modelled from the spec: `dal/client.js` is not in the slice. The call
`ClientDal.update({ _id }, { status })`. -/
def ClientDal.update (db : Db) (id : Nat) (status : String) : Db :=
  { db with clients :=
      (findOneAndUpdate (fun c => c._id == id) (fun c => { c with status := status })
        db.clients) }

/-- The call `GroupHistory.findOneAndUpdate({ group, cycles: { $elemMatch:
{ cycle_number } } }, { $set: { 'cycles.$.<field>': value } })`: in the first history
of the group that has a record of that cycle, the first such record is updated. -/
def recordCycleAmount (db : Db) (group cycle_number : Nat) (upd : CycleRecord → CycleRecord) :
    Db :=
  { db with groupHistories :=
      (findOneAndUpdate
        (fun h => h.group == group && h.cycles.any (fun c => c.cycle_number == cycle_number))
        (fun h =>
          { h with
            cycles := findOneAndUpdate (fun c => c.cycle_number == cycle_number) upd h.cycles })
        db.groupHistories) }

namespace GroupCtl

/-- Result object of the `statusChecker` nested in `updateGroupStatus`. -/
structure Statuses where
  group : String
  deriving DecidableEq, Repr

/-- The function `statusChecker(statuses)` nested in `updateGroupStatus`; a bare
`return` is `none`. -/
def statusChecker (statuses : List String) : Option Statuses :=
  if containsOnly statuses ["loan_granted"] then
    some { group := "loan_granted" }
  else if containsOnly statuses ["loan_paid"] then
    some { group := "loan_paid" }
  else if containsOnly statuses ["loan_granted", "loan_paid"] then
    some { group := "payment_in_progress" }
  else if statuses.contains "loan_granted" then
    some { group := "appraisal_in_progress" }
  else none

/-- What the member loop of `updateGroupStatus` accumulates. -/
structure MemberTotals where
  statuses : List String := []
  granted_amount : Nat := 0
  paid_amount : Nat := 0
  deriving DecidableEq, Repr

/-- The member loop of the derived branch of `updateGroupStatus`: read each client
and its latest loan proposal; an absent client or proposal raises a TypeError. -/
def collectMembers (db : Db) : List Nat → MemberTotals → Except String MemberTotals
  | [], acc => .ok acc
  | member :: rest, acc =>
    match findOne (fun c => c._id == member) db.clients with
    | none => .error (nullPropertyMessage "status")
    | some client =>
      match findOneSortDesc (fun p => p.date_created) (fun p => p.client == member)
          db.loanProposals with
      | none => .error (nullPropertyMessage "loan_approved")
      | some loanProposal =>
        collectMembers db rest
          { statuses := acc.statuses ++ [client.status],
            granted_amount := acc.granted_amount + loanProposal.loan_approved,
            paid_amount :=
              if client.status == "loan_paid" then
                acc.paid_amount + loanProposal.loan_approved
              else acc.paid_amount }

/-- The handler `exports.updateStatus` of `controllers/group.js`
(`updateGroupStatus`). `bodyStatus` is `request.body.status`; it counts as given when
it is truthy, that is present and not the empty string. Every `throw` precedes the
first write. -/
def updateGroupStatus (isPermitted : Bool) (id : Nat) (bodyStatus : Option String)
    (db : Db) : Except CustomError Db :=
  if !isPermitted then
    .error { type := "GROUP_UPDATE_STATUS_ERROR", message := notPermittedMessage }
  else
    match findOne (fun g => g._id == id) db.groups with
    | none => .error { type := "GROUP_UPDATE_STATUS_ERROR", message := "Group Does Not Exist" }
    | some group =>
      if (bodyStatus.getD "") != "" then
        let status := bodyStatus.getD ""
        if status != "loan_paid" then
          .error { type := "GROUP_UPDATE_STATUS_ERROR",
                   message := "Allowed values for status is only loan_paid" }
        else if group.status == "ACAT-Authorized" then
          .error { type := "GROUP_UPDATE_STATUS_ERROR",
                   message := "Loan is not yet granted to all or some of the members." }
        else if group.status == "loan_paid" then
          .error { type := "GROUP_UPDATE_STATUS_ERROR",
                   message := "All members of this group paid their loans, and status can not be modified" }
        else if !(group.status == "loan_granted" || group.status == "payment_in_progress" ||
            group.status == "loan_paid") then
          .error { type := "GROUP_UPDATE_STATUS_ERROR",
                   message := "The group loan appraisal process is not yet completed." }
        else
          -- update the group: set status, make total_paid_amount the granted amount
          let db1 := GroupDal.updateWith db group._id (fun g =>
            { g with status := status, total_paid_amount := group.total_granted_amount })
          -- update each member of the group
          let db2 := group.members.foldl (fun d member => ClientDal.update d member status) db1
          -- update the loan cycle to record the total paid amount
          .ok (recordCycleAmount db2 group._id group.loan_cycle_number
            (fun c => { c with total_paid_amount := group.total_granted_amount }))
      else
        match collectMembers db group.members {} with
        | .error message =>
          .error { type := "GROUP_UPDATE_STATUS_ERROR", message := message }
        | .ok totals =>
          match statusChecker totals.statuses with
          | none => .ok db
          | some status =>
            if status.group == "loan_granted" || status.group == "appraisal_in_progress" then
              let db1 := GroupDal.updateWith db id (fun g =>
                { g with status := status.group, total_granted_amount := totals.granted_amount })
              .ok (recordCycleAmount db1 id group.loan_cycle_number
                (fun c => { c with total_granted_amount := totals.granted_amount }))
            else if status.group == "loan_paid" || status.group == "payment_in_progress" then
              let db1 := GroupDal.updateWith db id (fun g =>
                { g with status := status.group, total_paid_amount := totals.paid_amount })
              .ok (recordCycleAmount db1 id group.loan_cycle_number
                (fun c => { c with total_paid_amount := totals.paid_amount }))
            else .ok db

end GroupCtl

/-! ## Group creation, members and leader (`controllers/group.js`) -/

/-- Lodash `_.uniq`: duplicates are dropped, the first occurrence is kept. -/
def uniq {α : Type} [DecidableEq α] : List α → List α
  | [] => []
  | x :: xs => x :: (uniq xs).filter (fun y => y != x)

/-- The request body of `createGroup`: the four parameters of its route, the key
`members`, which the handler tests, and the key `leader`, which it forwards to the DAL
with the rest of the body; a missing key is `none`. -/
structure GroupBody where
  name : Option String
  branch : Option Nat
  no_of_members : Option Nat
  total_amount : Option Nat
  members : Option (List Nat) := none
  leader : Option Nat := none
  deriving DecidableEq, Repr

/-- Modelled from the spec: `dal/group.js` and the Group schema are not in the slice.
`GroupDal.create(body)` saves the body as given, like `create` of the stage DALs
(`new Model(data).save()`): the document gets a fresh `_id`, the keys of the body,
among them the `created_by` and `loan_cycle_number` the handler has put there, and the
schema defaults elsewhere (status `new`, no members, totals 0). -/
def GroupDal.create (db : Db) (body : GroupBody) (created_by loan_cycle_number : Nat) :
    Db × Group :=
  let doc : Group :=
    { _id := freshId (db.groups.map (fun g => g._id)), name := body.name.getD "",
      branch := body.branch.getD 0, created_by := created_by, status := "new",
      members := body.members.getD [], leader := body.leader,
      no_of_members := body.no_of_members.getD 0, loan_cycle_number := loan_cycle_number,
      total_amount := body.total_amount.getD 0 }
  ({ db with groups := db.groups ++ [doc] }, doc)

/-- The DAL call `GroupScreeningDal.update({ _id }, { screenings })`. -/
def GroupScreeningDal.updateScreenings (db : Db) (id : Nat)
    (screenings : List MemberRecord) : Db :=
  { db with groupScreenings :=
      (findOneAndUpdate (fun d => d._id == id) (fun d => { d with screenings := screenings })
        db.groupScreenings) }

namespace GroupCtl

/-- The failed `checkBody(key).notEmpty(message)` checks of `createGroup`, in order, as
pairs of key and message; `notEmpty` refuses a missing value and the empty string. -/
def createGroupErrors (body : GroupBody) : List (String × String) :=
  (if body.name.getD "" == "" then [("name", "Group Name is Empty.")] else []) ++
  (if body.branch.isNone then [("branch", "Branch is Empty.")] else []) ++
  (if body.no_of_members.isNone then
    [("no_of_members", "Number of members is not specified.")] else []) ++
  (if body.total_amount.isNone then
    [("total_amount", "Total amount is not specified.")] else [])

/-- The text `JSON.stringify(this.errors)`: an array of objects with one key each. -/
def stringifyErrors (errors : List (String × String)) : String :=
  "[" ++ ",".intercalate
    (errors.map (fun e => "\x7b\"" ++ e.1 ++ "\":\"" ++ e.2 ++ "\"\x7d")) ++ "]"

/-- The handler `exports.create` of `controllers/group.js` (`createGroup`). The
request body is refused only when one of the four parameters is empty or when it has
`members`; it is then passed to `GroupDal.create` with `created_by` and
`loan_cycle_number = 1` set. The group, its first GroupScreening and its ledger are
created in this order. -/
def createGroup (isPermitted : Bool) (user now : Nat) (body : GroupBody) (db : Db) :
    Except CustomError Db :=
  if !isPermitted then
    .error { type := "GROUP_CREATION_ERROR", message := notPermittedMessage }
  else if createGroupErrors body != [] then
    .error { type := "GROUP_CREATION_ERROR",
             message := stringifyErrors (createGroupErrors body) }
  else if body.members.isSome then
    .error { type := "GROUP_CREATION_ERROR",
             message := "Use PUT /groups/:id/members to add members" }
  else
    -- create the group
    let createdGroup := GroupDal.create db body user 1
    let group := createdGroup.2
    -- add the group screening
    let created := GroupScreeningDal.create createdGroup.1 group._id [] now
    let groupScreening := created.2
    -- create the history record (start history tracking)
    .ok { created.1 with groupHistories := created.1.groupHistories ++
      [{ _id := freshId (created.1.groupHistories.map (fun h => h._id)),
         group := group._id,
         cycles := [{ started_by := some user, last_edit_by := some user,
                      screening := some groupScreening._id,
                      total_amount := body.total_amount.getD 0, cycle_number := 1 }],
         branch := group.branch, cycle_number := 1 }] }

/-- The latest screening of each member that has one, in the order of `members`
(the Screening store keeps its records in creation order). -/
def latestScreenings (db : Db) (members : List Nat) : List MemberRecord :=
  members.filterMap (fun member =>
    (db.screenings.filter (fun s => s.client == member)).getLast?)

/-- The handler `exports.addMembers` of `controllers/group.js`. The `for_group` flags
it sets on clients and screenings are not part of the store. -/
def addMembers (isPermitted : Bool) (user id : Nat) (bodyMembers : Option (List Nat))
    (db : Db) : Except CustomError Db :=
  if !isPermitted then
    .error { type := "GROUP_UPDATE_MEMBERS_ERROR", message := notPermittedMessage }
  else
    match bodyMembers with
    | none =>
      .error { type := "GROUP_UPDATE_MEMBERS_ERROR",
               message := "Group Members Reference is Empty" }
    | some newMembers =>
      match findOne (fun g => g._id == id) db.groups with
      | none => .error { type := "GROUP_UPDATE_MEMBERS_ERROR", message := "Group Not Found" }
      | some group =>
        if group.no_of_members == group.members.length then
          .error { type := "GROUP_UPDATE_MEMBERS_ERROR",
                   message := "Number of Members Exceeded!" }
        else
          let members := uniq (group.members ++ newMembers)
          -- upsert members screenings
          match findOne (fun d => d.group == group._id) db.groupScreenings with
          | none =>
            .error { type := "GROUP_UPDATE_MEMBERS_ERROR",
                     message := nullPropertyMessage "screenings" }
          | some groupScreening =>
            let memberScreenings :=
              uniq (groupScreening.screenings ++ latestScreenings db members)
            let db1 := GroupScreeningDal.updateScreenings db groupScreening._id memberScreenings
            -- update group
            let db2 := GroupDal.updateWith db1 group._id (fun g => { g with members := members })
            .ok (LogDal.track db2
              { event := "group_update_members", group := user,
                message := "Update Members for " ++ group.name })

/-- The handler `exports.addLeader` of `controllers/group.js`. -/
def addLeader (isPermitted : Bool) (user id : Nat) (bodyLeader : Option Nat) (db : Db) :
    Except CustomError Db :=
  if !isPermitted then
    .error { type := "GROUP_UPDATE_LEADER_ERROR", message := notPermittedMessage }
  else
    match bodyLeader with
    | none =>
      .error { type := "GROUP_UPDATE_LEADER_ERROR",
               message := "Group Leader Reference is Empty" }
    | some leader =>
      match findOne (fun g => g._id == id) db.groups with
      | none => .error { type := "GROUP_UPDATE_LEADER_ERROR", message := "Group Not Found" }
      | some group =>
        let isMember := group.members.any (fun member => member == leader)
        if !isMember then
          .error { type := "GROUP_UPDATE_LEADER_ERROR",
                   message := "Selected Leader is Not a Member of this group" }
        else
          let db1 := GroupDal.updateWith db group._id (fun g => { g with leader := some leader })
          .ok (LogDal.track db1
            { event := "group_update_leader", group := user,
              message := "Update Leader for " ++ group.name })

end GroupCtl

/-- The stores reachable from the empty store through group creation, `addMembers`
and `addLeader`. -/
inductive Reachable : Db → Prop
  | empty : Reachable {}
  | create (db db1 : Db) (isPermitted : Bool) (user now : Nat) (body : GroupBody) :
      Reachable db → GroupCtl.createGroup isPermitted user now body db = .ok db1 →
      Reachable db1
  | addMembers (db db1 : Db) (isPermitted : Bool) (user id : Nat)
      (bodyMembers : Option (List Nat)) :
      Reachable db → GroupCtl.addMembers isPermitted user id bodyMembers db = .ok db1 →
      Reachable db1
  | addLeader (db db1 : Db) (isPermitted : Bool) (user id : Nat) (bodyLeader : Option Nat) :
      Reachable db → GroupCtl.addLeader isPermitted user id bodyLeader db = .ok db1 →
      Reachable db1

/-- The store a request leaves behind: the new store when the handler returns, the
old one when it throws (every throw precedes the first write). -/
def storeAfter (db : Db) (r : Except CustomError Db) : Db :=
  match r with
  | .ok db1 => db1
  | .error _ => db

/-- Whether a request returned rather than threw. -/
def succeeded (r : Except CustomError Db) : Bool :=
  match r with
  | .ok _ => true
  | .error _ => false

/-- Two optional documents are both absent, or both present and related. -/
def optRel {α : Type} (R : α → α → Prop) (a b : Option α) : Prop :=
  (a = none ∧ b = none) ∨ ∃ x y, a = some x ∧ b = some y ∧ R x y

/-! ## Sample stores -/

/-- A group created by user 9. -/
def sampleGroup : Group :=
  { _id := 1, name := "Abay", branch := 5, created_by := 9, status := "new" }

/-- A screening aggregate whose three members have all submitted. -/
def sampleScreening : GroupScreening :=
  { _id := 10, group := 1, status := "new", date_created := 100,
    screenings := [⟨1, "submitted"⟩, ⟨2, "submitted"⟩, ⟨3, "submitted"⟩] }

/-- A loan aggregate with one accepted member and one declined under review. -/
def sampleLoan : GroupLoan :=
  { _id := 20, group := 1, status := "new", date_created := 200,
    loans := [⟨1, "accepted"⟩, ⟨2, "declined_under_review"⟩] }

/-- An ACAT aggregate with one new and one submitted member. -/
def sampleACAT : GroupACAT :=
  { _id := 30, group := 1, status := "new", date_created := 300,
    acats := [⟨1, "new"⟩, ⟨2, "submitted"⟩] }

/-- A store holding the sample group and its three stage aggregates. -/
def sampleDb : Db :=
  { groups := [sampleGroup], groupScreenings := [sampleScreening],
    groupLoans := [sampleLoan], groupACATs := [sampleACAT] }

/-- A screening aggregate in a mixed state: one member new, one submitted. -/
def mixedScreening : GroupScreening :=
  { _id := 11, group := 1, status := "new", date_created := 100,
    screenings := [⟨1, "new"⟩, ⟨2, "submitted"⟩] }

/-- A store whose only screening aggregate is the mixed one. -/
def mixedDb : Db :=
  { groups := [sampleGroup], groupScreenings := [mixedScreening] }

/-- A screened group of two members, created by user 9. -/
def cycleGroup : Group :=
  { _id := 1, name := "Abay", branch := 5, created_by := 9, status := "eligible",
    members := [101, 102], no_of_members := 5, total_amount := 1000 }

/-- A screening aggregate of the group, approved. -/
def approvedScreening : GroupScreening :=
  { _id := 10, group := 1, status := "approved", date_created := 100,
    screenings := [⟨101, "approved"⟩, ⟨102, "approved"⟩] }

/-- A loan aggregate of the group, accepted. -/
def acceptedLoan : GroupLoan :=
  { _id := 20, group := 1, status := "accepted", date_created := 200,
    loans := [⟨101, "accepted"⟩, ⟨102, "accepted"⟩] }

/-- A later loan aggregate of the group, rejected. -/
def rejectedLoan : GroupLoan :=
  { _id := 21, group := 1, status := "rejected", date_created := 300,
    loans := [⟨101, "rejected"⟩, ⟨102, "accepted"⟩] }

/-- An ACAT aggregate of the group, authorized. -/
def authorizedACAT : GroupACAT :=
  { _id := 30, group := 1, status := "authorized", date_created := 400,
    acats := [⟨101, "authorized"⟩, ⟨102, "authorized"⟩] }

/-- An ACAT aggregate of the group that is still in progress. -/
def openACAT : GroupACAT :=
  { _id := 31, group := 1, status := "inprogress", date_created := 400,
    acats := [⟨101, "authorized"⟩, ⟨102, "inprogress"⟩] }

/-- The first cycle record with its screening attached. -/
def screenedCycle : CycleRecord :=
  { cycle_number := 1, screening := some 10, total_amount := 1000,
    started_by := some 9, last_edit_by := some 9 }

/-- The ledger of the group in its first cycle, after screening. -/
def screenedHistory : GroupHistory :=
  { _id := 50, group := 1, branch := 5, cycle_number := 1, cycles := [screenedCycle] }

/-- A store in which the group is ready for loan initialization. -/
def screenedDb : Db :=
  { groups := [cycleGroup], groupScreenings := [approvedScreening],
    groupHistories := [screenedHistory] }

/-- A store in which the group has an accepted loan and is ready for the ACAT. -/
def loanDb : Db :=
  { groups := [{ cycleGroup with status := "loan_application_accepted" }],
    groupScreenings := [approvedScreening], groupLoans := [acceptedLoan],
    groupHistories := [{ screenedHistory with
      cycles := [{ screenedCycle with loan := some 20 }] }] }

/-- The store `loanDb` with a later, rejected loan aggregate. -/
def rejectedDb : Db :=
  { loanDb with groupLoans := [acceptedLoan, rejectedLoan] }

/-- A store in which the first cycle of the group is complete and the loan is paid. -/
def paidDb : Db :=
  { groups := [{ cycleGroup with status := "loan_paid", total_granted_amount := 900,
                                 total_paid_amount := 900 }],
    groupScreenings := [approvedScreening], groupLoans := [acceptedLoan],
    groupACATs := [authorizedACAT],
    groupHistories := [{ screenedHistory with
      cycles := [{ screenedCycle with loan := some 20, acat := some 30,
                                      total_granted_amount := 900,
                                      total_paid_amount := 900 }] }] }

/-- The store `paidDb` whose ACAT aggregate is still in progress. -/
def openAcatDb : Db :=
  { paidDb with groupACATs := [openACAT] }

/-- A store whose ledger has a cycle record without a screening reference. -/
def noScreeningRefDb : Db :=
  { screenedDb with groupHistories := [{ screenedHistory with
      cycles := [{ screenedCycle with screening := none }] }] }

/-- A store whose ledger has no record of its current cycle number 2. -/
def noActiveRecordDb : Db :=
  { screenedDb with groupHistories := [{ screenedHistory with cycle_number := 2 }] }

/-- A Screening service that creates a new screening for the client of the last one. -/
def okScreeningService (last : MemberRecord) : Except String MemberRecord :=
  .ok { client := last.client, status := "new" }

/-- A Loan service that creates a new loan application for the member. -/
def okLoanService (member : Nat) : Except String MemberRecord :=
  .ok { client := member, status := "new" }

/-- The store `loanDb` whose ledger has no record of its current cycle number 2. -/
def loanNoActiveDb : Db :=
  { loanDb with groupHistories := [{ screenedHistory with
      cycle_number := 2, cycles := [{ screenedCycle with loan := some 20 }] }] }

/-- The store `paidDb` whose ledger has no record of its current cycle number 2. -/
def paidNoActiveDb : Db :=
  { paidDb with groupHistories := [{ screenedHistory with
      cycle_number := 2,
      cycles := [{ screenedCycle with loan := some 20, acat := some 30 }] }] }

/-- Two clients whose loans are granted, with their loan proposals. -/
def grantedClients : List Client :=
  [{ _id := 101, status := "loan_granted" }, { _id := 102, status := "loan_granted" }]

/-- The latest loan proposals of the two clients. -/
def sampleProposals : List LoanProposal :=
  [{ client := 101, loan_approved := 500, date_created := 10 },
   { client := 102, loan_approved := 400, date_created := 11 }]

/-- The ledger of the group in its first cycle with all three stages attached. -/
def completeHistory : GroupHistory :=
  { screenedHistory with
    cycles := [{ screenedCycle with loan := some 20, acat := some 30,
                                    total_granted_amount := 900 }] }

/-- A store in which the group is `ACAT-Authorized` and its members are granted. -/
def authorizedDb : Db :=
  { groups := [{ cycleGroup with status := "ACAT-Authorized" }],
    groupScreenings := [approvedScreening], groupLoans := [acceptedLoan],
    groupACATs := [authorizedACAT], groupHistories := [completeHistory],
    clients := grantedClients, loanProposals := sampleProposals }

/-- A store in which the loan of the group is granted (900 in total). -/
def grantedDb : Db :=
  { authorizedDb with
    groups := [{ cycleGroup with status := "loan_granted", total_granted_amount := 900 }] }

/-- A group with room for two members that has one. -/
def smallGroup : Group :=
  { _id := 2, name := "Tana", branch := 5, created_by := 9, status := "new",
    members := [101], no_of_members := 2 }

/-- A store holding the small group and its empty first screening aggregate. -/
def smallDb : Db :=
  { groups := [smallGroup],
    groupScreenings := [{ _id := 12, group := 2, status := "new", screenings := [],
                          date_created := 50 }] }

/-! ## Vocabulary of the claims -/

/-- The statuses of a list of member records, in order. -/
def statusesOf (records : List MemberRecord) : List String :=
  records.map (fun r => r.status)

/-- Every status of the non-empty list `statuses` equals `s`. -/
def allAre (s : String) (statuses : List String) : Prop :=
  statuses ≠ [] ∧ ∀ x ∈ statuses, x = s

instance (s : String) (statuses : List String) : Decidable (allAre s statuses) :=
  inferInstanceAs (Decidable (_ ∧ _))

/-- One of the five specific cases of the screening ladder applies to `st`. -/
def screeningSpecificCase (st : List String) : Prop :=
  allAre "new" st ∨ allAre "submitted" st ∨ allAre "approved" st ∨
  ("declined_final" ∈ st ∧ "new" ∉ st ∧ "submitted" ∉ st ∧ "screening_inprogress" ∉ st) ∨
  ("declined_under_review" ∈ st ∧ "new" ∉ st ∧ "submitted" ∉ st ∧
    "screening_inprogress" ∉ st)

/-- One of the five specific cases of the loan ladder applies to `st`. -/
def loanSpecificCase (st : List String) : Prop :=
  allAre "new" st ∨ allAre "submitted" st ∨ allAre "accepted" st ∨
  ("rejected" ∈ st ∧ "new" ∉ st ∧ "submitted" ∉ st ∧ "inprogress" ∉ st) ∨
  ("declined_under_review" ∈ st ∧ "new" ∉ st ∧ "submitted" ∉ st ∧ "inprogress" ∉ st)

/-- One of the five specific cases of the ACAT ladder applies to `st`. -/
def acatSpecificCase (st : List String) : Prop :=
  allAre "new" st ∨ allAre "submitted" st ∨ allAre "authorized" st ∨
  ("declined_for_review" ∈ st ∧ "new" ∉ st ∧ "submitted" ∉ st ∧ "resubmitted" ∉ st ∧
    "inprogress" ∉ st) ∨
  ("resubmitted" ∈ st ∧ "new" ∉ st ∧ "declined_for_review" ∉ st ∧ "inprogress" ∉ st)

instance (st : List String) : Decidable (screeningSpecificCase st) := by
  unfold screeningSpecificCase; infer_instance

instance (st : List String) : Decidable (loanSpecificCase st) := by
  unfold loanSpecificCase; infer_instance

instance (st : List String) : Decidable (acatSpecificCase st) := by
  unfold acatSpecificCase; infer_instance

/-- The renaming of member and stage statuses from the screening to the loan
vocabulary: `approved` to `accepted`, `declined_final` to `rejected`,
`screening_inprogress` to `inprogress`, others unchanged. -/
def renameStatus (s : String) : String :=
  if s = "approved" then "accepted"
  else if s = "declined_final" then "rejected"
  else if s = "screening_inprogress" then "inprogress"
  else s

/-- The renaming of group statuses from the screening to the loan vocabulary. -/
def renameGroupStatus (s : String) : String :=
  if s = "screening_in_progress" then "loan_application_inprogress"
  else if s = "screening_submitted" then "loan_application_submitted"
  else if s = "eligible" then "loan_application_accepted"
  else if s = "ineligible" then "loan_application_rejected"
  else s

/-- A screening result read in the loan vocabulary, flags kept. -/
def renameResult (r : GroupScreeningCtl.Statuses) : GroupLoanCtl.Statuses :=
  { group := renameGroupStatus r.group, group_loan := renameStatus r.group_screening,
    all_submitted := r.all_submitted, for_review := r.for_review }

/-- A member record with its status read in the loan vocabulary. -/
def renameRecord (r : MemberRecord) : MemberRecord :=
  { r with status := renameStatus r.status }

/-- The ACAT ladder as the specification words it, first match wins. -/
def acatLadder (st : List String) : GroupACATCtl.Statuses :=
  if allAre "new" st then
    { group := "ACAT_IN_PROGRESS", group_acat := "new" }
  else if allAre "submitted" st then
    { group := "ACAT-submitted", group_acat := "submitted", all_submitted := some true }
  else if allAre "authorized" st then
    { group := "ACAT-Authorized", group_acat := "authorized" }
  else if "declined_for_review" ∈ st ∧ "new" ∉ st ∧ "submitted" ∉ st ∧
      "resubmitted" ∉ st ∧ "inprogress" ∉ st then
    { group := "ACAT_Declined_For_Review", group_acat := "declined_for_review" }
  else if "resubmitted" ∈ st ∧ "new" ∉ st ∧ "declined_for_review" ∉ st ∧
      "inprogress" ∉ st then
    { group := "ACAT-Resubmitted", group_acat := "resubmitted" }
  else
    { group := "ACAT_IN_PROGRESS", group_acat := "inprogress" }

/-- The derivation of the group payment status as the specification words it; `none`
when no status is derived. -/
def paymentLadder (st : List String) : Option String :=
  if allAre "loan_granted" st then some "loan_granted"
  else if allAre "loan_paid" st then some "loan_paid"
  else if st.toFinset = {"loan_granted", "loan_paid"} then some "payment_in_progress"
  else if "loan_granted" ∈ st then some "appraisal_in_progress"
  else none

/-- The ledger of the group `g` mirrors the group: its cycle number is the loan cycle
number of the group and it holds exactly one cycle record for each cycle number from 1
to that number, in increasing order. -/
def ledgerMirrorsGroup (db : Db) (g : Nat) : Prop :=
  ∃ group history,
    findOne (fun x => x._id == g) db.groups = some group ∧
    findOne (fun x => x.group == g) db.groupHistories = some history ∧
    history.cycle_number = group.loan_cycle_number ∧
    history.cycles.map (fun c => c.cycle_number) = List.range' 1 history.cycle_number

/-- The leader of every group of the store, when set, is one of its members. -/
def leaderIsMember (db : Db) : Prop :=
  ∀ g ∈ db.groups, ∀ l, g.leader = some l → l ∈ g.members

/-- The store `db1` keeps the groups and the ledgers of `db`, in the same order, with
their ids, their cycle numbers and the cycle numbers of their cycle records. -/
def sameCycles (db db1 : Db) : Prop :=
  List.Forall₂
    (fun a b : Group => b._id = a._id ∧ b.loan_cycle_number = a.loan_cycle_number)
    db.groups db1.groups ∧
  List.Forall₂
    (fun a b : GroupHistory => b._id = a._id ∧ b.group = a.group ∧
      b.cycle_number = a.cycle_number ∧
      b.cycles.map (fun c => c.cycle_number) = a.cycles.map (fun c => c.cycle_number))
    db.groupHistories db1.groupHistories

/-- The ledger invariant for the group `g` on a store whose ledgers have distinct
ids: the ledger of the group mirrors the group. -/
def ledgerInvariant (db : Db) (g : Nat) : Prop :=
  (db.groupHistories.map (fun x => x._id)).Nodup ∧ ledgerMirrorsGroup db g

/-! ## Lemmas on `containsOnly` -/

theorem containsOnly_iff_mem (orig against : List String) :
    containsOnly orig against = true ↔ ∀ x, x ∈ orig ↔ x ∈ against := by
  unfold containsOnly
  simp
  constructor
  · rintro ⟨h1, h2⟩ x
    exact ⟨fun hx => h2 x hx, fun hx => h1 x hx⟩
  · intro h
    exact ⟨fun x hx => (h x).2 hx, fun x hx => (h x).1 hx⟩

theorem containsOnly_singleton (statuses : List String) (s : String) :
    containsOnly statuses [s] = true ↔ allAre s statuses := by
  rw [containsOnly_iff_mem]
  unfold allAre
  constructor
  · intro h
    refine ⟨?_, fun x hx => by simpa using (h x).1 hx⟩
    intro hnil
    have := (h s).2 (by simp)
    simp [hnil] at this
  · rintro ⟨hne, hall⟩ x
    constructor
    · intro hx
      simp [hall x hx]
    · intro hx
      have hxs : x = s := by simpa using hx
      obtain ⟨y, ys, rfl⟩ := List.exists_cons_of_ne_nil hne
      have : y = s := hall y (by simp)
      simp [hxs, this]

theorem containsOnly_singleton_false (statuses : List String) (s : String) :
    containsOnly statuses [s] = false ↔ ¬ allAre s statuses := by
  rw [← containsOnly_singleton, Bool.not_eq_true]

/-! ## The reducers on uniform and declined lists -/

theorem contains_statuses_true {records : List MemberRecord} {s : String}
    (h : s ∈ statusesOf records) :
    (records.map (fun r => r.status)).contains s = true := by
  simpa [statusesOf] using h

theorem contains_statuses_false {records : List MemberRecord} {s : String}
    (h : s ∉ statusesOf records) :
    (records.map (fun r => r.status)).contains s = false := by
  simpa [statusesOf] using h

theorem allAre_unique {s t : String} {statuses : List String} (hs : allAre s statuses)
    (ht : allAre t statuses) : s = t := by
  obtain ⟨y, ys, rfl⟩ := List.exists_cons_of_ne_nil hs.1
  rw [← hs.2 y (by simp), ← ht.2 y (by simp)]

theorem not_allAre_of_mem {s t : String} {statuses : List String} (hm : t ∈ statuses)
    (hne : t ≠ s) : ¬ allAre s statuses := fun h => hne (h.2 t hm)

theorem not_allAre_of_not_mem {s : String} {statuses : List String} (hm : s ∉ statuses) :
    ¬ allAre s statuses := by
  intro h
  obtain ⟨y, ys, rfl⟩ := List.exists_cons_of_ne_nil h.1
  exact hm (by simp [h.2 y (by simp)])

theorem allAre_statusesOf {records : List MemberRecord} {s : String}
    (hne : records ≠ []) (h : ∀ r ∈ records, r.status = s) :
    allAre s (statusesOf records) := by
  refine ⟨by simpa [statusesOf] using hne, ?_⟩
  intro x hx
  obtain ⟨r, hr, rfl⟩ := List.mem_map.1 hx
  exact h r hr

theorem containsOnly_statuses_true {records : List MemberRecord} {s : String}
    (h : allAre s (statusesOf records)) :
    containsOnly (records.map (fun r => r.status)) [s] = true :=
  (containsOnly_singleton _ _).2 h

theorem containsOnly_statuses_false {records : List MemberRecord} {s : String}
    (h : ¬ allAre s (statusesOf records)) :
    containsOnly (records.map (fun r => r.status)) [s] = false :=
  (containsOnly_singleton_false _ _).2 h

/-- C1: on a non-empty list of member screenings whose statuses all equal X, the
screening `statusChecker` returns `screening_in_progress`/`new` without flags for
X = `new`, `screening_submitted`/`submitted` with `all_submitted = true` for
X = `submitted`, and `eligible`/`approved` without flags for X = `approved`. -/
theorem screening_statusChecker_uniform (screenings : List MemberRecord)
    (hne : screenings ≠ []) :
    ((∀ r ∈ screenings, r.status = "new") →
      GroupScreeningCtl.statusChecker screenings =
        { group := "screening_in_progress", group_screening := "new",
          all_submitted := none, for_review := none }) ∧
    ((∀ r ∈ screenings, r.status = "submitted") →
      GroupScreeningCtl.statusChecker screenings =
        { group := "screening_submitted", group_screening := "submitted",
          all_submitted := some true, for_review := none }) ∧
    ((∀ r ∈ screenings, r.status = "approved") →
      GroupScreeningCtl.statusChecker screenings =
        { group := "eligible", group_screening := "approved",
          all_submitted := none, for_review := none }) := by
  refine ⟨fun h => ?_, fun h => ?_, fun h => ?_⟩
  · have hall := allAre_statusesOf hne h
    simp only [GroupScreeningCtl.statusChecker, containsOnly_statuses_true hall, if_true]
  · have hall := allAre_statusesOf hne h
    have h1 : ¬ allAre "new" (statusesOf screenings) :=
      fun hc => absurd (allAre_unique hc hall) (by decide)
    simp [GroupScreeningCtl.statusChecker, containsOnly_statuses_true hall,
      containsOnly_statuses_false h1]
  · have hall := allAre_statusesOf hne h
    have h1 : ¬ allAre "new" (statusesOf screenings) :=
      fun hc => absurd (allAre_unique hc hall) (by decide)
    have h2 : ¬ allAre "submitted" (statusesOf screenings) :=
      fun hc => absurd (allAre_unique hc hall) (by decide)
    simp [GroupScreeningCtl.statusChecker, containsOnly_statuses_true hall,
      containsOnly_statuses_false h1, containsOnly_statuses_false h2]

/-- Witness for C1: three members, all `new`, all `submitted`, all `approved`. -/
theorem screening_statusChecker_uniform_witness :
    GroupScreeningCtl.statusChecker [⟨1, "new"⟩, ⟨2, "new"⟩, ⟨3, "new"⟩] =
        { group := "screening_in_progress", group_screening := "new",
          all_submitted := none, for_review := none } ∧
    GroupScreeningCtl.statusChecker [⟨1, "submitted"⟩, ⟨2, "submitted"⟩, ⟨3, "submitted"⟩] =
        { group := "screening_submitted", group_screening := "submitted",
          all_submitted := some true, for_review := none } ∧
    GroupScreeningCtl.statusChecker [⟨1, "approved"⟩, ⟨2, "approved"⟩, ⟨3, "approved"⟩] =
        { group := "eligible", group_screening := "approved",
          all_submitted := none, for_review := none } :=
  ⟨(screening_statusChecker_uniform _ (by decide)).1 (by decide),
   (screening_statusChecker_uniform _ (by decide)).2.1 (by decide),
   (screening_statusChecker_uniform _ (by decide)).2.2 (by decide)⟩

/-- C2: a list of member screening statuses that contains `declined_final` and none
of `new`, `submitted`, `screening_inprogress` makes the screening `statusChecker`
return `ineligible`/`declined_final`. -/
theorem screening_statusChecker_declined_final (screenings : List MemberRecord)
    (hdf : "declined_final" ∈ statusesOf screenings)
    (hnew : "new" ∉ statusesOf screenings)
    (hsub : "submitted" ∉ statusesOf screenings)
    (hinp : "screening_inprogress" ∉ statusesOf screenings) :
    GroupScreeningCtl.statusChecker screenings =
      { group := "ineligible", group_screening := "declined_final",
        all_submitted := none, for_review := none } := by
  have h1 := containsOnly_statuses_false (not_allAre_of_not_mem hnew)
  have h2 := containsOnly_statuses_false (not_allAre_of_not_mem hsub)
  have h3 := containsOnly_statuses_false
    (not_allAre_of_mem (s := "approved") hdf (by decide))
  simp only [GroupScreeningCtl.statusChecker, h1, h2, h3, contains_statuses_true hdf,
    contains_statuses_false hnew, contains_statuses_false hsub,
    contains_statuses_false hinp]
  rfl

/-- Witness for C2: scenario C, two approved members and one declined for good. -/
theorem screening_statusChecker_declined_final_witness :
    GroupScreeningCtl.statusChecker
        [⟨1, "approved"⟩, ⟨2, "approved"⟩, ⟨3, "declined_final"⟩] =
      { group := "ineligible", group_screening := "declined_final",
        all_submitted := none, for_review := none } :=
  screening_statusChecker_declined_final _ (by decide) (by decide) (by decide) (by decide)

/-- The screening reducer as a ladder over propositions on the status list. -/
theorem screening_statusChecker_ladder (screenings : List MemberRecord) :
    GroupScreeningCtl.statusChecker screenings =
      if allAre "new" (statusesOf screenings) then
        { group := "screening_in_progress", group_screening := "new" }
      else if allAre "submitted" (statusesOf screenings) then
        { group := "screening_submitted", group_screening := "submitted",
          all_submitted := some true }
      else if allAre "approved" (statusesOf screenings) then
        { group := "eligible", group_screening := "approved" }
      else if "declined_final" ∈ statusesOf screenings ∧
          ¬ ("new" ∈ statusesOf screenings ∨ "submitted" ∈ statusesOf screenings ∨
            "screening_inprogress" ∈ statusesOf screenings) then
        { group := "ineligible", group_screening := "declined_final" }
      else if "declined_under_review" ∈ statusesOf screenings ∧
          ¬ ("new" ∈ statusesOf screenings ∨ "submitted" ∈ statusesOf screenings ∨
            "screening_inprogress" ∈ statusesOf screenings) then
        { group := "screening_in_progress", group_screening := "declined_under_review",
          for_review := some true }
      else
        { group := "screening_in_progress", group_screening := "screening_inprogress" } := by
  simp [GroupScreeningCtl.statusChecker, containsOnly_singleton, statusesOf, and_assoc]

/-- The loan reducer as a ladder over propositions on the status list. -/
theorem loan_statusChecker_ladder (loans : List MemberRecord) :
    GroupLoanCtl.statusChecker loans =
      if allAre "new" (statusesOf loans) then
        { group := "loan_application_inprogress", group_loan := "new" }
      else if allAre "submitted" (statusesOf loans) then
        { group := "loan_application_submitted", group_loan := "submitted",
          all_submitted := some true }
      else if allAre "accepted" (statusesOf loans) then
        { group := "loan_application_accepted", group_loan := "accepted" }
      else if "rejected" ∈ statusesOf loans ∧
          ¬ ("new" ∈ statusesOf loans ∨ "submitted" ∈ statusesOf loans ∨
            "inprogress" ∈ statusesOf loans) then
        { group := "loan_application_rejected", group_loan := "rejected" }
      else if "declined_under_review" ∈ statusesOf loans ∧
          ¬ ("new" ∈ statusesOf loans ∨ "submitted" ∈ statusesOf loans ∨
            "inprogress" ∈ statusesOf loans) then
        { group := "loan_application_inprogress", group_loan := "declined_under_review",
          for_review := some true }
      else
        { group := "loan_application_inprogress", group_loan := "inprogress" } := by
  simp [GroupLoanCtl.statusChecker, containsOnly_singleton, statusesOf, and_assoc]

/-- The ACAT reducer as a ladder over propositions on the status list. -/
theorem acat_statusChecker_ladder (acats : List MemberRecord) :
    GroupACATCtl.statusChecker acats =
      if allAre "new" (statusesOf acats) then
        { group := "ACAT_IN_PROGRESS", group_acat := "new" }
      else if allAre "submitted" (statusesOf acats) then
        { group := "ACAT-submitted", group_acat := "submitted",
          all_submitted := some true }
      else if allAre "authorized" (statusesOf acats) then
        { group := "ACAT-Authorized", group_acat := "authorized" }
      else if "declined_for_review" ∈ statusesOf acats ∧
          ¬ ("new" ∈ statusesOf acats ∨ "submitted" ∈ statusesOf acats ∨
            "resubmitted" ∈ statusesOf acats ∨ "inprogress" ∈ statusesOf acats) then
        { group := "ACAT_Declined_For_Review", group_acat := "declined_for_review" }
      else if "resubmitted" ∈ statusesOf acats ∧
          ¬ ("new" ∈ statusesOf acats ∨ "declined_for_review" ∈ statusesOf acats ∨
            "inprogress" ∈ statusesOf acats) then
        { group := "ACAT-Resubmitted", group_acat := "resubmitted" }
      else
        { group := "ACAT_IN_PROGRESS", group_acat := "inprogress" } := by
  simp [GroupACATCtl.statusChecker, containsOnly_singleton, statusesOf, and_assoc]

/-- C3, as stated, fails: with `declined_final` also present the fourth case of the
ladder wins and the result is `ineligible`/`declined_final`. -/
theorem screening_declined_under_review_counterexample :
    ¬ (∀ screenings : List MemberRecord,
        "declined_under_review" ∈ statusesOf screenings →
        "new" ∉ statusesOf screenings →
        "submitted" ∉ statusesOf screenings →
        "screening_inprogress" ∉ statusesOf screenings →
        GroupScreeningCtl.statusChecker screenings =
          { group := "screening_in_progress", group_screening := "declined_under_review",
            all_submitted := none, for_review := some true }) := by
  intro h
  have := h [⟨1, "declined_final"⟩, ⟨2, "declined_under_review"⟩]
    (by decide) (by decide) (by decide) (by decide)
  revert this
  decide

/-- C3 (amended): a list of member screening statuses that contains
`declined_under_review`, does not contain `declined_final`, and contains none of
`new`, `submitted`, `screening_inprogress` makes the screening `statusChecker` return
`screening_in_progress`/`declined_under_review` with `for_review = true`. -/
theorem screening_statusChecker_declined_under_review (screenings : List MemberRecord)
    (hdur : "declined_under_review" ∈ statusesOf screenings)
    (hdf : "declined_final" ∉ statusesOf screenings)
    (hnew : "new" ∉ statusesOf screenings)
    (hsub : "submitted" ∉ statusesOf screenings)
    (hinp : "screening_inprogress" ∉ statusesOf screenings) :
    GroupScreeningCtl.statusChecker screenings =
      { group := "screening_in_progress", group_screening := "declined_under_review",
        all_submitted := none, for_review := some true } := by
  rw [screening_statusChecker_ladder]
  simp [not_allAre_of_not_mem hnew, not_allAre_of_not_mem hsub,
    not_allAre_of_mem (s := "approved") hdur (by decide), hdur, hdf, hnew, hsub, hinp]

/-- Witness for C3 (amended): one approved member and one declined under review. -/
theorem screening_statusChecker_declined_under_review_witness :
    GroupScreeningCtl.statusChecker [⟨1, "approved"⟩, ⟨2, "declined_under_review"⟩] =
      { group := "screening_in_progress", group_screening := "declined_under_review",
        all_submitted := none, for_review := some true } :=
  screening_statusChecker_declined_under_review _
    (by decide) (by decide) (by decide) (by decide) (by decide)

/-- C4, as stated, fails for the screening and the loan reducer: with both decline
statuses present and no in-progress marker, their fourth case wins. -/
theorem two_declines_default_counterexample :
    (¬ ∀ screenings : List MemberRecord,
        "declined_final" ∈ statusesOf screenings →
        "declined_under_review" ∈ statusesOf screenings →
        "new" ∉ statusesOf screenings → "submitted" ∉ statusesOf screenings →
        "screening_inprogress" ∉ statusesOf screenings →
        GroupScreeningCtl.statusChecker screenings =
          { group := "screening_in_progress", group_screening := "screening_inprogress",
            all_submitted := none, for_review := none }) ∧
    (¬ ∀ loans : List MemberRecord,
        "rejected" ∈ statusesOf loans →
        "declined_under_review" ∈ statusesOf loans →
        "new" ∉ statusesOf loans → "submitted" ∉ statusesOf loans →
        "inprogress" ∉ statusesOf loans →
        GroupLoanCtl.statusChecker loans =
          { group := "loan_application_inprogress", group_loan := "inprogress",
            all_submitted := none, for_review := none }) := by
  constructor
  · intro h
    have := h [⟨1, "declined_final"⟩, ⟨2, "declined_under_review"⟩]
      (by decide) (by decide) (by decide) (by decide) (by decide)
    revert this
    decide
  · intro h
    have := h [⟨1, "rejected"⟩, ⟨2, "declined_under_review"⟩]
      (by decide) (by decide) (by decide) (by decide) (by decide)
    revert this
    decide

/-- C4 (amended): when two different decline statuses co-occur and no in-progress
marker is present, the screening reducer returns `ineligible`/`declined_final` and the
loan reducer returns `loan_application_rejected`/`rejected` (their first decline case
wins); the ACAT reducer returns its default `ACAT_IN_PROGRESS`/`inprogress` whenever
`declined_for_review` and `resubmitted` co-occur. -/
theorem two_declines_result (records : List MemberRecord) :
    ("declined_final" ∈ statusesOf records →
      "declined_under_review" ∈ statusesOf records →
      "new" ∉ statusesOf records → "submitted" ∉ statusesOf records →
      "screening_inprogress" ∉ statusesOf records →
      GroupScreeningCtl.statusChecker records =
        { group := "ineligible", group_screening := "declined_final",
          all_submitted := none, for_review := none }) ∧
    ("rejected" ∈ statusesOf records →
      "declined_under_review" ∈ statusesOf records →
      "new" ∉ statusesOf records → "submitted" ∉ statusesOf records →
      "inprogress" ∉ statusesOf records →
      GroupLoanCtl.statusChecker records =
        { group := "loan_application_rejected", group_loan := "rejected",
          all_submitted := none, for_review := none }) ∧
    ("declined_for_review" ∈ statusesOf records →
      "resubmitted" ∈ statusesOf records →
      GroupACATCtl.statusChecker records =
        { group := "ACAT_IN_PROGRESS", group_acat := "inprogress",
          all_submitted := none, for_review := none }) := by
  refine ⟨fun hdf _ hnew hsub hinp => ?_, fun hrej _ hnew hsub hinp => ?_, fun hdfr hres => ?_⟩
  · rw [screening_statusChecker_ladder]
    simp [not_allAre_of_not_mem hnew, not_allAre_of_not_mem hsub,
      not_allAre_of_mem (s := "approved") hdf (by decide), hdf, hnew, hsub, hinp]
  · rw [loan_statusChecker_ladder]
    simp [not_allAre_of_not_mem hnew, not_allAre_of_not_mem hsub,
      not_allAre_of_mem (s := "accepted") hrej (by decide), hrej, hnew, hsub, hinp]
  · rw [acat_statusChecker_ladder]
    simp [not_allAre_of_mem (s := "new") hdfr (by decide),
      not_allAre_of_mem (s := "submitted") hdfr (by decide),
      not_allAre_of_mem (s := "authorized") hdfr (by decide), hdfr, hres]

/-- Witness for C4 (amended): the three two-decline lists. -/
theorem two_declines_result_witness :
    GroupScreeningCtl.statusChecker [⟨1, "declined_final"⟩, ⟨2, "declined_under_review"⟩] =
        { group := "ineligible", group_screening := "declined_final",
          all_submitted := none, for_review := none } ∧
    GroupLoanCtl.statusChecker [⟨1, "rejected"⟩, ⟨2, "declined_under_review"⟩] =
        { group := "loan_application_rejected", group_loan := "rejected",
          all_submitted := none, for_review := none } ∧
    GroupACATCtl.statusChecker [⟨1, "declined_for_review"⟩, ⟨2, "resubmitted"⟩] =
        { group := "ACAT_IN_PROGRESS", group_acat := "inprogress",
          all_submitted := none, for_review := none } :=
  ⟨(two_declines_result _).1 (by decide) (by decide) (by decide) (by decide) (by decide),
   (two_declines_result _).2.1 (by decide) (by decide) (by decide) (by decide) (by decide),
   (two_declines_result _).2.2 (by decide) (by decide)⟩

theorem screening_statusChecker_default (records : List MemberRecord)
    (h : ¬ screeningSpecificCase (statusesOf records)) :
    GroupScreeningCtl.statusChecker records =
      { group := "screening_in_progress", group_screening := "screening_inprogress",
        all_submitted := none, for_review := none } := by
  rw [screening_statusChecker_ladder]
  simp only [screeningSpecificCase, not_or] at h
  obtain ⟨h1, h2, h3, h4, h5⟩ := h
  rw [if_neg h1, if_neg h2, if_neg h3, if_neg (by tauto), if_neg (by tauto)]

theorem loan_statusChecker_default (records : List MemberRecord)
    (h : ¬ loanSpecificCase (statusesOf records)) :
    GroupLoanCtl.statusChecker records =
      { group := "loan_application_inprogress", group_loan := "inprogress",
        all_submitted := none, for_review := none } := by
  rw [loan_statusChecker_ladder]
  simp only [loanSpecificCase, not_or] at h
  obtain ⟨h1, h2, h3, h4, h5⟩ := h
  rw [if_neg h1, if_neg h2, if_neg h3, if_neg (by tauto), if_neg (by tauto)]

theorem acat_statusChecker_default (records : List MemberRecord)
    (h : ¬ acatSpecificCase (statusesOf records)) :
    GroupACATCtl.statusChecker records =
      { group := "ACAT_IN_PROGRESS", group_acat := "inprogress",
        all_submitted := none, for_review := none } := by
  rw [acat_statusChecker_ladder]
  simp only [acatSpecificCase, not_or] at h
  obtain ⟨h1, h2, h3, h4, h5⟩ := h
  rw [if_neg h1, if_neg h2, if_neg h3, if_neg (by tauto), if_neg (by tauto)]

/-- C5: each stage `statusChecker` is a total function of the member list: on every
list (empty, or with unknown status strings) it returns a group status and a stage
status of its vocabulary, and when none of its five specific cases applies it returns
exactly its in-progress default. -/
theorem statusChecker_total_default (records : List MemberRecord) :
    ((GroupScreeningCtl.statusChecker records).group ∈
        ["screening_in_progress", "screening_submitted", "eligible", "ineligible"] ∧
      (GroupScreeningCtl.statusChecker records).group_screening ∈
        ["new", "submitted", "approved", "declined_final", "declined_under_review",
          "screening_inprogress"] ∧
      (¬ screeningSpecificCase (statusesOf records) →
        GroupScreeningCtl.statusChecker records =
          { group := "screening_in_progress", group_screening := "screening_inprogress",
            all_submitted := none, for_review := none })) ∧
    ((GroupLoanCtl.statusChecker records).group ∈
        ["loan_application_inprogress", "loan_application_submitted",
          "loan_application_accepted", "loan_application_rejected"] ∧
      (GroupLoanCtl.statusChecker records).group_loan ∈
        ["new", "submitted", "accepted", "rejected", "declined_under_review", "inprogress"] ∧
      (¬ loanSpecificCase (statusesOf records) →
        GroupLoanCtl.statusChecker records =
          { group := "loan_application_inprogress", group_loan := "inprogress",
            all_submitted := none, for_review := none })) ∧
    ((GroupACATCtl.statusChecker records).group ∈
        ["ACAT_IN_PROGRESS", "ACAT-submitted", "ACAT-Authorized", "ACAT_Declined_For_Review",
          "ACAT-Resubmitted"] ∧
      (GroupACATCtl.statusChecker records).group_acat ∈
        ["new", "submitted", "authorized", "declined_for_review", "resubmitted",
          "inprogress"] ∧
      (¬ acatSpecificCase (statusesOf records) →
        GroupACATCtl.statusChecker records =
          { group := "ACAT_IN_PROGRESS", group_acat := "inprogress",
            all_submitted := none, for_review := none })) := by
  refine ⟨⟨?_, ?_, fun h => ?_⟩, ⟨?_, ?_, fun h => ?_⟩, ⟨?_, ?_, fun h => ?_⟩⟩
  · rw [screening_statusChecker_ladder]; split_ifs <;> simp
  · rw [screening_statusChecker_ladder]; split_ifs <;> simp
  · exact screening_statusChecker_default records h
  · rw [loan_statusChecker_ladder]; split_ifs <;> simp
  · rw [loan_statusChecker_ladder]; split_ifs <;> simp
  · exact loan_statusChecker_default records h
  · rw [acat_statusChecker_ladder]; split_ifs <;> simp
  · rw [acat_statusChecker_ladder]; split_ifs <;> simp
  · exact acat_statusChecker_default records h

/-- Witness for C5: the empty list and a list with an unknown status string fall to
the default of each reducer. -/
theorem statusChecker_total_default_witness :
    GroupScreeningCtl.statusChecker [] =
        { group := "screening_in_progress", group_screening := "screening_inprogress",
          all_submitted := none, for_review := none } ∧
    GroupLoanCtl.statusChecker [⟨1, "new"⟩, ⟨2, "no_such_status"⟩] =
        { group := "loan_application_inprogress", group_loan := "inprogress",
          all_submitted := none, for_review := none } ∧
    GroupACATCtl.statusChecker [⟨1, "submitted"⟩, ⟨2, "authorized"⟩] =
        { group := "ACAT_IN_PROGRESS", group_acat := "inprogress",
          all_submitted := none, for_review := none } :=
  ⟨(statusChecker_total_default []).1.2.2 (by decide),
   (statusChecker_total_default _).2.1.2.2 (by decide),
   (statusChecker_total_default _).2.2.2.2 (by decide)⟩

/-- C6: `containsOnly(orig, against)` holds exactly when the two lists have the same
set of distinct elements, a subset in either direction is not enough; against
`['new']` it holds exactly for non-empty all-`new` lists, and it fails on the empty
list. -/
theorem containsOnly_set_equality (orig against : List String) :
    (containsOnly orig against = true ↔ orig.toFinset = against.toFinset) ∧
    (containsOnly orig ["new"] = true ↔ orig ≠ [] ∧ ∀ x ∈ orig, x = "new") ∧
    containsOnly [] ["new"] = false ∧
    containsOnly ["new"] ["new", "submitted"] = false ∧
    containsOnly ["new", "submitted"] ["new"] = false := by
  refine ⟨?_, ?_, by decide, by decide, by decide⟩
  · rw [containsOnly_iff_mem, Finset.ext_iff]
    simp
  · exact containsOnly_singleton orig "new"

/-- C7, as stated, fails for the ACAT reducer: its declined-for-review result has the
group status `ACAT_Declined_For_Review` and no `for_review` flag. -/
theorem declined_for_review_counterexample :
    ¬ (∀ acats : List MemberRecord,
        (GroupACATCtl.statusChecker acats).group_acat = "declined_for_review" →
        (GroupACATCtl.statusChecker acats).for_review = some true ∧
        (GroupACATCtl.statusChecker acats).group = "ACAT_IN_PROGRESS") := by
  intro h
  have := h [⟨1, "authorized"⟩, ⟨2, "declined_for_review"⟩] (by decide)
  revert this
  decide

/-- C7 (amended): when the screening or the loan reducer returns the stage status
`declined_under_review`, the result carries `for_review = true` and the group status
is the stage in-progress one; when the ACAT reducer returns the stage status
`declined_for_review`, the group status is `ACAT_Declined_For_Review`. -/
theorem declined_for_review_result (records : List MemberRecord) :
    ((GroupScreeningCtl.statusChecker records).group_screening = "declined_under_review" →
      (GroupScreeningCtl.statusChecker records).for_review = some true ∧
      (GroupScreeningCtl.statusChecker records).group = "screening_in_progress") ∧
    ((GroupLoanCtl.statusChecker records).group_loan = "declined_under_review" →
      (GroupLoanCtl.statusChecker records).for_review = some true ∧
      (GroupLoanCtl.statusChecker records).group = "loan_application_inprogress") ∧
    ((GroupACATCtl.statusChecker records).group_acat = "declined_for_review" →
      (GroupACATCtl.statusChecker records).group = "ACAT_Declined_For_Review") := by
  refine ⟨?_, ?_, ?_⟩
  · rw [screening_statusChecker_ladder]; split_ifs <;> simp
  · rw [loan_statusChecker_ladder]; split_ifs <;> simp
  · rw [acat_statusChecker_ladder]; split_ifs <;> simp

/-- Witness for C7 (amended): one processed member next to one declined for review. -/
theorem declined_for_review_result_witness :
    ((GroupScreeningCtl.statusChecker
          [⟨1, "approved"⟩, ⟨2, "declined_under_review"⟩]).for_review = some true ∧
      (GroupScreeningCtl.statusChecker
          [⟨1, "approved"⟩, ⟨2, "declined_under_review"⟩]).group = "screening_in_progress") ∧
    ((GroupLoanCtl.statusChecker
          [⟨1, "accepted"⟩, ⟨2, "declined_under_review"⟩]).for_review = some true ∧
      (GroupLoanCtl.statusChecker
          [⟨1, "accepted"⟩, ⟨2, "declined_under_review"⟩]).group =
        "loan_application_inprogress") ∧
    (GroupACATCtl.statusChecker
        [⟨1, "authorized"⟩, ⟨2, "declined_for_review"⟩]).group = "ACAT_Declined_For_Review" :=
  ⟨(declined_for_review_result _).1 (by decide),
   (declined_for_review_result _).2.1 (by decide),
   (declined_for_review_result _).2.2 (by decide)⟩

/-! ## Tasks raised by the handlers -/

theorem screening_flags (screenings : List MemberRecord) :
    ((GroupScreeningCtl.statusChecker screenings).all_submitted = some true ∧
      (GroupScreeningCtl.statusChecker screenings).for_review = none ∧
      allAre "submitted" (statusesOf screenings)) ∨
    ((GroupScreeningCtl.statusChecker screenings).all_submitted = none ∧
      (GroupScreeningCtl.statusChecker screenings).for_review = some true ∧
      ¬ allAre "submitted" (statusesOf screenings)) ∨
    ((GroupScreeningCtl.statusChecker screenings).all_submitted = none ∧
      (GroupScreeningCtl.statusChecker screenings).for_review = none ∧
      ¬ allAre "submitted" (statusesOf screenings)) := by
  rw [screening_statusChecker_ladder]
  split_ifs with h1 h2 <;> simp_all
  exact fun hc => absurd (allAre_unique h1 hc) (by decide)

theorem submitGroupScreenings_tasks (user id : Nat) (db : Db) (group : Group)
    (doc : GroupScreening)
    (hg : findOne (fun g => g._id == id) db.groups = some group)
    (hd : GroupScreeningDal.get db group._id = some doc) :
    ∃ db1, GroupScreeningCtl.submitGroupScreenings true user id db = .ok db1 ∧
      ((GroupScreeningCtl.statusChecker doc.screenings).all_submitted = some true ↔
        allAre "submitted" (statusesOf doc.screenings)) ∧
      ((GroupScreeningCtl.statusChecker doc.screenings).all_submitted = some true →
        ∃ t, db1.tasks = db.tasks ++ [t] ∧ t.task_type = "approve" ∧
          t.user = group.created_by) ∧
      ((GroupScreeningCtl.statusChecker doc.screenings).for_review = some true →
        ∃ t, db1.tasks = db.tasks ++ [t] ∧ t.task_type = "review" ∧
          t.user = group.created_by) ∧
      ((GroupScreeningCtl.statusChecker doc.screenings).all_submitted ≠ some true →
        (GroupScreeningCtl.statusChecker doc.screenings).for_review ≠ some true →
        db1.tasks = db.tasks) := by
  refine ⟨_, by simp [GroupScreeningCtl.submitGroupScreenings, hg, hd, isFalsy]; rfl, ?_⟩
  rcases screening_flags doc.screenings with ⟨h1, h2, h3⟩ | ⟨h1, h2, h3⟩ | ⟨h1, h2, h3⟩ <;>
    simp [h1, h2, h3, LogDal.track, GroupDal.update, GroupScreeningDal.update,
      createTaskAndNotify]

theorem approveGroupScreenings_tasks (isPermitted : Bool) (user id : Nat) (db db1 : Db)
    (h : GroupScreeningCtl.approveGroupScreenings isPermitted user id db = .ok db1) :
    db1.tasks = db.tasks := by
  unfold GroupScreeningCtl.approveGroupScreenings at h
  cases isPermitted
  · simp at h
  · cases hg : findOne (fun g => g._id == id) db.groups with
    | none => simp [hg] at h
    | some group =>
      cases hd : GroupScreeningDal.get db group._id with
      | none => simp [hg, hd] at h
      | some doc =>
        simp [hg, hd, isFalsy] at h
        subst h
        rfl

theorem approveGroupLoans_tasks (isPermitted : Bool) (user id : Nat) (db db1 : Db)
    (h : GroupLoanCtl.approveGroupLoans isPermitted user id db = .ok db1) :
    db1.tasks = db.tasks := by
  unfold GroupLoanCtl.approveGroupLoans at h
  cases isPermitted
  · simp at h
  · cases hg : findOne (fun g => g._id == id) db.groups with
    | none => simp [hg] at h
    | some group =>
      cases hd : GroupLoanDal.get db group._id with
      | none => simp [hg, hd] at h
      | some doc =>
        by_cases hl : doc.loans = []
        · simp [hg, hd, hl] at h
        · simp [hg, hd, isFalsy, hl] at h
          subst h
          rfl

theorem updateGroupScreeningStatus_tasks (isPermitted : Bool) (user id : Nat) (db db1 : Db)
    (h : GroupScreeningCtl.updateGroupScreeningStatus isPermitted user id db = .ok db1) :
    db1.tasks = db.tasks := by
  unfold GroupScreeningCtl.updateGroupScreeningStatus at h
  cases isPermitted
  · simp at h
  · cases hg : findOne (fun g => g._id == id) db.groups with
    | none => simp [hg] at h
    | some group =>
      cases hd : GroupScreeningDal.get db group._id with
      | none => simp [hg, hd] at h
      | some doc =>
        simp [hg, hd, isFalsy] at h
        subst h
        rfl

theorem updateGroupLoanStatus_tasks (isPermitted : Bool) (user id : Nat) (db db1 : Db)
    (h : GroupLoanCtl.updateGroupLoanStatus isPermitted user id db = .ok db1) :
    db1.tasks = db.tasks := by
  unfold GroupLoanCtl.updateGroupLoanStatus at h
  cases isPermitted
  · simp at h
  · cases hg : findOne (fun g => g._id == id) db.groups with
    | none => simp [hg] at h
    | some group =>
      cases hd : GroupLoanDal.get db group._id with
      | none => simp [hg, hd] at h
      | some doc =>
        by_cases hl : doc.loans = []
        · simp [hg, hd, hl] at h
        · simp [hg, hd, isFalsy, hl] at h
          subst h
          rfl

theorem approveGroupACATs_tasks (isPermitted : Bool) (user id : Nat) (db db1 : Db)
    (h : GroupACATCtl.approveGroupACATs isPermitted user id db = .ok db1) :
    db1.tasks = db.tasks := by
  unfold GroupACATCtl.approveGroupACATs at h
  cases isPermitted
  · simp at h
  · cases hg : findOne (fun g => g._id == id) db.groups with
    | none => simp [hg] at h
    | some group =>
      cases hd : GroupACATDal.get db group._id with
      | none => simp [hg, hd] at h
      | some doc =>
        by_cases hl : doc.acats = []
        · simp [hg, hd, hl] at h
        · simp [hg, hd, isFalsy, hl] at h
          subst h
          rfl

theorem updateGroupACATStatus_tasks (isPermitted : Bool) (user id : Nat) (db db1 : Db)
    (h : GroupACATCtl.updateGroupACATStatus isPermitted user id db = .ok db1) :
    db1.tasks = db.tasks := by
  unfold GroupACATCtl.updateGroupACATStatus at h
  cases isPermitted
  · simp at h
  · cases hg : findOne (fun g => g._id == id) db.groups with
    | none => simp [hg] at h
    | some group =>
      cases hd : GroupACATDal.get db group._id with
      | none => simp [hg, hd] at h
      | some doc =>
        by_cases hl : doc.acats = []
        · simp [hg, hd, hl] at h
        · simp [hg, hd, isFalsy, hl] at h
          subst h
          rfl

theorem loan_flags (loans : List MemberRecord) :
    ((GroupLoanCtl.statusChecker loans).all_submitted = some true ∧
      (GroupLoanCtl.statusChecker loans).for_review = none ∧
      allAre "submitted" (statusesOf loans)) ∨
    ((GroupLoanCtl.statusChecker loans).all_submitted = none ∧
      (GroupLoanCtl.statusChecker loans).for_review = some true ∧
      ¬ allAre "submitted" (statusesOf loans)) ∨
    ((GroupLoanCtl.statusChecker loans).all_submitted = none ∧
      (GroupLoanCtl.statusChecker loans).for_review = none ∧
      ¬ allAre "submitted" (statusesOf loans)) := by
  rw [loan_statusChecker_ladder]
  split_ifs with h1 h2 <;> simp_all
  exact fun hc => absurd (allAre_unique h1 hc) (by decide)

theorem acat_flags (acats : List MemberRecord) :
    ((GroupACATCtl.statusChecker acats).all_submitted = some true ∧
      (GroupACATCtl.statusChecker acats).for_review = none ∧
      allAre "submitted" (statusesOf acats)) ∨
    ((GroupACATCtl.statusChecker acats).all_submitted = none ∧
      (GroupACATCtl.statusChecker acats).for_review = none ∧
      ¬ allAre "submitted" (statusesOf acats)) := by
  rw [acat_statusChecker_ladder]
  split_ifs with h1 h2 <;> simp_all
  exact fun hc => absurd (allAre_unique h1 hc) (by decide)

theorem submitGroupLoans_tasks (user id : Nat) (db : Db) (group : Group)
    (doc : GroupLoan)
    (hg : findOne (fun g => g._id == id) db.groups = some group)
    (hd : GroupLoanDal.get db group._id = some doc) (hne : doc.loans ≠ []) :
    ∃ db1, GroupLoanCtl.submitGroupLoans true user id db = .ok db1 ∧
      ((GroupLoanCtl.statusChecker doc.loans).all_submitted = some true ↔
        allAre "submitted" (statusesOf doc.loans)) ∧
      ((GroupLoanCtl.statusChecker doc.loans).all_submitted = some true →
        ∃ t, db1.tasks = db.tasks ++ [t] ∧ t.task_type = "approve" ∧
          t.user = group.created_by) ∧
      ((GroupLoanCtl.statusChecker doc.loans).for_review = some true →
        ∃ t, db1.tasks = db.tasks ++ [t] ∧ t.task_type = "review" ∧
          t.user = group.created_by) ∧
      ((GroupLoanCtl.statusChecker doc.loans).all_submitted ≠ some true →
        (GroupLoanCtl.statusChecker doc.loans).for_review ≠ some true →
        db1.tasks = db.tasks) := by
  refine ⟨_, by simp [GroupLoanCtl.submitGroupLoans, hg, hd, isFalsy, hne]; rfl, ?_⟩
  rcases loan_flags doc.loans with ⟨h1, h2, h3⟩ | ⟨h1, h2, h3⟩ | ⟨h1, h2, h3⟩ <;>
    simp [h1, h2, h3, LogDal.track, GroupDal.update, GroupLoanDal.update,
      createTaskAndNotify]

theorem submitGroupACATs_tasks (user id : Nat) (db : Db) (group : Group)
    (doc : GroupACAT)
    (hg : findOne (fun g => g._id == id) db.groups = some group)
    (hd : GroupACATDal.get db group._id = some doc) (hne : doc.acats ≠ []) :
    ∃ db1, GroupACATCtl.submitGroupACATs true user id db = .ok db1 ∧
      ((GroupACATCtl.statusChecker doc.acats).all_submitted = some true ↔
        allAre "submitted" (statusesOf doc.acats)) ∧
      ((GroupACATCtl.statusChecker doc.acats).all_submitted = some true →
        ∃ t, db1.tasks = db.tasks ++ [t] ∧ t.task_type = "approve" ∧
          t.user = group.created_by) ∧
      ((GroupACATCtl.statusChecker doc.acats).for_review = some true →
        ∃ t, db1.tasks = db.tasks ++ [t] ∧ t.task_type = "review" ∧
          t.user = group.created_by) ∧
      ((GroupACATCtl.statusChecker doc.acats).all_submitted ≠ some true →
        (GroupACATCtl.statusChecker doc.acats).for_review ≠ some true →
        db1.tasks = db.tasks) := by
  refine ⟨_, by simp [GroupACATCtl.submitGroupACATs, hg, hd, isFalsy, hne]; rfl, ?_⟩
  rcases acat_flags doc.acats with ⟨h1, h2, h3⟩ | ⟨h1, h2, h3⟩ <;>
    simp [h1, h2, h3, LogDal.track, GroupDal.update, GroupACATDal.update,
      createTaskAndNotify]

/-- C8: a permitted submit of a stage on an existing group with a stage aggregate
succeeds and appends exactly one task of type `approve` for the group creator when
the reducer result has `all_submitted` (all member statuses `submitted`), exactly one
task of type `review` for the group creator when it has `for_review`, and no task
otherwise; a successful approve or status refresh leaves the tasks as they were. -/
theorem submit_task_creation (user id : Nat) (db : Db) (group : Group)
    (hg : findOne (fun g => g._id == id) db.groups = some group) :
    (∀ doc : GroupScreening, GroupScreeningDal.get db group._id = some doc →
      ∃ db1, GroupScreeningCtl.submitGroupScreenings true user id db = .ok db1 ∧
        ((GroupScreeningCtl.statusChecker doc.screenings).all_submitted = some true ↔
          allAre "submitted" (statusesOf doc.screenings)) ∧
        ((GroupScreeningCtl.statusChecker doc.screenings).all_submitted = some true →
          ∃ t, db1.tasks = db.tasks ++ [t] ∧ t.task_type = "approve" ∧
            t.user = group.created_by) ∧
        ((GroupScreeningCtl.statusChecker doc.screenings).for_review = some true →
          ∃ t, db1.tasks = db.tasks ++ [t] ∧ t.task_type = "review" ∧
            t.user = group.created_by) ∧
        ((GroupScreeningCtl.statusChecker doc.screenings).all_submitted ≠ some true →
          (GroupScreeningCtl.statusChecker doc.screenings).for_review ≠ some true →
          db1.tasks = db.tasks)) ∧
    (∀ doc : GroupLoan, GroupLoanDal.get db group._id = some doc → doc.loans ≠ [] →
      ∃ db1, GroupLoanCtl.submitGroupLoans true user id db = .ok db1 ∧
        ((GroupLoanCtl.statusChecker doc.loans).all_submitted = some true ↔
          allAre "submitted" (statusesOf doc.loans)) ∧
        ((GroupLoanCtl.statusChecker doc.loans).all_submitted = some true →
          ∃ t, db1.tasks = db.tasks ++ [t] ∧ t.task_type = "approve" ∧
            t.user = group.created_by) ∧
        ((GroupLoanCtl.statusChecker doc.loans).for_review = some true →
          ∃ t, db1.tasks = db.tasks ++ [t] ∧ t.task_type = "review" ∧
            t.user = group.created_by) ∧
        ((GroupLoanCtl.statusChecker doc.loans).all_submitted ≠ some true →
          (GroupLoanCtl.statusChecker doc.loans).for_review ≠ some true →
          db1.tasks = db.tasks)) ∧
    (∀ doc : GroupACAT, GroupACATDal.get db group._id = some doc → doc.acats ≠ [] →
      ∃ db1, GroupACATCtl.submitGroupACATs true user id db = .ok db1 ∧
        ((GroupACATCtl.statusChecker doc.acats).all_submitted = some true ↔
          allAre "submitted" (statusesOf doc.acats)) ∧
        ((GroupACATCtl.statusChecker doc.acats).all_submitted = some true →
          ∃ t, db1.tasks = db.tasks ++ [t] ∧ t.task_type = "approve" ∧
            t.user = group.created_by) ∧
        ((GroupACATCtl.statusChecker doc.acats).for_review = some true →
          ∃ t, db1.tasks = db.tasks ++ [t] ∧ t.task_type = "review" ∧
            t.user = group.created_by) ∧
        ((GroupACATCtl.statusChecker doc.acats).all_submitted ≠ some true →
          (GroupACATCtl.statusChecker doc.acats).for_review ≠ some true →
          db1.tasks = db.tasks)) ∧
    (∀ (isPermitted : Bool) (db1 : Db),
      (GroupScreeningCtl.approveGroupScreenings isPermitted user id db = .ok db1 ∨
        GroupScreeningCtl.updateGroupScreeningStatus isPermitted user id db = .ok db1 ∨
        GroupLoanCtl.approveGroupLoans isPermitted user id db = .ok db1 ∨
        GroupLoanCtl.updateGroupLoanStatus isPermitted user id db = .ok db1 ∨
        GroupACATCtl.approveGroupACATs isPermitted user id db = .ok db1 ∨
        GroupACATCtl.updateGroupACATStatus isPermitted user id db = .ok db1) →
      db1.tasks = db.tasks) := by
  refine ⟨fun doc hd => submitGroupScreenings_tasks user id db group doc hg hd,
    fun doc hd hne => submitGroupLoans_tasks user id db group doc hg hd hne,
    fun doc hd hne => submitGroupACATs_tasks user id db group doc hg hd hne, ?_⟩
  rintro isPermitted db1 (h | h | h | h | h | h)
  · exact approveGroupScreenings_tasks _ _ _ _ _ h
  · exact updateGroupScreeningStatus_tasks _ _ _ _ _ h
  · exact approveGroupLoans_tasks _ _ _ _ _ h
  · exact updateGroupLoanStatus_tasks _ _ _ _ _ h
  · exact approveGroupACATs_tasks _ _ _ _ _ h
  · exact updateGroupACATStatus_tasks _ _ _ _ _ h

/-- Witness for C8: on the sample store, submitting the screenings (all submitted)
raises an `approve` task for the creator 9, submitting the loans (one declined under
review) raises a `review` task for the creator, submitting the ACATs (mixed) raises no
task. -/
theorem submit_task_creation_witness :
    (∃ db1, GroupScreeningCtl.submitGroupScreenings true 7 1 sampleDb = .ok db1 ∧
      ∃ t, db1.tasks = sampleDb.tasks ++ [t] ∧ t.task_type = "approve" ∧ t.user = 9) ∧
    (∃ db1, GroupLoanCtl.submitGroupLoans true 7 1 sampleDb = .ok db1 ∧
      ∃ t, db1.tasks = sampleDb.tasks ++ [t] ∧ t.task_type = "review" ∧ t.user = 9) ∧
    (∃ db1, GroupACATCtl.submitGroupACATs true 7 1 sampleDb = .ok db1 ∧
      db1.tasks = sampleDb.tasks) :=
  ⟨(let ⟨db1, h, _, ha, _, _⟩ :=
      (submit_task_creation 7 1 sampleDb sampleGroup rfl).1 sampleScreening rfl
    ⟨db1, h, ha (by decide)⟩),
   (let ⟨db1, h, _, _, hr, _⟩ :=
      (submit_task_creation 7 1 sampleDb sampleGroup rfl).2.1 sampleLoan rfl (by decide)
    ⟨db1, h, hr (by decide)⟩),
   (let ⟨db1, h, _, _, _, hn⟩ :=
      (submit_task_creation 7 1 sampleDb sampleGroup rfl).2.2.1 sampleACAT rfl (by decide)
    ⟨db1, h, hn (by decide) (by decide)⟩)⟩

/-! ## Lemmas on the store helpers -/

section StoreLemmas

variable {α : Type}

theorem findOne_findOneAndUpdate (q : α → Bool) (upd : α → α)
    (hq : ∀ x, q (upd x) = q x) :
    ∀ (docs : List α) (x : α), findOne q docs = some x →
      findOne q (findOneAndUpdate q upd docs) = some (upd x)
  | [], x, h => by simp [findOne] at h
  | d :: ds, x, h => by
    by_cases hd : q d = true
    · have hx : d = x := by simpa [findOne, List.find?, hd] using h
      subst hx
      simp [findOne, findOneAndUpdate, hd, hq]
    · have hd' : q d = false := by simpa using hd
      have hx : findOne q ds = some x := by simpa [findOne, List.find?, hd'] using h
      have ih := findOne_findOneAndUpdate q upd hq ds x hx
      simpa [findOne, findOneAndUpdate, hd', List.find?] using ih

theorem findOne_sat (q : α → Bool) (docs : List α) (x : α)
    (h : findOne q docs = some x) : q x = true := by
  unfold findOne at h
  exact List.find?_some h

theorem findOneAndUpdate_idem (q : α → Bool) (upd : α → α)
    (hq : ∀ x, q (upd x) = q x) (hupd : ∀ x, upd (upd x) = upd x) :
    ∀ docs : List α,
      findOneAndUpdate q upd (findOneAndUpdate q upd docs) = findOneAndUpdate q upd docs
  | [] => rfl
  | d :: ds => by
    by_cases hd : q d = true
    · simp [findOneAndUpdate, hd, hq, hupd]
    · have hd' : q d = false := by simpa using hd
      simp [findOneAndUpdate, hd', findOneAndUpdate_idem q upd hq hupd ds]

theorem findOneAndUpdate_mem (q : α → Bool) (upd : α → α) :
    ∀ (docs : List α) (x : α), x ∈ docs → q x = true →
      ∃ y ∈ docs, q y = true ∧ upd y ∈ findOneAndUpdate q upd docs
  | [], x, h, _ => by simp at h
  | d :: ds, x, h, hx => by
    by_cases hd : q d = true
    · exact ⟨d, by simp, hd, by simp [findOneAndUpdate, hd]⟩
    · have hd' : q d = false := by simpa using hd
      have hmem : x ∈ ds := by
        rcases List.mem_cons.1 h with rfl | h'
        · exact absurd hx hd
        · exact h'
      obtain ⟨y, hy, hqy, hin⟩ := findOneAndUpdate_mem q upd ds x hmem hx
      exact ⟨y, List.mem_cons_of_mem _ hy, hqy, by simp [findOneAndUpdate, hd', hin]⟩

theorem findOneAndUpdate_forall₂ (q : α → Bool) (upd : α → α) :
    ∀ docs : List α,
      List.Forall₂ (fun a b => b = a ∨ b = upd a) docs (findOneAndUpdate q upd docs)
  | [] => List.Forall₂.nil
  | d :: ds => by
    by_cases hd : q d = true
    · simp only [findOneAndUpdate, hd, if_true]
      exact List.Forall₂.cons (Or.inr rfl) (List.forall₂_same.2 (fun _ _ => Or.inl rfl))
    · have hd' : q d = false := by simpa using hd
      simp only [findOneAndUpdate, hd', Bool.false_eq_true, if_false]
      exact List.Forall₂.cons (Or.inl rfl) (findOneAndUpdate_forall₂ q upd ds)

theorem findOneSortDesc_rel (date : α → Nat) (q : α → Bool) (R : α → α → Prop)
    (hR : ∀ a b, R a b → q b = q a ∧ date b = date a)
    {l l' : List α} (h : List.Forall₂ R l l') :
    optRel R (findOneSortDesc date q l) (findOneSortDesc date q l') := by
  unfold findOneSortDesc
  suffices H : ∀ acc acc', optRel R acc acc' →
      optRel R
        ((l.filter q).foldl
          (fun best d =>
            match best with
            | none => some d
            | some b => if date b < date d then some d else some b) acc)
        ((l'.filter q).foldl
          (fun best d =>
            match best with
            | none => some d
            | some b => if date b < date d then some d else some b) acc') from
    H none none (Or.inl ⟨rfl, rfl⟩)
  induction h with
  | nil => intro acc acc' hacc; simpa using hacc
  | @cons a b l l' hab _ ih =>
    intro acc acc' hacc
    obtain ⟨hq, hdate⟩ := hR a b hab
    by_cases ha : q a = true
    · have hb : q b = true := by rw [hq, ha]
      simp only [List.filter_cons, ha, hb, if_true, List.foldl_cons]
      apply ih
      rcases hacc with ⟨rfl, rfl⟩ | ⟨x, y, rfl, rfl, hxy⟩
      · exact Or.inr ⟨a, b, rfl, rfl, hab⟩
      · have hd2 := (hR x y hxy).2
        by_cases hlt : date x < date a
        · have hlt' : date y < date b := by rw [hd2, hdate]; exact hlt
          simp only [hlt, hlt', if_true]
          exact Or.inr ⟨a, b, rfl, rfl, hab⟩
        · have hlt' : ¬ date y < date b := by rw [hd2, hdate]; exact hlt
          simp only [hlt, hlt', if_false]
          exact Or.inr ⟨x, y, rfl, rfl, hxy⟩
    · have ha' : q a = false := by simpa using ha
      have hb : q b = false := by rw [hq, ha']
      simp only [List.filter_cons, ha', hb, Bool.false_eq_true, if_false]
      exact ih acc acc' hacc

theorem findOneSortDesc_mem (date : α → Nat) (q : α → Bool) (docs : List α) (x : α)
    (h : findOneSortDesc date q docs = some x) : x ∈ docs := by
  unfold findOneSortDesc at h
  suffices H : ∀ (l : List α) (acc : Option α),
      l.foldl
        (fun best d =>
          match best with
          | none => some d
          | some b => if date b < date d then some d else some b) acc = some x →
      acc = some x ∨ x ∈ l by
    rcases H _ _ h with h0 | h1
    · cases h0
    · exact (List.mem_filter.1 h1).1
  intro l
  induction l with
  | nil => intro acc hacc; exact Or.inl (by simpa using hacc)
  | cons d ds ih =>
    intro acc hacc
    rw [List.foldl_cons] at hacc
    rcases ih _ hacc with h0 | h1
    · cases acc with
      | none =>
        simp only [Option.some.injEq] at h0
        exact Or.inr (by simp [h0])
      | some b =>
        by_cases hlt : date b < date d
        · simp only [hlt, if_true, Option.some.injEq] at h0
          exact Or.inr (by simp [h0])
        · simp only [hlt, if_false] at h0
          exact Or.inl h0
    · exact Or.inr (List.mem_cons_of_mem _ h1)

end StoreLemmas

/-! ## The submit and approve paths on unclassified lists -/

theorem submitGroupScreenings_default (user id : Nat) (db : Db) (group : Group)
    (doc : GroupScreening)
    (hg : findOne (fun g => g._id == id) db.groups = some group)
    (hd : GroupScreeningDal.get db group._id = some doc)
    (hns : ¬ screeningSpecificCase (statusesOf doc.screenings)) :
    ∃ db1, GroupScreeningCtl.submitGroupScreenings true user id db = .ok db1 ∧
      findOne (fun g => g._id == id) db1.groups =
        some { group with status := "screening_in_progress" } ∧
      ∃ d ∈ db1.groupScreenings, d._id = doc._id ∧ d.status = "screening_inprogress" := by
  have hst := screening_statusChecker_default doc.screenings hns
  have hid : group._id = id := by simpa using findOne_sat _ _ _ hg
  subst hid
  refine ⟨_, by simp [GroupScreeningCtl.submitGroupScreenings, hg, hd, isFalsy]; rfl, ?_, ?_⟩
  · simp only [hst, Option.getD_none, Bool.false_eq_true, if_false, LogDal.track,
      GroupDal.update, GroupScreeningDal.update]
    exact findOne_findOneAndUpdate (fun g => g._id == group._id)
      (fun g : Group => { g with status := "screening_in_progress" }) (fun _ => rfl) _ _ hg
  · have hmem : doc ∈ db.groupScreenings := findOneSortDesc_mem _ _ _ _ hd
    obtain ⟨y, _, hqy, hin⟩ := findOneAndUpdate_mem (fun d => d._id == doc._id)
      (fun d : GroupScreening => { d with status := "screening_inprogress" })
      db.groupScreenings doc hmem (by simp)
    refine ⟨{ y with status := "screening_inprogress" }, ?_, ?_, rfl⟩
    · simpa [hst, LogDal.track, GroupDal.update, GroupScreeningDal.update] using hin
    · simpa using hqy

theorem submitGroupScreenings_error (isPermitted : Bool) (user id : Nat) (db : Db) (e : CustomError)
    (h : GroupScreeningCtl.submitGroupScreenings isPermitted user id db = .error e) :
    e.message ≠ "Screening Statuses are incomplete" := by
  unfold GroupScreeningCtl.submitGroupScreenings at h
  cases isPermitted
  · simp at h
    subst h
    decide
  · cases hg : findOne (fun g => g._id == id) db.groups with
    | none =>
      simp [hg] at h
      subst h
      decide
    | some group =>
      cases hd : GroupScreeningDal.get db group._id with
      | none =>
        simp [hg, hd] at h
        subst h
        decide
      | some doc =>
        simp [hg, hd, isFalsy] at h

theorem approveGroupScreenings_default (user id : Nat) (db : Db) (group : Group)
    (doc : GroupScreening)
    (hg : findOne (fun g => g._id == id) db.groups = some group)
    (hd : GroupScreeningDal.get db group._id = some doc)
    (hns : ¬ screeningSpecificCase (statusesOf doc.screenings)) :
    ∃ db1, GroupScreeningCtl.approveGroupScreenings true user id db = .ok db1 ∧
      findOne (fun g => g._id == id) db1.groups =
        some { group with status := "screening_in_progress" } ∧
      ∃ d ∈ db1.groupScreenings, d._id = doc._id ∧ d.status = "screening_inprogress" := by
  have hst := screening_statusChecker_default doc.screenings hns
  have hid : group._id = id := by simpa using findOne_sat _ _ _ hg
  subst hid
  refine ⟨_, by simp [GroupScreeningCtl.approveGroupScreenings, hg, hd, isFalsy]; rfl, ?_, ?_⟩
  · simp only [hst, Option.getD_none, Bool.false_eq_true, if_false, LogDal.track,
      GroupDal.update, GroupScreeningDal.update]
    exact findOne_findOneAndUpdate (fun g => g._id == group._id)
      (fun g : Group => { g with status := "screening_in_progress" }) (fun _ => rfl) _ _ hg
  · have hmem : doc ∈ db.groupScreenings := findOneSortDesc_mem _ _ _ _ hd
    obtain ⟨y, _, hqy, hin⟩ := findOneAndUpdate_mem (fun d => d._id == doc._id)
      (fun d : GroupScreening => { d with status := "screening_inprogress" })
      db.groupScreenings doc hmem (by simp)
    refine ⟨{ y with status := "screening_inprogress" }, ?_, ?_, rfl⟩
    · simpa [hst, LogDal.track, GroupDal.update, GroupScreeningDal.update] using hin
    · simpa using hqy

theorem approveGroupScreenings_error (isPermitted : Bool) (user id : Nat) (db : Db) (e : CustomError)
    (h : GroupScreeningCtl.approveGroupScreenings isPermitted user id db = .error e) :
    e.message ≠ "Screening Statuses are incomplete" := by
  unfold GroupScreeningCtl.approveGroupScreenings at h
  cases isPermitted
  · simp at h
    subst h
    decide
  · cases hg : findOne (fun g => g._id == id) db.groups with
    | none =>
      simp [hg] at h
      subst h
      decide
    | some group =>
      cases hd : GroupScreeningDal.get db group._id with
      | none =>
        simp [hg, hd] at h
        subst h
        decide
      | some doc =>
        simp [hg, hd, isFalsy] at h

theorem submitGroupLoans_default (user id : Nat) (db : Db) (group : Group)
    (doc : GroupLoan)
    (hg : findOne (fun g => g._id == id) db.groups = some group)
    (hd : GroupLoanDal.get db group._id = some doc)
    (hne : doc.loans ≠ [])
    (hns : ¬ loanSpecificCase (statusesOf doc.loans)) :
    ∃ db1, GroupLoanCtl.submitGroupLoans true user id db = .ok db1 ∧
      findOne (fun g => g._id == id) db1.groups =
        some { group with status := "loan_application_inprogress" } ∧
      ∃ d ∈ db1.groupLoans, d._id = doc._id ∧ d.status = "inprogress" := by
  have hst := loan_statusChecker_default doc.loans hns
  have hid : group._id = id := by simpa using findOne_sat _ _ _ hg
  subst hid
  refine ⟨_, by simp [GroupLoanCtl.submitGroupLoans, hg, hd, isFalsy, hne]; rfl, ?_, ?_⟩
  · simp only [hst, Option.getD_none, Bool.false_eq_true, if_false, LogDal.track,
      GroupDal.update, GroupLoanDal.update]
    exact findOne_findOneAndUpdate (fun g => g._id == group._id)
      (fun g : Group => { g with status := "loan_application_inprogress" }) (fun _ => rfl) _ _ hg
  · have hmem : doc ∈ db.groupLoans := findOneSortDesc_mem _ _ _ _ hd
    obtain ⟨y, _, hqy, hin⟩ := findOneAndUpdate_mem (fun d => d._id == doc._id)
      (fun d : GroupLoan => { d with status := "inprogress" })
      db.groupLoans doc hmem (by simp)
    refine ⟨{ y with status := "inprogress" }, ?_, ?_, rfl⟩
    · simpa [hst, LogDal.track, GroupDal.update, GroupLoanDal.update] using hin
    · simpa using hqy

theorem submitGroupLoans_error (isPermitted : Bool) (user id : Nat) (db : Db) (e : CustomError)
    (h : GroupLoanCtl.submitGroupLoans isPermitted user id db = .error e) :
    e.message ≠ "Loan Statuses are incomplete" := by
  unfold GroupLoanCtl.submitGroupLoans at h
  cases isPermitted
  · simp at h
    subst h
    decide
  · cases hg : findOne (fun g => g._id == id) db.groups with
    | none =>
      simp [hg] at h
      subst h
      decide
    | some group =>
      cases hd : GroupLoanDal.get db group._id with
      | none =>
        simp [hg, hd] at h
        subst h
        decide
      | some doc =>
        by_cases hl : doc.loans = []
        · simp [hg, hd, hl] at h
          subst h
          decide
        · simp [hg, hd, isFalsy, hl] at h

theorem approveGroupLoans_default (user id : Nat) (db : Db) (group : Group)
    (doc : GroupLoan)
    (hg : findOne (fun g => g._id == id) db.groups = some group)
    (hd : GroupLoanDal.get db group._id = some doc)
    (hne : doc.loans ≠ [])
    (hns : ¬ loanSpecificCase (statusesOf doc.loans)) :
    ∃ db1, GroupLoanCtl.approveGroupLoans true user id db = .ok db1 ∧
      findOne (fun g => g._id == id) db1.groups =
        some { group with status := "loan_application_inprogress" } ∧
      ∃ d ∈ db1.groupLoans, d._id = doc._id ∧ d.status = "inprogress" := by
  have hst := loan_statusChecker_default doc.loans hns
  have hid : group._id = id := by simpa using findOne_sat _ _ _ hg
  subst hid
  refine ⟨_, by simp [GroupLoanCtl.approveGroupLoans, hg, hd, isFalsy, hne]; rfl, ?_, ?_⟩
  · simp only [hst, Option.getD_none, Bool.false_eq_true, if_false, LogDal.track,
      GroupDal.update, GroupLoanDal.update]
    exact findOne_findOneAndUpdate (fun g => g._id == group._id)
      (fun g : Group => { g with status := "loan_application_inprogress" }) (fun _ => rfl) _ _ hg
  · have hmem : doc ∈ db.groupLoans := findOneSortDesc_mem _ _ _ _ hd
    obtain ⟨y, _, hqy, hin⟩ := findOneAndUpdate_mem (fun d => d._id == doc._id)
      (fun d : GroupLoan => { d with status := "inprogress" })
      db.groupLoans doc hmem (by simp)
    refine ⟨{ y with status := "inprogress" }, ?_, ?_, rfl⟩
    · simpa [hst, LogDal.track, GroupDal.update, GroupLoanDal.update] using hin
    · simpa using hqy

theorem approveGroupLoans_error (isPermitted : Bool) (user id : Nat) (db : Db) (e : CustomError)
    (h : GroupLoanCtl.approveGroupLoans isPermitted user id db = .error e) :
    e.message ≠ "Loan Statuses are incomplete" := by
  unfold GroupLoanCtl.approveGroupLoans at h
  cases isPermitted
  · simp at h
    subst h
    decide
  · cases hg : findOne (fun g => g._id == id) db.groups with
    | none =>
      simp [hg] at h
      subst h
      decide
    | some group =>
      cases hd : GroupLoanDal.get db group._id with
      | none =>
        simp [hg, hd] at h
        subst h
        decide
      | some doc =>
        by_cases hl : doc.loans = []
        · simp [hg, hd, hl] at h
          subst h
          decide
        · simp [hg, hd, isFalsy, hl] at h

theorem submitGroupACATs_default (user id : Nat) (db : Db) (group : Group)
    (doc : GroupACAT)
    (hg : findOne (fun g => g._id == id) db.groups = some group)
    (hd : GroupACATDal.get db group._id = some doc)
    (hne : doc.acats ≠ [])
    (hns : ¬ acatSpecificCase (statusesOf doc.acats)) :
    ∃ db1, GroupACATCtl.submitGroupACATs true user id db = .ok db1 ∧
      findOne (fun g => g._id == id) db1.groups =
        some { group with status := "ACAT_IN_PROGRESS" } ∧
      ∃ d ∈ db1.groupACATs, d._id = doc._id ∧ d.status = "inprogress" := by
  have hst := acat_statusChecker_default doc.acats hns
  have hid : group._id = id := by simpa using findOne_sat _ _ _ hg
  subst hid
  refine ⟨_, by simp [GroupACATCtl.submitGroupACATs, hg, hd, isFalsy, hne]; rfl, ?_, ?_⟩
  · simp only [hst, Option.getD_none, Bool.false_eq_true, if_false, LogDal.track,
      GroupDal.update, GroupACATDal.update]
    exact findOne_findOneAndUpdate (fun g => g._id == group._id)
      (fun g : Group => { g with status := "ACAT_IN_PROGRESS" }) (fun _ => rfl) _ _ hg
  · have hmem : doc ∈ db.groupACATs := findOneSortDesc_mem _ _ _ _ hd
    obtain ⟨y, _, hqy, hin⟩ := findOneAndUpdate_mem (fun d => d._id == doc._id)
      (fun d : GroupACAT => { d with status := "inprogress" })
      db.groupACATs doc hmem (by simp)
    refine ⟨{ y with status := "inprogress" }, ?_, ?_, rfl⟩
    · simpa [hst, LogDal.track, GroupDal.update, GroupACATDal.update] using hin
    · simpa using hqy

theorem submitGroupACATs_error (isPermitted : Bool) (user id : Nat) (db : Db) (e : CustomError)
    (h : GroupACATCtl.submitGroupACATs isPermitted user id db = .error e) :
    e.message ≠ "ACAT Statuses are incomplete" := by
  unfold GroupACATCtl.submitGroupACATs at h
  cases isPermitted
  · simp at h
    subst h
    decide
  · cases hg : findOne (fun g => g._id == id) db.groups with
    | none =>
      simp [hg] at h
      subst h
      decide
    | some group =>
      cases hd : GroupACATDal.get db group._id with
      | none =>
        simp [hg, hd] at h
        subst h
        decide
      | some doc =>
        by_cases hl : doc.acats = []
        · simp [hg, hd, hl] at h
          subst h
          decide
        · simp [hg, hd, isFalsy, hl] at h

theorem approveGroupACATs_default (user id : Nat) (db : Db) (group : Group)
    (doc : GroupACAT)
    (hg : findOne (fun g => g._id == id) db.groups = some group)
    (hd : GroupACATDal.get db group._id = some doc)
    (hne : doc.acats ≠ [])
    (hns : ¬ acatSpecificCase (statusesOf doc.acats)) :
    ∃ db1, GroupACATCtl.approveGroupACATs true user id db = .ok db1 ∧
      findOne (fun g => g._id == id) db1.groups =
        some { group with status := "ACAT_IN_PROGRESS" } ∧
      ∃ d ∈ db1.groupACATs, d._id = doc._id ∧ d.status = "inprogress" := by
  have hst := acat_statusChecker_default doc.acats hns
  have hid : group._id = id := by simpa using findOne_sat _ _ _ hg
  subst hid
  refine ⟨_, by simp [GroupACATCtl.approveGroupACATs, hg, hd, isFalsy, hne]; rfl, ?_, ?_⟩
  · simp only [hst, Option.getD_none, Bool.false_eq_true, if_false, LogDal.track,
      GroupDal.update, GroupACATDal.update]
    exact findOne_findOneAndUpdate (fun g => g._id == group._id)
      (fun g : Group => { g with status := "ACAT_IN_PROGRESS" }) (fun _ => rfl) _ _ hg
  · have hmem : doc ∈ db.groupACATs := findOneSortDesc_mem _ _ _ _ hd
    obtain ⟨y, _, hqy, hin⟩ := findOneAndUpdate_mem (fun d => d._id == doc._id)
      (fun d : GroupACAT => { d with status := "inprogress" })
      db.groupACATs doc hmem (by simp)
    refine ⟨{ y with status := "inprogress" }, ?_, ?_, rfl⟩
    · simpa [hst, LogDal.track, GroupDal.update, GroupACATDal.update] using hin
    · simpa using hqy

theorem approveGroupACATs_error (isPermitted : Bool) (user id : Nat) (db : Db) (e : CustomError)
    (h : GroupACATCtl.approveGroupACATs isPermitted user id db = .error e) :
    e.message ≠ "ACAT Statuses are incomplete" := by
  unfold GroupACATCtl.approveGroupACATs at h
  cases isPermitted
  · simp at h
    subst h
    decide
  · cases hg : findOne (fun g => g._id == id) db.groups with
    | none =>
      simp [hg] at h
      subst h
      decide
    | some group =>
      cases hd : GroupACATDal.get db group._id with
      | none =>
        simp [hg, hd] at h
        subst h
        decide
      | some doc =>
        by_cases hl : doc.acats = []
        · simp [hg, hd, hl] at h
          subst h
          decide
        · simp [hg, hd, isFalsy, hl] at h

/-- C9, as stated, fails: on a store whose screening members are `new` and
`submitted` (no specific case applies) the permitted submit and approve requests
return normally, having written the default in-progress statuses. -/
theorem incomplete_statuses_counterexample :
    ¬ screeningSpecificCase (statusesOf mixedScreening.screenings) ∧
    GroupScreeningCtl.submitGroupScreenings true 7 1 mixedDb =
      .ok { groups := [{ sampleGroup with status := "screening_in_progress" }],
            groupScreenings := [{ mixedScreening with status := "screening_inprogress" }],
            logs := [{ event := "group_screening_submit", group := 7,
                       message := "Submit Screenings for 11" }] } ∧
    GroupScreeningCtl.approveGroupScreenings true 7 1 mixedDb =
      .ok { groups := [{ sampleGroup with status := "screening_in_progress" }],
            groupScreenings := [{ mixedScreening with status := "screening_inprogress" }],
            logs := [{ event := "group_screening_approve", group := 7,
                       message := "Approve Screenings for 11" }] } := by
  exact ⟨by decide, rfl, rfl⟩

/-- C9 (amended): the submit and approve handlers of the three stages never throw
the `Statuses are incomplete` error; a permitted request on an existing group with a
stage aggregate (with at least one member record for loan and ACAT) whose member
statuses match no specific case of the reducer succeeds and persists the reducer
default: the group reads back with the in-progress group status and a stage aggregate
with the loaded id carries the in-progress stage status. -/
theorem incomplete_statuses_never_raised (isPermitted : Bool) (user id : Nat) (db : Db) :
    (∀ e : CustomError,
      (GroupScreeningCtl.submitGroupScreenings isPermitted user id db = .error e ∨
        GroupScreeningCtl.approveGroupScreenings isPermitted user id db = .error e) →
      e.message ≠ "Screening Statuses are incomplete") ∧
    (∀ e : CustomError,
      (GroupLoanCtl.submitGroupLoans isPermitted user id db = .error e ∨
        GroupLoanCtl.approveGroupLoans isPermitted user id db = .error e) →
      e.message ≠ "Loan Statuses are incomplete") ∧
    (∀ e : CustomError,
      (GroupACATCtl.submitGroupACATs isPermitted user id db = .error e ∨
        GroupACATCtl.approveGroupACATs isPermitted user id db = .error e) →
      e.message ≠ "ACAT Statuses are incomplete") ∧
    (∀ (group : Group) (doc : GroupScreening),
      findOne (fun g => g._id == id) db.groups = some group →
      GroupScreeningDal.get db group._id = some doc →
      ¬ screeningSpecificCase (statusesOf doc.screenings) →
        (∃ db1, GroupScreeningCtl.submitGroupScreenings true user id db = .ok db1 ∧
          findOne (fun g => g._id == id) db1.groups =
            some { group with status := "screening_in_progress" } ∧
          ∃ d ∈ db1.groupScreenings, d._id = doc._id ∧ d.status = "screening_inprogress") ∧
        (∃ db1, GroupScreeningCtl.approveGroupScreenings true user id db = .ok db1 ∧
          findOne (fun g => g._id == id) db1.groups =
            some { group with status := "screening_in_progress" } ∧
          ∃ d ∈ db1.groupScreenings, d._id = doc._id ∧ d.status = "screening_inprogress")) ∧
    (∀ (group : Group) (doc : GroupLoan),
      findOne (fun g => g._id == id) db.groups = some group →
      GroupLoanDal.get db group._id = some doc →
      doc.loans ≠ [] →
      ¬ loanSpecificCase (statusesOf doc.loans) →
        (∃ db1, GroupLoanCtl.submitGroupLoans true user id db = .ok db1 ∧
          findOne (fun g => g._id == id) db1.groups =
            some { group with status := "loan_application_inprogress" } ∧
          ∃ d ∈ db1.groupLoans, d._id = doc._id ∧ d.status = "inprogress") ∧
        (∃ db1, GroupLoanCtl.approveGroupLoans true user id db = .ok db1 ∧
          findOne (fun g => g._id == id) db1.groups =
            some { group with status := "loan_application_inprogress" } ∧
          ∃ d ∈ db1.groupLoans, d._id = doc._id ∧ d.status = "inprogress")) ∧
    (∀ (group : Group) (doc : GroupACAT),
      findOne (fun g => g._id == id) db.groups = some group →
      GroupACATDal.get db group._id = some doc →
      doc.acats ≠ [] →
      ¬ acatSpecificCase (statusesOf doc.acats) →
        (∃ db1, GroupACATCtl.submitGroupACATs true user id db = .ok db1 ∧
          findOne (fun g => g._id == id) db1.groups =
            some { group with status := "ACAT_IN_PROGRESS" } ∧
          ∃ d ∈ db1.groupACATs, d._id = doc._id ∧ d.status = "inprogress") ∧
        (∃ db1, GroupACATCtl.approveGroupACATs true user id db = .ok db1 ∧
          findOne (fun g => g._id == id) db1.groups =
            some { group with status := "ACAT_IN_PROGRESS" } ∧
          ∃ d ∈ db1.groupACATs, d._id = doc._id ∧ d.status = "inprogress")) := by
  refine ⟨?_, ?_, ?_, ?_, ?_, ?_⟩
  · rintro e (h | h)
    · exact submitGroupScreenings_error _ _ _ _ _ h
    · exact approveGroupScreenings_error _ _ _ _ _ h
  · rintro e (h | h)
    · exact submitGroupLoans_error _ _ _ _ _ h
    · exact approveGroupLoans_error _ _ _ _ _ h
  · rintro e (h | h)
    · exact submitGroupACATs_error _ _ _ _ _ h
    · exact approveGroupACATs_error _ _ _ _ _ h
  · intro group doc hg hd hns
    exact ⟨submitGroupScreenings_default user id db group doc hg hd hns,
      approveGroupScreenings_default user id db group doc hg hd hns⟩
  · intro group doc hg hd hne hns
    exact ⟨submitGroupLoans_default user id db group doc hg hd hne hns,
      approveGroupLoans_default user id db group doc hg hd hne hns⟩
  · intro group doc hg hd hne hns
    exact ⟨submitGroupACATs_default user id db group doc hg hd hne hns,
      approveGroupACATs_default user id db group doc hg hd hne hns⟩

/-- Witness for C9 (amended): a refused submit carries another message, and the
mixed screening store is persisted as in progress by submit. -/
theorem incomplete_statuses_never_raised_witness :
    notPermittedMessage ≠ "Screening Statuses are incomplete" ∧
    ∃ db1, GroupScreeningCtl.submitGroupScreenings true 7 1 mixedDb = .ok db1 ∧
      findOne (fun g => g._id == 1) db1.groups =
        some { sampleGroup with status := "screening_in_progress" } ∧
      ∃ d ∈ db1.groupScreenings, d._id = 11 ∧ d.status = "screening_inprogress" :=
  ⟨(incomplete_statuses_never_raised false 7 1 mixedDb).1
      { type := "GROUP_SCREENING_UPDATE_ERROR", message := notPermittedMessage }
      (Or.inl rfl),
   ((incomplete_statuses_never_raised true 7 1 mixedDb).2.2.2.1
      sampleGroup mixedScreening rfl rfl (by decide)).1⟩

/-! ## Status refresh twice in a row -/

theorem GroupScreeningDal_get_after_update (db : Db) (g id : Nat) (s : String)
    (doc : GroupScreening) (hd : GroupScreeningDal.get db g = some doc) :
    ∃ doc1, GroupScreeningDal.get (GroupScreeningDal.update db id s) g = some doc1 ∧
      doc1._id = doc._id ∧ doc1.screenings = doc.screenings := by
  have hrel := findOneSortDesc_rel (fun d : GroupScreening => d.date_created)
    (fun d => d.group == g) (fun a b => b = a ∨ b = { a with status := s })
    (by rintro a b (rfl | rfl) <;> simp)
    (findOneAndUpdate_forall₂ (fun d : GroupScreening => d._id == id)
      (fun d => { d with status := s }) db.groupScreenings)
  unfold GroupScreeningDal.get at hd ⊢
  rcases hrel with ⟨h0, _⟩ | ⟨x, y, hx, hy, hxy⟩
  · rw [h0] at hd; cases hd
  · rw [hx] at hd
    cases hd
    refine ⟨y, hy, ?_⟩
    rcases hxy with rfl | rfl <;> simp

theorem updateGroupScreeningStatus_ok (user id : Nat) (db : Db) (group : Group)
    (doc : GroupScreening)
    (hg : findOne (fun g => g._id == id) db.groups = some group)
    (hd : GroupScreeningDal.get db group._id = some doc) :
    GroupScreeningCtl.updateGroupScreeningStatus true user id db =
      .ok (LogDal.track
        (GroupDal.update
          (GroupScreeningDal.update db doc._id
            (GroupScreeningCtl.statusChecker doc.screenings).group_screening)
          group._id (GroupScreeningCtl.statusChecker doc.screenings).group)
        { event := "group_screening_status_update", group := user,
          message := "Update Status of Screenings for " ++ toString doc._id }) := by
  simp [GroupScreeningCtl.updateGroupScreeningStatus, hg, hd, isFalsy]

theorem updateGroupScreeningStatus_twice (isPermitted : Bool) (user user2 id : Nat)
    (db : Db) :
    (storeAfter (storeAfter db (GroupScreeningCtl.updateGroupScreeningStatus isPermitted user id db))
        (GroupScreeningCtl.updateGroupScreeningStatus isPermitted user2 id
          (storeAfter db
            (GroupScreeningCtl.updateGroupScreeningStatus isPermitted user id db)))).groups =
      (storeAfter db
        (GroupScreeningCtl.updateGroupScreeningStatus isPermitted user id db)).groups ∧
    (storeAfter (storeAfter db (GroupScreeningCtl.updateGroupScreeningStatus isPermitted user id db))
        (GroupScreeningCtl.updateGroupScreeningStatus isPermitted user2 id
          (storeAfter db
            (GroupScreeningCtl.updateGroupScreeningStatus isPermitted user id db)))).groupScreenings =
      (storeAfter db
        (GroupScreeningCtl.updateGroupScreeningStatus isPermitted user id db)).groupScreenings ∧
    succeeded (GroupScreeningCtl.updateGroupScreeningStatus isPermitted user2 id
        (storeAfter db
          (GroupScreeningCtl.updateGroupScreeningStatus isPermitted user id db))) =
      succeeded (GroupScreeningCtl.updateGroupScreeningStatus isPermitted user id db) := by
  cases isPermitted
  · simp [GroupScreeningCtl.updateGroupScreeningStatus, storeAfter, succeeded]
  · cases hg : findOne (fun g => g._id == id) db.groups with
    | none => simp [GroupScreeningCtl.updateGroupScreeningStatus, hg, storeAfter, succeeded]
    | some group =>
      cases hd : GroupScreeningDal.get db group._id with
      | none =>
        simp [GroupScreeningCtl.updateGroupScreeningStatus, hg, hd, storeAfter, succeeded]
      | some doc =>
        have hid : group._id = id := by simpa using findOne_sat _ _ _ hg
        subst hid
        obtain ⟨doc1, hd1, hid1, hm1⟩ := GroupScreeningDal_get_after_update db group._id
          doc._id (GroupScreeningCtl.statusChecker doc.screenings).group_screening doc hd
        have hg1 := findOne_findOneAndUpdate (fun g : Group => g._id == group._id)
          (fun g => { g with status := (GroupScreeningCtl.statusChecker doc.screenings).group })
          (fun _ => rfl) _ _ hg
        rw [updateGroupScreeningStatus_ok user group._id db group doc hg hd]
        simp only [storeAfter]
        generalize hdb1 : LogDal.track _ _ = db1
        have hg2 : findOne (fun g => g._id == group._id) db1.groups =
            some { group with
              status := (GroupScreeningCtl.statusChecker doc.screenings).group } := by
          rw [← hdb1]; exact hg1
        have hd2 : GroupScreeningDal.get db1 group._id = some doc1 := by
          rw [← hdb1]; exact hd1
        rw [updateGroupScreeningStatus_ok user2 group._id db1 _ doc1 hg2 hd2]
        subst hdb1
        simp only [succeeded, hid1, hm1, LogDal.track, GroupDal.update,
          GroupScreeningDal.update, and_true]
        constructor
        · apply findOneAndUpdate_idem <;> intro _ <;> rfl
        · apply findOneAndUpdate_idem <;> intro _ <;> rfl

theorem GroupLoanDal_get_after_update (db : Db) (g id : Nat) (s : String)
    (doc : GroupLoan) (hd : GroupLoanDal.get db g = some doc) :
    ∃ doc1, GroupLoanDal.get (GroupLoanDal.update db id s) g = some doc1 ∧
      doc1._id = doc._id ∧ doc1.loans = doc.loans := by
  have hrel := findOneSortDesc_rel (fun d : GroupLoan => d.date_created)
    (fun d => d.group == g) (fun a b => b = a ∨ b = { a with status := s })
    (by rintro a b (rfl | rfl) <;> simp)
    (findOneAndUpdate_forall₂ (fun d : GroupLoan => d._id == id)
      (fun d => { d with status := s }) db.groupLoans)
  unfold GroupLoanDal.get at hd ⊢
  rcases hrel with ⟨h0, _⟩ | ⟨x, y, hx, hy, hxy⟩
  · rw [h0] at hd; cases hd
  · rw [hx] at hd
    cases hd
    refine ⟨y, hy, ?_⟩
    rcases hxy with rfl | rfl <;> simp

theorem updateGroupLoanStatus_ok (user id : Nat) (db : Db) (group : Group)
    (doc : GroupLoan)
    (hg : findOne (fun g => g._id == id) db.groups = some group)
    (hd : GroupLoanDal.get db group._id = some doc) (hne : doc.loans ≠ []) :
    GroupLoanCtl.updateGroupLoanStatus true user id db =
      .ok (LogDal.track
        (GroupDal.update
          (GroupLoanDal.update db doc._id
            (GroupLoanCtl.statusChecker doc.loans).group_loan)
          group._id (GroupLoanCtl.statusChecker doc.loans).group)
        { event := "group_loan_status_update", group := user,
          message := "Update Status of Screenings for  " ++ toString doc._id }) := by
  simp [GroupLoanCtl.updateGroupLoanStatus, hg, hd, isFalsy, hne]

theorem updateGroupLoanStatus_twice (isPermitted : Bool) (user user2 id : Nat)
    (db : Db) :
    (storeAfter (storeAfter db (GroupLoanCtl.updateGroupLoanStatus isPermitted user id db))
        (GroupLoanCtl.updateGroupLoanStatus isPermitted user2 id
          (storeAfter db (GroupLoanCtl.updateGroupLoanStatus isPermitted user id db)))).groups =
      (storeAfter db (GroupLoanCtl.updateGroupLoanStatus isPermitted user id db)).groups ∧
    (storeAfter (storeAfter db (GroupLoanCtl.updateGroupLoanStatus isPermitted user id db))
        (GroupLoanCtl.updateGroupLoanStatus isPermitted user2 id
          (storeAfter db (GroupLoanCtl.updateGroupLoanStatus isPermitted user id db)))).groupLoans =
      (storeAfter db (GroupLoanCtl.updateGroupLoanStatus isPermitted user id db)).groupLoans ∧
    succeeded (GroupLoanCtl.updateGroupLoanStatus isPermitted user2 id
        (storeAfter db (GroupLoanCtl.updateGroupLoanStatus isPermitted user id db))) =
      succeeded (GroupLoanCtl.updateGroupLoanStatus isPermitted user id db) := by
  cases isPermitted
  · simp [GroupLoanCtl.updateGroupLoanStatus, storeAfter, succeeded]
  · cases hg : findOne (fun g => g._id == id) db.groups with
    | none => simp [GroupLoanCtl.updateGroupLoanStatus, hg, storeAfter, succeeded]
    | some group =>
      cases hd : GroupLoanDal.get db group._id with
      | none =>
        simp [GroupLoanCtl.updateGroupLoanStatus, hg, hd, storeAfter, succeeded]
      | some doc =>
        by_cases hne : doc.loans = []
        · simp [GroupLoanCtl.updateGroupLoanStatus, hg, hd, hne, storeAfter, succeeded]
        · have hid : group._id = id := by simpa using findOne_sat _ _ _ hg
          subst hid
          obtain ⟨doc1, hd1, hid1, hm1⟩ := GroupLoanDal_get_after_update db group._id
            doc._id (GroupLoanCtl.statusChecker doc.loans).group_loan doc hd
          have hg1 := findOne_findOneAndUpdate (fun g : Group => g._id == group._id)
            (fun g => { g with status := (GroupLoanCtl.statusChecker doc.loans).group })
            (fun _ => rfl) _ _ hg
          rw [updateGroupLoanStatus_ok user group._id db group doc hg hd hne]
          simp only [storeAfter]
          generalize hdb1 : LogDal.track _ _ = db1
          have hg2 : findOne (fun g => g._id == group._id) db1.groups =
              some { group with
                status := (GroupLoanCtl.statusChecker doc.loans).group } := by
            rw [← hdb1]; exact hg1
          have hd2 : GroupLoanDal.get db1 group._id = some doc1 := by
            rw [← hdb1]; exact hd1
          rw [updateGroupLoanStatus_ok user2 group._id db1 _ doc1 hg2 hd2 (by rw [hm1]; exact hne)]
          subst hdb1
          simp only [succeeded, hid1, hm1, LogDal.track, GroupDal.update,
            GroupLoanDal.update, and_true]
          constructor
          · apply findOneAndUpdate_idem <;> intro _ <;> rfl
          · apply findOneAndUpdate_idem <;> intro _ <;> rfl

theorem GroupACATDal_get_after_update (db : Db) (g id : Nat) (s : String)
    (doc : GroupACAT) (hd : GroupACATDal.get db g = some doc) :
    ∃ doc1, GroupACATDal.get (GroupACATDal.update db id s) g = some doc1 ∧
      doc1._id = doc._id ∧ doc1.acats = doc.acats := by
  have hrel := findOneSortDesc_rel (fun d : GroupACAT => d.date_created)
    (fun d => d.group == g) (fun a b => b = a ∨ b = { a with status := s })
    (by rintro a b (rfl | rfl) <;> simp)
    (findOneAndUpdate_forall₂ (fun d : GroupACAT => d._id == id)
      (fun d => { d with status := s }) db.groupACATs)
  unfold GroupACATDal.get at hd ⊢
  rcases hrel with ⟨h0, _⟩ | ⟨x, y, hx, hy, hxy⟩
  · rw [h0] at hd; cases hd
  · rw [hx] at hd
    cases hd
    refine ⟨y, hy, ?_⟩
    rcases hxy with rfl | rfl <;> simp

theorem updateGroupACATStatus_ok (user id : Nat) (db : Db) (group : Group)
    (doc : GroupACAT)
    (hg : findOne (fun g => g._id == id) db.groups = some group)
    (hd : GroupACATDal.get db group._id = some doc) (hne : doc.acats ≠ []) :
    GroupACATCtl.updateGroupACATStatus true user id db =
      .ok (LogDal.track
        (GroupDal.update
          (GroupACATDal.update db doc._id
            (GroupACATCtl.statusChecker doc.acats).group_acat)
          group._id (GroupACATCtl.statusChecker doc.acats).group)
        { event := "group_acat_update_status", group := user,
          message := "Update ACATs for " ++ toString doc._id }) := by
  simp [GroupACATCtl.updateGroupACATStatus, hg, hd, isFalsy, hne]

theorem updateGroupACATStatus_twice (isPermitted : Bool) (user user2 id : Nat)
    (db : Db) :
    (storeAfter (storeAfter db (GroupACATCtl.updateGroupACATStatus isPermitted user id db))
        (GroupACATCtl.updateGroupACATStatus isPermitted user2 id
          (storeAfter db (GroupACATCtl.updateGroupACATStatus isPermitted user id db)))).groups =
      (storeAfter db (GroupACATCtl.updateGroupACATStatus isPermitted user id db)).groups ∧
    (storeAfter (storeAfter db (GroupACATCtl.updateGroupACATStatus isPermitted user id db))
        (GroupACATCtl.updateGroupACATStatus isPermitted user2 id
          (storeAfter db (GroupACATCtl.updateGroupACATStatus isPermitted user id db)))).groupACATs =
      (storeAfter db (GroupACATCtl.updateGroupACATStatus isPermitted user id db)).groupACATs ∧
    succeeded (GroupACATCtl.updateGroupACATStatus isPermitted user2 id
        (storeAfter db (GroupACATCtl.updateGroupACATStatus isPermitted user id db))) =
      succeeded (GroupACATCtl.updateGroupACATStatus isPermitted user id db) := by
  cases isPermitted
  · simp [GroupACATCtl.updateGroupACATStatus, storeAfter, succeeded]
  · cases hg : findOne (fun g => g._id == id) db.groups with
    | none => simp [GroupACATCtl.updateGroupACATStatus, hg, storeAfter, succeeded]
    | some group =>
      cases hd : GroupACATDal.get db group._id with
      | none =>
        simp [GroupACATCtl.updateGroupACATStatus, hg, hd, storeAfter, succeeded]
      | some doc =>
        by_cases hne : doc.acats = []
        · simp [GroupACATCtl.updateGroupACATStatus, hg, hd, hne, storeAfter, succeeded]
        · have hid : group._id = id := by simpa using findOne_sat _ _ _ hg
          subst hid
          obtain ⟨doc1, hd1, hid1, hm1⟩ := GroupACATDal_get_after_update db group._id
            doc._id (GroupACATCtl.statusChecker doc.acats).group_acat doc hd
          have hg1 := findOne_findOneAndUpdate (fun g : Group => g._id == group._id)
            (fun g => { g with status := (GroupACATCtl.statusChecker doc.acats).group })
            (fun _ => rfl) _ _ hg
          rw [updateGroupACATStatus_ok user group._id db group doc hg hd hne]
          simp only [storeAfter]
          generalize hdb1 : LogDal.track _ _ = db1
          have hg2 : findOne (fun g => g._id == group._id) db1.groups =
              some { group with
                status := (GroupACATCtl.statusChecker doc.acats).group } := by
            rw [← hdb1]; exact hg1
          have hd2 : GroupACATDal.get db1 group._id = some doc1 := by
            rw [← hdb1]; exact hd1
          rw [updateGroupACATStatus_ok user2 group._id db1 _ doc1 hg2 hd2 (by rw [hm1]; exact hne)]
          subst hdb1
          simp only [succeeded, hid1, hm1, LogDal.track, GroupDal.update,
            GroupACATDal.update, and_true]
          constructor
          · apply findOneAndUpdate_idem <;> intro _ <;> rfl
          · apply findOneAndUpdate_idem <;> intro _ <;> rfl

/-- C10: status refresh is idempotent for each stage: with `db1` the store after a
first `updateStatus` request on a group and `db2` the store after a second one right
after it, the groups (hence the group status) and the stage aggregates (hence the
stage status) of `db2` are those of `db1`, and the second request returns exactly when
the first did. -/
theorem updateStatus_idempotent (isPermitted : Bool) (user user2 id : Nat) (db : Db) :
    (∀ db1 db2 : Db,
      db1 = storeAfter db (GroupScreeningCtl.updateGroupScreeningStatus isPermitted user id db) →
      db2 = storeAfter db1 (GroupScreeningCtl.updateGroupScreeningStatus isPermitted user2 id db1) →
      db2.groups = db1.groups ∧ db2.groupScreenings = db1.groupScreenings ∧
      succeeded (GroupScreeningCtl.updateGroupScreeningStatus isPermitted user2 id db1) =
        succeeded (GroupScreeningCtl.updateGroupScreeningStatus isPermitted user id db)) ∧
    (∀ db1 db2 : Db,
      db1 = storeAfter db (GroupLoanCtl.updateGroupLoanStatus isPermitted user id db) →
      db2 = storeAfter db1 (GroupLoanCtl.updateGroupLoanStatus isPermitted user2 id db1) →
      db2.groups = db1.groups ∧ db2.groupLoans = db1.groupLoans ∧
      succeeded (GroupLoanCtl.updateGroupLoanStatus isPermitted user2 id db1) =
        succeeded (GroupLoanCtl.updateGroupLoanStatus isPermitted user id db)) ∧
    (∀ db1 db2 : Db,
      db1 = storeAfter db (GroupACATCtl.updateGroupACATStatus isPermitted user id db) →
      db2 = storeAfter db1 (GroupACATCtl.updateGroupACATStatus isPermitted user2 id db1) →
      db2.groups = db1.groups ∧ db2.groupACATs = db1.groupACATs ∧
      succeeded (GroupACATCtl.updateGroupACATStatus isPermitted user2 id db1) =
        succeeded (GroupACATCtl.updateGroupACATStatus isPermitted user id db)) := by
  refine ⟨?_, ?_, ?_⟩
  · rintro db1 db2 rfl rfl
    exact updateGroupScreeningStatus_twice isPermitted user user2 id db
  · rintro db1 db2 rfl rfl
    exact updateGroupLoanStatus_twice isPermitted user user2 id db
  · rintro db1 db2 rfl rfl
    exact updateGroupACATStatus_twice isPermitted user user2 id db

/-- Witness for C10: refreshing the screening status of the sample store twice. -/
theorem updateStatus_idempotent_witness :
    ∃ db1 db2 : Db,
      GroupScreeningCtl.updateGroupScreeningStatus true 7 1 sampleDb = .ok db1 ∧
      GroupScreeningCtl.updateGroupScreeningStatus true 8 1 db1 = .ok db2 ∧
      db1.groups = [{ sampleGroup with status := "screening_submitted" }] ∧
      db2.groups = db1.groups ∧ db2.groupScreenings = db1.groupScreenings :=
  ⟨storeAfter sampleDb (GroupScreeningCtl.updateGroupScreeningStatus true 7 1 sampleDb),
   storeAfter (storeAfter sampleDb
      (GroupScreeningCtl.updateGroupScreeningStatus true 7 1 sampleDb))
    (GroupScreeningCtl.updateGroupScreeningStatus true 8 1
      (storeAfter sampleDb (GroupScreeningCtl.updateGroupScreeningStatus true 7 1 sampleDb))),
   rfl, rfl, rfl,
   ((updateStatus_idempotent true 7 8 1 sampleDb).1 _ _ rfl rfl).1,
   ((updateStatus_idempotent true 7 8 1 sampleDb).1 _ _ rfl rfl).2.1⟩

/-! ## The cycle gates -/

theorem screeningOpen_iff (status : String) :
    screeningOpen status = true ↔ status ∈ ["new", "screening_inprogress", "submitted"] := by
  simp [screeningOpen, or_assoc]

theorem loanOpen_iff (status : String) :
    loanOpen status = true ↔ status ∈ ["new", "submitted", "inprogress"] := by
  simp [loanOpen, or_assoc]

theorem acatOpen_iff (status : String) :
    acatOpen status = true ↔ status ∈ ["new", "submitted", "resubmitted", "inprogress"] := by
  simp [acatOpen, or_assoc]

/-- No stage record of the group `g` is in a non-terminal status. -/
theorem screening_gate_ok (db : Db) (g : Nat) (r : Option GroupScreening)
    (h : GroupScreeningCtl.validateGroupCycle db g = .ok r) :
    (∀ s ∈ db.groupScreenings, s.group = g → screeningOpen s.status = false) ∧
    (∀ l ∈ db.groupLoans, l.group = g → loanOpen l.status = false) ∧
    (∀ a ∈ db.groupACATs, a.group = g → acatOpen a.status = false) ∧
    r = findOneSortDesc (fun d => d.date_created) (fun d => d.group == g)
      db.groupScreenings := by
  unfold GroupScreeningCtl.validateGroupCycle at h
  simp only [] at h
  split_ifs at h with h1 h2 h3
  simp only [Except.ok.injEq] at h
  refine ⟨?_, ?_, ?_, h.symm⟩
  · intro s hs hg
    simpa [hg] using (by simpa using h1 : ∀ x ∈ db.groupScreenings, x.group = g →
      screeningOpen x.status = false) s hs hg
  · intro s hs hg
    simpa [hg] using (by simpa using h2 : ∀ x ∈ db.groupLoans, x.group = g →
      loanOpen x.status = false) s hs hg
  · intro s hs hg
    simpa [hg] using (by simpa using h3 : ∀ x ∈ db.groupACATs, x.group = g →
      acatOpen x.status = false) s hs hg

theorem loan_gate_ok (db : Db) (g : Nat) (r : Option GroupLoan)
    (h : GroupLoanCtl.validateGroupCycle db g = .ok r) :
    (∀ s ∈ db.groupScreenings, s.group = g → screeningOpen s.status = false) ∧
    (∀ l ∈ db.groupLoans, l.group = g → loanOpen l.status = false) ∧
    (∀ a ∈ db.groupACATs, a.group = g → acatOpen a.status = false) ∧
    r = findOneSortDesc (fun d => d.date_created) (fun d => d.group == g) db.groupLoans := by
  unfold GroupLoanCtl.validateGroupCycle at h
  simp only [] at h
  split_ifs at h with h0 h1 h2 h3
  simp only [Except.ok.injEq] at h
  refine ⟨?_, ?_, ?_, h.symm⟩
  · intro s hs hg
    simpa [hg] using (by simpa using h1 : ∀ x ∈ db.groupScreenings, x.group = g →
      screeningOpen x.status = false) s hs hg
  · intro s hs hg
    simpa [hg] using (by simpa using h2 : ∀ x ∈ db.groupLoans, x.group = g →
      loanOpen x.status = false) s hs hg
  · intro s hs hg
    simpa [hg] using (by simpa using h3 : ∀ x ∈ db.groupACATs, x.group = g →
      acatOpen x.status = false) s hs hg

theorem acat_gate_ok (db : Db) (g : Nat) (r : Option GroupACAT)
    (h : GroupACATCtl.validateGroupCycle db g = .ok r) :
    (∀ s ∈ db.groupScreenings, s.group = g → screeningOpen s.status = false) ∧
    (∀ l ∈ db.groupLoans, l.group = g → loanOpen l.status = false) ∧
    (∀ a ∈ db.groupACATs, a.group = g → acatOpen a.status = false) ∧
    (∃ loan, findOneSortDesc (fun d => d.date_created) (fun d => d.group == g)
        db.groupLoans = some loan ∧ loan.status ≠ "rejected") ∧
    r = findOneSortDesc (fun d => d.date_created) (fun d => d.group == g) db.groupACATs := by
  unfold GroupACATCtl.validateGroupCycle at h
  simp only [] at h
  cases hl : findOneSortDesc (fun d => d.date_created) (fun d => d.group == g)
      db.groupLoans with
  | none =>
    simp only [hl] at h
    split_ifs at h
  | some loan =>
    simp only [hl] at h
    split_ifs at h with h0 h1 h2 h3 h4
    simp only [Except.ok.injEq] at h
    refine ⟨?_, ?_, ?_, ⟨loan, rfl, by simpa using h3⟩, h.symm⟩
    · intro s hs hg
      simpa [hg] using (by simpa using h1 : ∀ x ∈ db.groupScreenings, x.group = g →
        screeningOpen x.status = false) s hs hg
    · intro s hs hg
      simpa [hg] using (by simpa using h2 : ∀ x ∈ db.groupLoans, x.group = g →
        loanOpen x.status = false) s hs hg
    · intro s hs hg
      simpa [hg] using (by simpa using h4 : ∀ x ∈ db.groupACATs, x.group = g →
        acatOpen x.status = false) s hs hg

theorem except_error_of_not_ok {α : Type} (r : Except String α)
    (h : ∀ a, r ≠ .ok a) : ∃ m, r = .error m := by
  cases r with
  | error m => exact ⟨m, rfl⟩
  | ok a => exact absurd rfl (h a)

/-- C11: each cycle gate (screening, loan, ACAT) raises an error and returns no
record whenever some GroupScreening of the group has status `new`,
`screening_inprogress` or `submitted`, or some GroupLoan has status `new`, `submitted`
or `inprogress`, or some GroupACAT has status `new`, `submitted`, `resubmitted` or
`inprogress`. -/
theorem gates_fail_on_open_record (db : Db) (g : Nat)
    (h : (∃ s ∈ db.groupScreenings, s.group = g ∧
            s.status ∈ ["new", "screening_inprogress", "submitted"]) ∨
         (∃ l ∈ db.groupLoans, l.group = g ∧
            l.status ∈ ["new", "submitted", "inprogress"]) ∨
         (∃ a ∈ db.groupACATs, a.group = g ∧
            a.status ∈ ["new", "submitted", "resubmitted", "inprogress"])) :
    (∃ m, GroupScreeningCtl.validateGroupCycle db g = .error m) ∧
    (∃ m, GroupLoanCtl.validateGroupCycle db g = .error m) ∧
    (∃ m, GroupACATCtl.validateGroupCycle db g = .error m) := by
  have key : ∀ (hs : ∀ s ∈ db.groupScreenings, s.group = g → screeningOpen s.status = false)
      (hl : ∀ l ∈ db.groupLoans, l.group = g → loanOpen l.status = false)
      (ha : ∀ a ∈ db.groupACATs, a.group = g → acatOpen a.status = false), False := by
    intro hs hl ha
    rcases h with ⟨s, hm, hg, hst⟩ | ⟨l, hm, hg, hst⟩ | ⟨a, hm, hg, hst⟩
    · have := hs s hm hg
      rw [(screeningOpen_iff _).2 hst] at this
      cases this
    · have := hl l hm hg
      rw [(loanOpen_iff _).2 hst] at this
      cases this
    · have := ha a hm hg
      rw [(acatOpen_iff _).2 hst] at this
      cases this
  refine ⟨except_error_of_not_ok _ ?_, except_error_of_not_ok _ ?_,
    except_error_of_not_ok _ ?_⟩
  · intro r hr
    obtain ⟨hs, hl, ha, _⟩ := screening_gate_ok db g r hr
    exact key hs hl ha
  · intro r hr
    obtain ⟨hs, hl, ha, _⟩ := loan_gate_ok db g r hr
    exact key hs hl ha
  · intro r hr
    obtain ⟨hs, hl, ha, _⟩ := acat_gate_ok db g r hr
    exact key hs hl ha

/-- C12: the ACAT gate raises an error whenever the most recent GroupLoan of the
group (newest by `date_created`) has status `rejected`, whatever the other records. -/
theorem acat_gate_fails_on_rejected_loan (db : Db) (g : Nat) (loan : GroupLoan)
    (hl : findOneSortDesc (fun d => d.date_created) (fun d => d.group == g)
      db.groupLoans = some loan)
    (hr : loan.status = "rejected") :
    ∃ m, GroupACATCtl.validateGroupCycle db g = .error m := by
  apply except_error_of_not_ok
  intro r hok
  obtain ⟨_, _, _, ⟨loan1, hl1, hne⟩, _⟩ := acat_gate_ok db g r hok
  rw [hl] at hl1
  cases hl1
  exact hne hr

/-- C13 (amended): whenever a cycle gate succeeds, the record it returns is the most
recent record (newest by `date_created`) of the target stage itself, or no record when
the group has none of that stage: the screening gate returns the most recent
GroupScreening, the loan gate the most recent GroupLoan, the ACAT gate the most recent
GroupACAT. -/
theorem gate_returns_latest_of_target_stage (db : Db) (g : Nat) :
    (∀ r, GroupScreeningCtl.validateGroupCycle db g = .ok r →
      r = findOneSortDesc (fun d => d.date_created) (fun d => d.group == g)
        db.groupScreenings) ∧
    (∀ r, GroupLoanCtl.validateGroupCycle db g = .ok r →
      r = findOneSortDesc (fun d => d.date_created) (fun d => d.group == g)
        db.groupLoans) ∧
    (∀ r, GroupACATCtl.validateGroupCycle db g = .ok r →
      r = findOneSortDesc (fun d => d.date_created) (fun d => d.group == g)
        db.groupACATs) :=
  ⟨fun r h => (screening_gate_ok db g r h).2.2.2,
   fun r h => (loan_gate_ok db g r h).2.2.2,
   fun r h => (acat_gate_ok db g r h).2.2.2.2⟩

/-- Witness for C11: in the sample store the screening aggregate of group 1 is `new`,
so the three gates fail. -/
theorem gates_fail_on_open_record_witness :
    (∃ m, GroupScreeningCtl.validateGroupCycle sampleDb 1 = .error m) ∧
    (∃ m, GroupLoanCtl.validateGroupCycle sampleDb 1 = .error m) ∧
    (∃ m, GroupACATCtl.validateGroupCycle sampleDb 1 = .error m) :=
  gates_fail_on_open_record sampleDb 1
    (Or.inl ⟨sampleScreening, by decide, by decide, by decide⟩)

/-- Witness for C12: every record of the store is terminal and the newest loan
aggregate is rejected. -/
theorem acat_gate_fails_on_rejected_loan_witness :
    ∃ m, GroupACATCtl.validateGroupCycle rejectedDb 1 = .error m :=
  acat_gate_fails_on_rejected_loan rejectedDb 1 rejectedLoan rfl rfl

/-- C13, as stated, fails: with an approved screening and an accepted loan the loan
gate returns the GroupLoan (not the most recent GroupScreening) and the ACAT gate
returns no record (not the most recent GroupLoan). -/
theorem gate_returns_preceding_stage_counterexample :
    GroupLoanCtl.validateGroupCycle loanDb 1 = .ok (some acceptedLoan) ∧
    GroupScreeningDal.get loanDb 1 = some approvedScreening ∧
    GroupACATCtl.validateGroupCycle loanDb 1 = .ok none ∧
    GroupLoanDal.get loanDb 1 = some acceptedLoan :=
  ⟨rfl, rfl, rfl, rfl⟩

/-- Witness for C13 (amended): the gates on the stores with a paid and an accepted
loan. -/
theorem gate_returns_latest_of_target_stage_witness :
    some approvedScreening =
      findOneSortDesc (fun d => d.date_created) (fun d => d.group == 1)
        paidDb.groupScreenings ∧
    some acceptedLoan =
      findOneSortDesc (fun d => d.date_created) (fun d => d.group == 1) loanDb.groupLoans ∧
    (none : Option GroupACAT) =
      findOneSortDesc (fun d => d.date_created) (fun d => d.group == 1) loanDb.groupACATs :=
  ⟨(gate_returns_latest_of_target_stage paidDb 1).1 _ rfl,
   (gate_returns_latest_of_target_stage loanDb 1).2.1 _ rfl,
   (gate_returns_latest_of_target_stage loanDb 1).2.2 _ rfl⟩

/-- C14 at its failing input: the group passes the loan gate and its active cycle
record has no screening reference. The request fails and writes nothing, the `try`
block throws the message that lists `Screening`, but the `catch` block matches
`Loan Cycle ` in it and surfaces the hint about members instead. -/
theorem initializeGroupLoan_missing_screening_message :
    (∃ r, GroupLoanCtl.validateGroupCycle noScreeningRefDb 1 = .ok r) ∧
    GroupLoanCtl.initializeGroupLoanTry 7 500 okLoanService 1 noScreeningRefDb =
      (noScreeningRefDb,
        some "Loan Cycle (1) is in progress. Missing Screening Application(s)") ∧
    GroupLoanCtl.initializeGroupLoan true 7 500 okLoanService 1 noScreeningRefDb =
      { db := noScreeningRefDb,
        error := some { type := "GROUP_LOAN_INITIALIZE_ERROR",
                        message := "One of the members has an unfinished loan cycle." } } ∧
    includes "One of the members has an unfinished loan cycle." "Screening" = false :=
  ⟨⟨_, rfl⟩, rfl, rfl, by decide⟩

/-- C16 at its failing inputs: the ledger has no record of its current cycle number.
Loan initialization and ACAT creation fail only at the write to the absent record,
after the stage aggregate was created and the group status changed; the new-cycle
start does not fail at all. -/
theorem stage_start_without_active_record :
    (GroupLoanCtl.initializeGroupLoan true 7 500 okLoanService 1 noActiveRecordDb).error =
      some { type := "GROUP_LOAN_INITIALIZE_ERROR",
             message := "Cannot set property 'loan' of undefined" } ∧
    (GroupLoanCtl.initializeGroupLoan true 7 500 okLoanService 1 noActiveRecordDb).db.groupLoans =
      [{ _id := 1, group := 1, status := "new", date_created := 500,
         loans := [⟨101, "new"⟩, ⟨102, "new"⟩] }] ∧
    (GroupLoanCtl.initializeGroupLoan true 7 500 okLoanService 1 noActiveRecordDb).db.groups =
      [{ cycleGroup with status := "loan_application_new" }] ∧
    (GroupACATCtl.createGroupACAT true 7 500 (some 1) loanNoActiveDb).error =
      some { type := "GROUP_ACAT_VIEW_ERROR",
             message := "Cannot set property 'acat' of undefined" } ∧
    (GroupACATCtl.createGroupACAT true 7 500 (some 1) loanNoActiveDb).db.groupACATs =
      [{ _id := 1, group := 1, status := "new", date_created := 500, acats := [] }] ∧
    (GroupScreeningCtl.createGroupScreening true 7 500 okScreeningService
        { group := some 1, total_amount := 2000 } paidNoActiveDb).error = none ∧
    ((GroupScreeningCtl.createGroupScreening true 7 500 okScreeningService
        { group := some 1, total_amount := 2000 } paidNoActiveDb).db.groupHistories.map
      (fun h => h.cycle_number)) = [3] :=
  ⟨rfl, rfl, rfl, rfl, rfl, rfl, rfl⟩

/-! ## Stage-start handlers: what a successful request did -/

theorem findIndex_some {α : Type} (p : α → Bool) :
    ∀ (l : List α) (i : Nat), findIndex p l = some i →
      ∃ pre c post, l = pre ++ c :: post ∧ pre.length = i ∧ p c = true ∧
        (∀ x ∈ pre, p x = false)
  | [], i, h => by simp [findIndex] at h
  | x :: xs, i, h => by
    by_cases hx : p x = true
    · simp only [findIndex, hx, if_true, Option.some.injEq] at h
      exact ⟨[], x, xs, rfl, by simpa using h, hx, by simp⟩
    · have hx' : p x = false := by simpa using hx
      simp only [findIndex, hx', Bool.false_eq_true, if_false, Option.map_eq_some'] at h
      obtain ⟨j, hj, rfl⟩ := h
      obtain ⟨pre, c, post, rfl, hlen, hc, hpre⟩ := findIndex_some p xs j hj
      refine ⟨x :: pre, c, post, rfl, by simp [hlen], hc, ?_⟩
      intro y hy
      rcases List.mem_cons.1 hy with rfl | hy
      · exact hx'
      · exact hpre y hy

theorem findIndex_none {α : Type} (p : α → Bool) :
    ∀ (l : List α), findIndex p l = none → ∀ x ∈ l, p x = false
  | [], _, x, hx => by simp at hx
  | y :: ys, h, x, hx => by
    by_cases hy : p y = true
    · simp [findIndex, hy] at h
    · have hy' : p y = false := by simpa using hy
      simp only [findIndex, hy', Bool.false_eq_true, if_false, Option.map_eq_none'] at h
      rcases List.mem_cons.1 hx with rfl | hx
      · exact hy'
      · exact findIndex_none p ys h x hx

theorem createLoanApplications_frame (svc : Nat → Except String MemberRecord) :
    ∀ (members : List Nat) (db : Db) (acc : List MemberRecord),
      (GroupLoanCtl.createLoanApplications svc members db acc).1 =
        { db with loans := (GroupLoanCtl.createLoanApplications svc members db acc).1.loans }
  | [], db, acc => rfl
  | m :: ms, db, acc => by
    cases hs : svc m with
    | error e => simp [GroupLoanCtl.createLoanApplications, hs]
    | ok r =>
      simp only [GroupLoanCtl.createLoanApplications, hs]
      rw [createLoanApplications_frame svc ms]

theorem modify_append_cons {α : Type} (f : α → α) (c : α) (post : List α) :
    ∀ pre : List α, (pre ++ c :: post).modify f pre.length = pre ++ f c :: post
  | [] => by simp [List.modify]
  | x :: pre => by
    have ih := modify_append_cons f c post pre
    simpa [List.modify] using ih

theorem getElem?_append_cons {α : Type} (c : α) (post : List α) :
    ∀ pre : List α, (pre ++ c :: post)[pre.length]? = some c
  | [] => by simp
  | x :: pre => by
    have ih := getElem?_append_cons c post pre
    simpa using ih

theorem le_foldl_max (ids : List Nat) : ∀ (a x : Nat), x = a ∨ x ∈ ids → x ≤ ids.foldl max a := by
  induction ids with
  | nil =>
    intro a x h
    rcases h with rfl | h
    · exact le_refl _
    · simp at h
  | cons y ys ih =>
    intro a x h
    simp only [List.foldl_cons]
    rcases h with rfl | h
    · exact le_trans (le_max_left _ _) (ih _ _ (Or.inl rfl))
    · rcases List.mem_cons.1 h with rfl | h
      · exact le_trans (le_max_right _ _) (ih _ _ (Or.inl rfl))
      · exact ih _ _ (Or.inr h)

theorem freshId_not_mem (ids : List Nat) : freshId ids ∉ ids := by
  intro h
  have := le_foldl_max ids 0 _ (Or.inr h)
  unfold freshId at this
  omega

theorem initializeGroupLoanTry_ok (user now : Nat)
    (svc : Nat → Except String MemberRecord) (g : Nat) (db db1 : Db)
    (h : GroupLoanCtl.initializeGroupLoanTry user now svc g db = (db1, none)) :
    ∃ group history pre c post,
      findOne (fun x => x._id == g) db.groups = some group ∧
      group.status ≠ "new" ∧
      (∃ r, GroupLoanCtl.validateGroupCycle db g = .ok r) ∧
      findOne (fun x => x.group == g) db.groupHistories = some history ∧
      history.cycles = pre ++ c :: post ∧
      (∀ x ∈ pre, x.cycle_number ≠ history.cycle_number) ∧
      c.cycle_number = history.cycle_number ∧
      c.screening.isSome = true ∧ c.loan = none ∧
      db1.groups =
        findOneAndUpdate (fun x => x._id == g)
          (fun x => { x with status := "loan_application_new" }) db.groups ∧
      db1.groupHistories =
        findOneAndUpdate (fun x => x._id == history._id)
          (fun x =>
            { x with
              cycles := pre ++
                { c with
                  loan := some (freshId (db.groupLoans.map (fun d => d._id))),
                  last_edit_by := some user, last_modified := now } :: post,
              last_modified := now })
          db.groupHistories ∧
      (∃ doc ∈ db1.groupLoans,
        doc._id = freshId (db.groupLoans.map (fun d => d._id)) ∧ doc.group = g) ∧
      db1.groupScreenings = db.groupScreenings ∧ db1.groupACATs = db.groupACATs := by
  unfold GroupLoanCtl.initializeGroupLoanTry at h
  cases hg : findOne (fun x => x._id == g) db.groups with
  | none => simp [hg] at h
  | some group =>
    simp only [hg] at h
    by_cases hnew : group.status = "new"
    · simp [hnew] at h
    · cases hv : GroupLoanCtl.validateGroupCycle db g with
      | error m => simp [hnew, hv] at h
      | ok r =>
        cases hh : findOne (fun x => x.group == g) db.groupHistories with
        | none => simp [hnew, hv, hh] at h
        | some history =>
          cases hi : findIndex (fun cycle => cycle.cycle_number == history.cycle_number)
              history.cycles with
          | none =>
            simp [hnew, hv, hh, hi] at h
            split at h <;> simp at h
          | some i =>
            obtain ⟨pre, c, post, hcy, hlen, hpc, hpre⟩ := findIndex_some _ _ _ hi
            have hc : history.cycles[i]? = some c := by
              rw [hcy, ← hlen]; exact getElem?_append_cons c post pre
            simp [hnew, hv, hh, hi, hc] at h
            split_ifs at h with h1 h2
            · simp at h
            · simp at h
            · generalize hloop : GroupLoanCtl.createLoanApplications svc group.members
                (GroupDal.update (GroupLoanDal.create db g now).1 g "loan_application_new")
                (GroupLoanDal.create db g now).2.loans = res at h
              have hframe := createLoanApplications_frame svc group.members
                (GroupDal.update (GroupLoanDal.create db g now).1 g "loan_application_new")
                (GroupLoanDal.create db g now).2.loans
              rw [hloop] at hframe
              obtain ⟨db2, out⟩ := res
              cases out with
              | error m => simp at h
              | ok loanApps =>
                simp only [Prod.mk.injEq, and_true] at h
                simp only at hframe
                have hs : c.screening.isSome = true := by
                  cases hsc : c.screening with
                  | none => exact absurd hsc h1
                  | some v => rfl
                refine ⟨group, history, pre, c, post, rfl, hnew, ⟨r, rfl⟩, rfl, hcy, ?_,
                  by simpa using hpc, hs, ?_, ?_, ?_, ?_, ?_, ?_⟩
                · intro x hx
                  simpa using hpre x hx
                · cases hl : c.loan with
                  | none => rfl
                  | some v => exact absurd ⟨hs, by simp [hl]⟩ h2
                · rw [← h, hframe]
                  simp [GroupLoanDal.updateLoans, GroupDal.update, GroupLoanDal.create]
                · rw [← h, hframe]
                  simp [GroupLoanDal.updateLoans, GroupDal.update, GroupLoanDal.create,
                    hcy, ← hlen, modify_append_cons]
                · rw [← h, hframe]
                  obtain ⟨y, hymem, hqy, hin⟩ := findOneAndUpdate_mem
                    (fun d : GroupLoan => d._id == freshId (db.groupLoans.map (fun d => d._id)))
                    (fun d => { d with loans := loanApps })
                    (db.groupLoans ++ [(GroupLoanDal.create db g now).2])
                    (GroupLoanDal.create db g now).2 (by simp) (by simp [GroupLoanDal.create])
                  have hy : y = (GroupLoanDal.create db g now).2 := by
                    rcases List.mem_append.1 hymem with hold | hnewdoc
                    · exfalso
                      apply freshId_not_mem (db.groupLoans.map (fun d => d._id))
                      have : y._id = freshId (db.groupLoans.map (fun d => d._id)) := by
                        simpa using hqy
                      rw [← this]
                      exact List.mem_map_of_mem _ hold
                    · simpa using hnewdoc
                  refine ⟨{ y with loans := loanApps }, ?_, ?_, ?_⟩
                  · simpa [GroupLoanDal.updateLoans, GroupDal.update, GroupLoanDal.create]
                      using hin
                  · simp [hy, GroupLoanDal.create]
                  · simp [hy, GroupLoanDal.create]
                · rw [← h, hframe]
                  simp [GroupLoanDal.updateLoans, GroupDal.update, GroupLoanDal.create]
                · rw [← h, hframe]
                  simp [GroupLoanDal.updateLoans, GroupDal.update, GroupLoanDal.create]

theorem createGroupACATTry_ok (user now : Nat) (g : Nat) (db db1 : Db)
    (h : GroupACATCtl.createGroupACATTry user now g db = (db1, none)) :
    ∃ group history pre c post,
      findOne (fun x => x._id == g) db.groups = some group ∧
      group.status ≠ "new" ∧
      (∃ r, GroupACATCtl.validateGroupCycle db g = .ok r) ∧
      findOne (fun x => x.group == g) db.groupHistories = some history ∧
      history.cycles = pre ++ c :: post ∧
      (∀ x ∈ pre, x.cycle_number ≠ history.cycle_number) ∧
      c.cycle_number = history.cycle_number ∧
      c.screening.isSome = true ∧ c.loan.isSome = true ∧ c.acat = none ∧
      db1.groups =
        findOneAndUpdate (fun x => x._id == g)
          (fun x => { x with status := "ACAT_New" }) db.groups ∧
      db1.groupHistories =
        findOneAndUpdate (fun x => x._id == history._id)
          (fun x =>
            { x with
              cycles := pre ++
                { c with
                  acat := some (freshId (db.groupACATs.map (fun d => d._id))),
                  last_edit_by := some user, last_modified := now } :: post,
              last_modified := now })
          db.groupHistories ∧
      db1.groupACATs = db.groupACATs ++
        [{ _id := freshId (db.groupACATs.map (fun d => d._id)), group := g,
           status := "new", acats := [], date_created := now }] ∧
      db1.groupScreenings = db.groupScreenings ∧ db1.groupLoans = db.groupLoans := by
  unfold GroupACATCtl.createGroupACATTry at h
  cases hg : findOne (fun x => x._id == g) db.groups with
  | none => simp [hg] at h
  | some group =>
    simp only [hg] at h
    by_cases hnew : group.status = "new"
    · simp [hnew] at h
    · cases hv : GroupACATCtl.validateGroupCycle db g with
      | error m => simp [hnew, hv] at h
      | ok r =>
        cases hh : findOne (fun x => x.group == g) db.groupHistories with
        | none => simp [hnew, hv, hh] at h
        | some history =>
          cases hi : findIndex (fun cycle => cycle.cycle_number == history.cycle_number)
              history.cycles with
          | none => simp [hnew, hv, hh, hi] at h
          | some i =>
            obtain ⟨pre, c, post, hcy, hlen, hpc, hpre⟩ := findIndex_some _ _ _ hi
            have hc : history.cycles[i]? = some c := by
              rw [hcy, ← hlen]; exact getElem?_append_cons c post pre
            cases hsc : c.screening with
            | none => simp [hnew, hv, hh, hi, hc, hsc] at h
            | some sv =>
              cases hlc : c.loan with
              | none => simp [hnew, hv, hh, hi, hc, hsc, hlc] at h
              | some lv =>
                cases hac : c.acat with
                | some av => simp [hnew, hv, hh, hi, hc, hsc, hlc, hac] at h
                | none =>
                  simp [hnew, hv, hh, hi, hc, hsc, hlc, hac] at h
                  refine ⟨group, history, pre, c, post, rfl, hnew, ⟨r, rfl⟩, rfl, hcy, ?_,
                    by simpa using hpc, by simp [hsc], by simp [hlc], hac, ?_, ?_, ?_, ?_, ?_⟩
                  · intro x hx
                    simpa using hpre x hx
                  · rw [← h]
                    simp [GroupDal.update, GroupACATDal.create]
                  · rw [← h]
                    simp [GroupDal.update, GroupACATDal.create, hcy, ← hlen,
                      modify_append_cons]
                  · rw [← h]
                    simp [GroupDal.update, GroupACATDal.create]
                  · rw [← h]
                    simp [GroupDal.update, GroupACATDal.create]
                  · rw [← h]
                    simp [GroupDal.update, GroupACATDal.create]

theorem createScreenings_frame (svc : MemberRecord → Except String MemberRecord) :
    ∀ (lasts : List MemberRecord) (db : Db) (acc : List MemberRecord),
      (GroupScreeningCtl.createScreenings svc lasts db acc).1 =
        { db with screenings := (GroupScreeningCtl.createScreenings svc lasts db acc).1.screenings }
  | [], db, acc => rfl
  | m :: ms, db, acc => by
    cases hs : svc m with
    | error e => simp [GroupScreeningCtl.createScreenings, hs]
    | ok r =>
      simp only [GroupScreeningCtl.createScreenings, hs]
      rw [createScreenings_frame svc ms]

theorem createGroupScreeningTry_ok (user now : Nat)
    (svc : MemberRecord → Except String MemberRecord) (body : GroupScreeningBody)
    (db db1 : Db)
    (h : GroupScreeningCtl.createGroupScreeningTry user now svc body db = (db1, none)) :
    ∃ g group history last newScreenings,
      body.group = some g ∧ body.total_amount ≠ 0 ∧
      findOne (fun x => x._id == g) db.groups = some group ∧
      GroupScreeningCtl.validateGroupCycle db g = .ok (some last) ∧
      findOne (fun x => x.group == g) db.groupHistories = some history ∧
      db1.groups =
        findOneAndUpdate (fun x => x._id == g)
          (fun x =>
            { x with
              status := "new", total_granted_amount := 0, total_paid_amount := 0,
              total_amount := body.total_amount,
              loan_cycle_number := group.loan_cycle_number + 1 })
          db.groups ∧
      db1.groupHistories =
        findOneAndUpdate (fun x => x._id == history._id)
          (fun x =>
            { x with
              cycle_number := history.cycle_number + 1, last_modified := now,
              cycles := x.cycles ++
                [{ cycle_number := history.cycle_number + 1, started_by := some user,
                   last_edit_by := some user,
                   screening := some (freshId (db.groupScreenings.map (fun d => d._id))),
                   total_amount := body.total_amount }] })
          db.groupHistories ∧
      db1.groupScreenings = db.groupScreenings ++
        [{ _id := freshId (db.groupScreenings.map (fun d => d._id)), group := g,
           status := "new", screenings := newScreenings, date_created := now }] ∧
      db1.groupLoans = db.groupLoans ∧ db1.groupACATs = db.groupACATs := by
  unfold GroupScreeningCtl.createGroupScreeningTry at h
  cases hb : body.group with
  | none => simp [hb] at h
  | some g =>
    by_cases ht : body.total_amount = 0
    · simp [hb, ht] at h
    · cases hg : findOne (fun x => x._id == g) db.groups with
      | none => simp [hb, ht, hg] at h
      | some group =>
        have hid : group._id = g := by simpa using findOne_sat _ _ _ hg
        cases hv : GroupScreeningCtl.validateGroupCycle db g with
        | error m => simp [hb, ht, hg, hv] at h
        | ok r =>
          cases hh : findOne (fun x => x.group == g) db.groupHistories with
          | none => simp [hb, ht, hg, hv, hh] at h
          | some history =>
            simp only [hb, hg, hv, hh] at h
            split_ifs at h with h0 h1 h2 h3 h4
            all_goals first | (exfalso; simp at h) | skip
            cases r with
            | none => simp at h
            | some last =>
              simp only at h
              generalize hloop : GroupScreeningCtl.createScreenings svc last.screenings db [] =
                res at h
              have hframe := createScreenings_frame svc last.screenings db []
              rw [hloop] at hframe
              obtain ⟨db2, out⟩ := res
              cases out with
              | error m => simp at h
              | ok newScreenings =>
                simp only [Prod.mk.injEq, and_true] at h
                simp only at hframe
                refine ⟨g, group, history, last, newScreenings, rfl, ht, hg, hv, hh,
                  ?_, ?_, ?_, ?_, ?_⟩
                · rw [← h, hframe]
                  simp [GroupDal.updateWith, GroupScreeningDal.create, hid]
                · rw [← h, hframe]
                  simp [GroupDal.updateWith, GroupScreeningDal.create]
                · rw [← h, hframe]
                  simp [GroupDal.updateWith, GroupScreeningDal.create]
                · rw [← h, hframe]
                  simp [GroupDal.updateWith, GroupScreeningDal.create]
                · rw [← h, hframe]
                  simp [GroupDal.updateWith, GroupScreeningDal.create]

theorem try_result_of_proj (r : Db × Option String) (db : Db) (h1 : r.1 = db)
    (h2 : r.2 ≠ none) : ∃ m1, r = (db, some m1) := by
  obtain ⟨d, o⟩ := r
  cases o with
  | none => exact absurd rfl h2
  | some m1 => exact ⟨m1, by simp at h1; simp [h1]⟩

theorem createGroupScreeningTry_gate_error (user now : Nat)
    (svc : MemberRecord → Except String MemberRecord) (body : GroupScreeningBody)
    (db : Db) (g : Nat) (m : String) (hb : body.group = some g)
    (hv : GroupScreeningCtl.validateGroupCycle db g = .error m) :
    ∃ m1, GroupScreeningCtl.createGroupScreeningTry user now svc body db = (db, some m1) := by
  apply try_result_of_proj <;> unfold GroupScreeningCtl.createGroupScreeningTry
  all_goals
    by_cases ht : body.total_amount = 0
    · simp [hb, ht]
    · cases hg : findOne (fun x => x._id == g) db.groups with
      | none => simp [hb, ht, hg]
      | some group => simp [hb, ht, hg, hv]

theorem createGroupACATTry_gate_error (user now g : Nat) (db : Db) (m : String)
    (hv : GroupACATCtl.validateGroupCycle db g = .error m) :
    ∃ m1, GroupACATCtl.createGroupACATTry user now g db = (db, some m1) := by
  apply try_result_of_proj <;> unfold GroupACATCtl.createGroupACATTry
  all_goals
    cases hg : findOne (fun x => x._id == g) db.groups with
    | none => simp
    | some group =>
      by_cases hnew : group.status = "new"
      · simp [hnew]
      · simp [hnew, hv]

/-- C15: starting a new cycle on a group that has a GroupACAT with status `new`,
`submitted`, `resubmitted` or `inprogress` fails and leaves the whole store as it was:
the ledger, its cycle number, the group with its cycle number and amounts, the stage
aggregates and the member screenings. -/
theorem new_cycle_blocked_by_open_acat (isPermitted : Bool) (user now : Nat)
    (createScreening : MemberRecord → Except String MemberRecord)
    (body : GroupScreeningBody) (db : Db) (g : Nat)
    (hb : body.group = some g)
    (ha : ∃ a ∈ db.groupACATs, a.group = g ∧
      a.status ∈ ["new", "submitted", "resubmitted", "inprogress"]) :
    (GroupScreeningCtl.createGroupScreening isPermitted user now createScreening body db).error
      ≠ none ∧
    (GroupScreeningCtl.createGroupScreening isPermitted user now createScreening body db).db =
      db := by
  cases isPermitted
  · simp [GroupScreeningCtl.createGroupScreening]
  · obtain ⟨m, hm⟩ : ∃ m, GroupScreeningCtl.validateGroupCycle db g = .error m := by
      apply except_error_of_not_ok
      intro r hr
      obtain ⟨_, _, hacat, _⟩ := screening_gate_ok db g r hr
      obtain ⟨a, hmem, hg, hst⟩ := ha
      have := hacat a hmem hg
      rw [(acatOpen_iff _).2 hst] at this
      cases this
    obtain ⟨m1, hm1⟩ := createGroupScreeningTry_gate_error user now createScreening body db g m
      hb hm
    simp [GroupScreeningCtl.createGroupScreening, hm1]

/-- Witness for C15: the paid group whose ACAT aggregate is still in progress. -/
theorem new_cycle_blocked_by_open_acat_witness :
    (GroupScreeningCtl.createGroupScreening true 7 500 okScreeningService
        { group := some 1, total_amount := 2000 } openAcatDb).error ≠ none ∧
    (GroupScreeningCtl.createGroupScreening true 7 500 okScreeningService
        { group := some 1, total_amount := 2000 } openAcatDb).db = openAcatDb :=
  new_cycle_blocked_by_open_acat true 7 500 okScreeningService
    { group := some 1, total_amount := 2000 } openAcatDb 1 rfl
    ⟨openACAT, by decide, by decide, by decide⟩

/-! ## Attaching a stage to the ledger -/

theorem findOne_mem {α : Type} (q : α → Bool) (docs : List α) (x : α)
    (h : findOne q docs = some x) : x ∈ docs := by
  unfold findOne at h
  exact List.mem_of_find?_eq_some h

theorem findOne_of_nodup {α : Type} (key : α → Nat) :
    ∀ (docs : List α) (x : α), (docs.map key).Nodup → x ∈ docs →
      findOne (fun y => key y == key x) docs = some x
  | [], x, _, h => by simp at h
  | d :: ds, x, hnd, h => by
    rw [List.map_cons, List.nodup_cons] at hnd
    rcases List.mem_cons.1 h with rfl | h
    · simp [findOne]
    · have hne : key d ≠ key x := by
        intro he
        exact hnd.1 (he ▸ List.mem_map_of_mem key h)
      have ih := findOne_of_nodup key ds x hnd.2 h
      have hb : (key d == key x) = false := by simpa using hne
      simpa [findOne, List.find?, hb] using ih

theorem findOne_update_same {α : Type} (q q1 : α → Bool) (upd : α → α)
    (hq : ∀ y, q (upd y) = q y) :
    ∀ (docs : List α) (x : α), findOne q docs = some x → findOne q1 docs = some x →
      findOne q (findOneAndUpdate q1 upd docs) = some (upd x)
  | [], x, h, _ => by simp [findOne] at h
  | d :: ds, x, h, h1 => by
    by_cases hd1 : q1 d = true
    · have hx : d = x := by simpa [findOne, List.find?, hd1] using h1
      subst hx
      have hqd : q d = true := findOne_sat q _ _ h
      simp [findOne, findOneAndUpdate, hd1, hq, hqd]
    · have hd1' : q1 d = false := by simpa using hd1
      have hqd : q d = false := by
        by_contra hc
        have hc' : q d = true := by simpa using hc
        have hx : d = x := by simpa [findOne, List.find?, hc'] using h
        subst hx
        exact hd1 (findOne_sat q1 _ _ h1)
      have h' : findOne q ds = some x := by simpa [findOne, List.find?, hqd] using h
      have h1' : findOne q1 ds = some x := by simpa [findOne, List.find?, hd1'] using h1
      have ih := findOne_update_same q q1 upd hq ds x h' h1'
      simpa [findOne, findOneAndUpdate, hd1', hqd, List.find?] using ih

theorem findIndex_append_cons {α : Type} (p : α → Bool) (c : α) (post : List α) :
    ∀ pre : List α, (∀ x ∈ pre, p x = false) → p c = true →
      findIndex p (pre ++ c :: post) = some pre.length
  | [], _, hc => by simp [findIndex, hc]
  | x :: pre, hpre, hc => by
    have hx : p x = false := hpre x (by simp)
    have ih := findIndex_append_cons p c post pre
      (fun y hy => hpre y (List.mem_cons_of_mem _ hy)) hc
    simp [findIndex, hx, ih]

theorem initializeGroupLoan_ok (isPermitted : Bool) (user now : Nat)
    (svc : Nat → Except String MemberRecord) (g : Nat) (db : Db)
    (h : (GroupLoanCtl.initializeGroupLoan isPermitted user now svc g db).error = none) :
    GroupLoanCtl.initializeGroupLoanTry user now svc g db =
      ((GroupLoanCtl.initializeGroupLoan isPermitted user now svc g db).db, none) := by
  unfold GroupLoanCtl.initializeGroupLoan at h ⊢
  cases isPermitted
  · simp at h
  · generalize GroupLoanCtl.initializeGroupLoanTry user now svc g db = res at h ⊢
    obtain ⟨d, o⟩ := res
    cases o with
    | none => simp
    | some m => simp at h

theorem createGroupACAT_ok (isPermitted : Bool) (user now : Nat) (bodyGroup : Option Nat)
    (db : Db)
    (h : (GroupACATCtl.createGroupACAT isPermitted user now bodyGroup db).error = none) :
    ∃ g, bodyGroup = some g ∧
      GroupACATCtl.createGroupACATTry user now g db =
        ((GroupACATCtl.createGroupACAT isPermitted user now bodyGroup db).db, none) := by
  unfold GroupACATCtl.createGroupACAT at h ⊢
  cases isPermitted
  · simp at h
  · cases bodyGroup with
    | none => simp at h
    | some g =>
      refine ⟨g, rfl, ?_⟩
      simp only [Bool.not_true, Bool.false_eq_true, if_false] at h ⊢
      generalize GroupACATCtl.createGroupACATTry user now g db = res at h ⊢
      obtain ⟨d, o⟩ := res
      cases o with
      | none => simp
      | some m => simp at h

theorem createGroupScreening_ok (isPermitted : Bool) (user now : Nat)
    (svc : MemberRecord → Except String MemberRecord) (body : GroupScreeningBody) (db : Db)
    (h : (GroupScreeningCtl.createGroupScreening isPermitted user now svc body db).error =
      none) :
    GroupScreeningCtl.createGroupScreeningTry user now svc body db =
      ((GroupScreeningCtl.createGroupScreening isPermitted user now svc body db).db, none) := by
  unfold GroupScreeningCtl.createGroupScreening at h ⊢
  cases isPermitted
  · simp at h
  · generalize GroupScreeningCtl.createGroupScreeningTry user now svc body db = res at h ⊢
    obtain ⟨d, o⟩ := res
    cases o with
    | none => simp
    | some m => simp at h

theorem initializeGroupLoanTry_loan_set (user now : Nat)
    (svc : Nat → Except String MemberRecord) (g : Nat) (db : Db) (history : GroupHistory)
    (pre post : List CycleRecord) (c : CycleRecord)
    (hh : findOne (fun x => x.group == g) db.groupHistories = some history)
    (hcy : history.cycles = pre ++ c :: post)
    (hpre : ∀ x ∈ pre, x.cycle_number ≠ history.cycle_number)
    (hc : c.cycle_number = history.cycle_number) (hl : c.loan ≠ none) :
    ∃ m1, GroupLoanCtl.initializeGroupLoanTry user now svc g db = (db, some m1) := by
  have hi : findIndex (fun cycle => cycle.cycle_number == history.cycle_number)
      history.cycles = some pre.length := by
    rw [hcy]
    exact findIndex_append_cons _ c post pre (fun x hx => by simpa using hpre x hx)
      (by simpa using hc)
  have hget : history.cycles[pre.length]? = some c := by
    rw [hcy]; exact getElem?_append_cons c post pre
  obtain ⟨lv, hlv⟩ : ∃ lv, c.loan = some lv := Option.ne_none_iff_exists'.1 hl
  apply try_result_of_proj <;> unfold GroupLoanCtl.initializeGroupLoanTry
  all_goals
    cases hg : findOne (fun x => x._id == g) db.groups with
    | none => simp
    | some group =>
      by_cases hnew : group.status = "new"
      · simp [hnew]
      · cases hv : GroupLoanCtl.validateGroupCycle db g with
        | error m => simp [hnew, hv]
        | ok r =>
          cases hsc : c.screening with
          | none => simp [hnew, hv, hh, hi, hget, hsc]
          | some sv => simp [hnew, hv, hh, hi, hget, hsc, hlv]

theorem createGroupACATTry_acat_set (user now : Nat) (g : Nat) (db : Db)
    (history : GroupHistory) (pre post : List CycleRecord) (c : CycleRecord)
    (hh : findOne (fun x => x.group == g) db.groupHistories = some history)
    (hcy : history.cycles = pre ++ c :: post)
    (hpre : ∀ x ∈ pre, x.cycle_number ≠ history.cycle_number)
    (hc : c.cycle_number = history.cycle_number) (hl : c.acat ≠ none) :
    ∃ m1, GroupACATCtl.createGroupACATTry user now g db = (db, some m1) := by
  have hi : findIndex (fun cycle => cycle.cycle_number == history.cycle_number)
      history.cycles = some pre.length := by
    rw [hcy]
    exact findIndex_append_cons _ c post pre (fun x hx => by simpa using hpre x hx)
      (by simpa using hc)
  have hget : history.cycles[pre.length]? = some c := by
    rw [hcy]; exact getElem?_append_cons c post pre
  obtain ⟨av, hav⟩ : ∃ av, c.acat = some av := Option.ne_none_iff_exists'.1 hl
  apply try_result_of_proj <;> unfold GroupACATCtl.createGroupACATTry
  all_goals
    cases hg : findOne (fun x => x._id == g) db.groups with
    | none => simp
    | some group =>
      by_cases hnew : group.status = "new"
      · simp [hnew]
      · cases hv : GroupACATCtl.validateGroupCycle db g with
        | error m => simp [hnew, hv]
        | ok r =>
          cases hsc : c.screening with
          | none => simp [hnew, hv, hh, hi, hget, hsc]
          | some sv =>
            cases hlc : c.loan with
            | none => simp [hnew, hv, hh, hi, hget, hsc, hlc]
            | some lv => simp [hnew, hv, hh, hi, hget, hsc, hlc, hav]

/-- C17: on a store whose ledgers have distinct ids, a successful loan initialization
(resp. ACAT creation) changes, in the ledger of the group, only the `loan` (resp.
`acat`) field, `last_edit_by` and `last_modified` of the active cycle record, the first
record whose number is the ledger cycle number: the records before and after it, its
other fields, the number of records and the ledger cycle number are as before; and
when the active record already has that stage reference the request is rejected and
the store is unchanged. -/
theorem attach_stage_changes_only_active_record (user now g : Nat) (db : Db)
    (history : GroupHistory)
    (hnd : (db.groupHistories.map (fun x => x._id)).Nodup)
    (hh : findOne (fun x => x.group == g) db.groupHistories = some history) :
    (∀ svc : Nat → Except String MemberRecord,
      (GroupLoanCtl.initializeGroupLoan true user now svc g db).error = none →
      ∃ pre c post newId,
        history.cycles = pre ++ c :: post ∧
        (∀ x ∈ pre, x.cycle_number ≠ history.cycle_number) ∧
        c.cycle_number = history.cycle_number ∧ c.loan = none ∧
        findOne (fun x => x.group == g)
            (GroupLoanCtl.initializeGroupLoan true user now svc g db).db.groupHistories =
          some { history with
            cycles := pre ++
              { c with loan := some newId, last_edit_by := some user,
                       last_modified := now } :: post,
            last_modified := now }) ∧
    ((GroupACATCtl.createGroupACAT true user now (some g) db).error = none →
      ∃ pre c post newId,
        history.cycles = pre ++ c :: post ∧
        (∀ x ∈ pre, x.cycle_number ≠ history.cycle_number) ∧
        c.cycle_number = history.cycle_number ∧ c.acat = none ∧
        findOne (fun x => x.group == g)
            (GroupACATCtl.createGroupACAT true user now (some g) db).db.groupHistories =
          some { history with
            cycles := pre ++
              { c with acat := some newId, last_edit_by := some user,
                       last_modified := now } :: post,
            last_modified := now }) ∧
    (∀ (isPermitted : Bool) (svc : Nat → Except String MemberRecord)
        (pre post : List CycleRecord) (c : CycleRecord),
      history.cycles = pre ++ c :: post →
      (∀ x ∈ pre, x.cycle_number ≠ history.cycle_number) →
      c.cycle_number = history.cycle_number →
      (c.loan ≠ none →
        (GroupLoanCtl.initializeGroupLoan isPermitted user now svc g db).error ≠ none ∧
        (GroupLoanCtl.initializeGroupLoan isPermitted user now svc g db).db = db) ∧
      (c.acat ≠ none →
        (GroupACATCtl.createGroupACAT isPermitted user now (some g) db).error ≠ none ∧
        (GroupACATCtl.createGroupACAT isPermitted user now (some g) db).db = db)) := by
  have hid : findOne (fun x => x._id == history._id) db.groupHistories = some history :=
    findOne_of_nodup (fun x : GroupHistory => x._id) _ _ hnd (findOne_mem _ _ _ hh)
  refine ⟨?_, ?_, ?_⟩
  · intro svc hok
    have htry := initializeGroupLoan_ok true user now svc g db hok
    obtain ⟨group, history1, pre, c, post, _, _, _, hh1, hcy, hpre, hc, _, hl, _, hhist, _⟩ :=
      initializeGroupLoanTry_ok user now svc g db _ htry
    rw [hh] at hh1
    cases hh1
    refine ⟨pre, c, post, freshId (db.groupLoans.map (fun d => d._id)), hcy, hpre, hc, hl, ?_⟩
    rw [hhist]
    refine findOne_update_same _ _ _ ?_ _ _ hh hid
    intro y
    rfl
  · intro hok
    obtain ⟨g1, hg1, htry⟩ := createGroupACAT_ok true user now (some g) db hok
    cases hg1
    obtain ⟨group, history1, pre, c, post, _, _, _, hh1, hcy, hpre, hc, _, _, hl, _, hhist, _⟩ :=
      createGroupACATTry_ok user now g db _ htry
    rw [hh] at hh1
    cases hh1
    refine ⟨pre, c, post, freshId (db.groupACATs.map (fun d => d._id)), hcy, hpre, hc, hl, ?_⟩
    rw [hhist]
    refine findOne_update_same _ _ _ ?_ _ _ hh hid
    intro y
    rfl
  · intro isPermitted svc pre post c hcy hpre hc
    constructor
    · intro hl
      cases isPermitted
      · simp [GroupLoanCtl.initializeGroupLoan]
      · obtain ⟨m1, hm1⟩ := initializeGroupLoanTry_loan_set user now svc g db history pre post c
          hh hcy hpre hc hl
        simp [GroupLoanCtl.initializeGroupLoan, hm1]
    · intro hl
      cases isPermitted
      · simp [GroupACATCtl.createGroupACAT]
      · obtain ⟨m1, hm1⟩ := createGroupACATTry_acat_set user now g db history pre post c
          hh hcy hpre hc hl
        simp [GroupACATCtl.createGroupACAT, hm1]

/-- Witness for C17: loan initialization on the screened store attaches loan 1 to the
only cycle record, and is rejected on the store that already has a loan attached. -/
theorem attach_stage_changes_only_active_record_witness :
    (∃ pre c post newId,
      screenedHistory.cycles = pre ++ c :: post ∧
      (∀ x ∈ pre, x.cycle_number ≠ screenedHistory.cycle_number) ∧
      c.cycle_number = screenedHistory.cycle_number ∧ c.loan = none ∧
      findOne (fun x => x.group == 1)
          (GroupLoanCtl.initializeGroupLoan true 7 500 okLoanService 1
            screenedDb).db.groupHistories =
        some { screenedHistory with
          cycles := pre ++
            { c with loan := some newId, last_edit_by := some 7,
                     last_modified := 500 } :: post,
          last_modified := 500 }) ∧
    ((GroupLoanCtl.initializeGroupLoan true 7 500 okLoanService 1 loanDb).error ≠ none ∧
      (GroupLoanCtl.initializeGroupLoan true 7 500 okLoanService 1 loanDb).db = loanDb) :=
  ⟨(attach_stage_changes_only_active_record 7 500 1 screenedDb screenedHistory
      (by decide) rfl).1 okLoanService rfl,
   ((attach_stage_changes_only_active_record 7 500 1 loanDb
      { screenedHistory with cycles := [{ screenedCycle with loan := some 20 }] }
      (by decide) rfl).2.2 true okLoanService [] []
      { screenedCycle with loan := some 20 } rfl (by simp) rfl).1 (by decide)⟩

/-- C18: on a store whose ledgers have distinct ids, a successful new-cycle start for
the group `g` with ledger cycle number `n` and supplied `total_amount` creates one new
GroupScreening, makes the ledger cycle number `n + 1`, appends to the old cycle records
exactly one record, with cycle number `n + 1`, the new GroupScreening as `screening` and
the acting user as `started_by` and `last_edit_by`, and sets on the group
`total_granted_amount = 0`, `total_paid_amount = 0`, `total_amount` to the supplied
value and `loan_cycle_number` to one more than before. -/
theorem new_cycle_start_effect (user now : Nat)
    (createScreening : MemberRecord → Except String MemberRecord)
    (body : GroupScreeningBody) (db : Db)
    (hnd : (db.groupHistories.map (fun x => x._id)).Nodup)
    (hok : (GroupScreeningCtl.createGroupScreening true user now createScreening body
      db).error = none) :
    ∃ g group history newGroupScreening,
      body.group = some g ∧
      findOne (fun x => x._id == g) db.groups = some group ∧
      findOne (fun x => x.group == g) db.groupHistories = some history ∧
      (GroupScreeningCtl.createGroupScreening true user now createScreening body
          db).db.groupScreenings = db.groupScreenings ++ [newGroupScreening] ∧
      newGroupScreening.group = g ∧
      findOne (fun x => x.group == g)
          (GroupScreeningCtl.createGroupScreening true user now createScreening body
            db).db.groupHistories =
        some { history with
          cycle_number := history.cycle_number + 1, last_modified := now,
          cycles := history.cycles ++
            [{ cycle_number := history.cycle_number + 1, started_by := some user,
               last_edit_by := some user, screening := some newGroupScreening._id,
               total_amount := body.total_amount }] } ∧
      findOne (fun x => x._id == g)
          (GroupScreeningCtl.createGroupScreening true user now createScreening body
            db).db.groups =
        some { group with
          status := "new", total_granted_amount := 0, total_paid_amount := 0,
          total_amount := body.total_amount,
          loan_cycle_number := group.loan_cycle_number + 1 } := by
  have htry := createGroupScreening_ok true user now createScreening body db hok
  obtain ⟨g, group, history, last, newScreenings, hb, _, hg, _, hh, hgroups, hhist, hscr, _⟩ :=
    createGroupScreeningTry_ok user now createScreening body db _ htry
  have hid : findOne (fun x => x._id == history._id) db.groupHistories = some history :=
    findOne_of_nodup (fun x : GroupHistory => x._id) _ _ hnd (findOne_mem _ _ _ hh)
  refine ⟨g, group, history, _, hb, hg, hh, hscr, rfl, ?_, ?_⟩
  · rw [hhist]
    refine findOne_update_same _ _ _ ?_ _ _ hh hid
    intro y
    rfl
  · rw [hgroups]
    refine findOne_findOneAndUpdate _ _ ?_ _ _ hg
    intro y
    rfl

/-- Witness for C18: the paid group starts its second cycle with amount 2000. -/
theorem new_cycle_start_effect_witness :
    ∃ g group history newGroupScreening,
      (some 1 : Option Nat) = some g ∧
      findOne (fun x => x._id == g) paidDb.groups = some group ∧
      findOne (fun x => x.group == g) paidDb.groupHistories = some history ∧
      (GroupScreeningCtl.createGroupScreening true 7 500 okScreeningService
          { group := some 1, total_amount := 2000 } paidDb).db.groupScreenings =
        paidDb.groupScreenings ++ [newGroupScreening] ∧
      newGroupScreening.group = g ∧
      findOne (fun x => x.group == g)
          (GroupScreeningCtl.createGroupScreening true 7 500 okScreeningService
            { group := some 1, total_amount := 2000 } paidDb).db.groupHistories =
        some { history with
          cycle_number := history.cycle_number + 1, last_modified := 500,
          cycles := history.cycles ++
            [{ cycle_number := history.cycle_number + 1, started_by := some 7,
               last_edit_by := some 7, screening := some newGroupScreening._id,
               total_amount := 2000 }] } ∧
      findOne (fun x => x._id == g)
          (GroupScreeningCtl.createGroupScreening true 7 500 okScreeningService
            { group := some 1, total_amount := 2000 } paidDb).db.groups =
        some { group with
          status := "new", total_granted_amount := 0, total_paid_amount := 0,
          total_amount := 2000,
          loan_cycle_number := group.loan_cycle_number + 1 } :=
  new_cycle_start_effect 7 500 okScreeningService { group := some 1, total_amount := 2000 }
    paidDb (by decide) rfl

/-! ## The loan-paid override -/

theorem findOne_update_other {α : Type} (q q1 : α → Bool) (upd : α → α)
    (hq : ∀ y, q (upd y) = q y) (hdis : ∀ y, q1 y = true → q y = false) :
    ∀ docs : List α, findOne q (findOneAndUpdate q1 upd docs) = findOne q docs
  | [] => rfl
  | d :: ds => by
    by_cases hd1 : q1 d = true
    · have hqd := hdis d hd1
      simp [findOne, findOneAndUpdate, hd1, hq, hqd, List.find?]
    · have hd1' : q1 d = false := by simpa using hd1
      have ih := findOne_update_other q q1 upd hq hdis ds
      by_cases hqd : q d = true
      · simp [findOne, findOneAndUpdate, hd1', hqd, List.find?]
      · have hqd' : q d = false := by simpa using hqd
        simpa [findOne, findOneAndUpdate, hd1', hqd', List.find?] using ih

theorem findOne_and {α : Type} (q q2 : α → Bool) :
    ∀ (docs : List α) (x : α), findOne q docs = some x → q2 x = true →
      findOne (fun y => q y && q2 y) docs = some x
  | [], x, h, _ => by simp [findOne] at h
  | d :: ds, x, h, h2 => by
    by_cases hqd : q d = true
    · have hx : d = x := by simpa [findOne, List.find?, hqd] using h
      subst hx
      simp [findOne, List.find?, hqd, h2]
    · have hqd' : q d = false := by simpa using hqd
      have h' : findOne q ds = some x := by simpa [findOne, List.find?, hqd'] using h
      have ih := findOne_and q q2 ds x h' h2
      simpa [findOne, List.find?, hqd'] using ih

theorem findOneAndUpdate_append_cons {α : Type} (q : α → Bool) (upd : α → α) (c : α)
    (post : List α) :
    ∀ pre : List α, (∀ x ∈ pre, q x = false) → q c = true →
      findOneAndUpdate q upd (pre ++ c :: post) = pre ++ upd c :: post
  | [], _, hc => by simp [findOneAndUpdate, hc]
  | x :: pre, hpre, hc => by
    have hx : q x = false := hpre x (by simp)
    have ih := findOneAndUpdate_append_cons q upd c post pre
      (fun y hy => hpre y (List.mem_cons_of_mem _ hy)) hc
    simp [findOneAndUpdate, hx, ih]

theorem clients_foldl_frame (s : String) :
    ∀ (members : List Nat) (db : Db),
      (members.foldl (fun d member => ClientDal.update d member s) db).groups = db.groups ∧
      (members.foldl (fun d member => ClientDal.update d member s) db).groupHistories =
        db.groupHistories
  | [], db => ⟨rfl, rfl⟩
  | m :: ms, db => by
    simp only [List.foldl_cons]
    have ih := clients_foldl_frame s ms (ClientDal.update db m s)
    exact ⟨ih.1, ih.2⟩

theorem clients_foldl_status (s : String) (m : Nat) :
    ∀ (members : List Nat) (db : Db) (c : Client),
      findOne (fun x => x._id == m) db.clients = some c →
      findOne (fun x => x._id == m)
          (members.foldl (fun d member => ClientDal.update d member s) db).clients =
        some (if m ∈ members then { c with status := s } else c)
  | [], db, c, h => by simpa using h
  | m1 :: ms, db, c, h => by
    simp only [List.foldl_cons]
    by_cases hm : m1 = m
    · subst hm
      have h1 : findOne (fun x => x._id == m1) (ClientDal.update db m1 s).clients =
          some { c with status := s } := by
        simp only [ClientDal.update]
        refine findOne_findOneAndUpdate _ _ ?_ _ _ h
        intro y
        rfl
      have ih := clients_foldl_status s m1 ms _ _ h1
      rw [ih]
      by_cases hmem : m1 ∈ ms <;> simp [hmem]
    · have h1 : findOne (fun x => x._id == m) (ClientDal.update db m1 s).clients = some c := by
        simp only [ClientDal.update]
        rw [findOne_update_other]
        · exact h
        · intro y; rfl
        · intro y hy
          have : y._id = m1 := by simpa using hy
          simpa [this] using hm
      have ih := clients_foldl_status s m ms _ _ h1
      rw [ih]
      have : (m ∈ m1 :: ms) ↔ m ∈ ms := by
        simp [List.mem_cons, Ne.symm hm]
      by_cases hmem : m ∈ ms <;> simp [hmem, Ne.symm hm]

theorem updateGroupStatus_override_ok (id : Nat) (db : Db) (group : Group)
    (hg : findOne (fun g => g._id == id) db.groups = some group)
    (hs : group.status = "loan_granted" ∨ group.status = "payment_in_progress") :
    GroupCtl.updateGroupStatus true id (some "loan_paid") db =
      .ok (recordCycleAmount
        (group.members.foldl (fun d member => ClientDal.update d member "loan_paid")
          (GroupDal.updateWith db group._id (fun g =>
            { g with status := "loan_paid",
                     total_paid_amount := group.total_granted_amount })))
        group._id group.loan_cycle_number
        (fun c => { c with total_paid_amount := group.total_granted_amount })) := by
  rcases hs with hs | hs <;> simp [GroupCtl.updateGroupStatus, hg, hs]

theorem updateGroupStatus_override_error (id : Nat) (db : Db) (group : Group)
    (hg : findOne (fun g => g._id == id) db.groups = some group)
    (hs : ¬ (group.status = "loan_granted" ∨ group.status = "payment_in_progress")) :
    succeeded (GroupCtl.updateGroupStatus true id (some "loan_paid") db) = false := by
  simp only [not_or] at hs
  by_cases h1 : group.status = "ACAT-Authorized"
  · simp [GroupCtl.updateGroupStatus, hg, h1, succeeded]
  · by_cases h2 : group.status = "loan_paid"
    · simp [GroupCtl.updateGroupStatus, hg, h2, succeeded]
    · simp [GroupCtl.updateGroupStatus, hg, h1, h2, hs.1, hs.2, succeeded]

/-- C19, as stated, fails: an empty-string body status counts as absent, so the
request takes the derived branch; on the `ACAT-Authorized` group whose members are
granted it returns normally and changes the group. -/
theorem loan_paid_override_counterexample :
    ∃ db1, GroupCtl.updateGroupStatus true 1 (some "") authorizedDb = .ok db1 ∧
      db1.groups =
        [{ cycleGroup with status := "loan_granted", total_granted_amount := 900 }] :=
  ⟨_, rfl, rfl⟩

/-- C19 (amended): for a permitted request on an existing group, the loan-paid
override (body status `loan_paid`) succeeds if and only if the current group status is
`loan_granted` or `payment_in_progress`; on `ACAT-Authorized` it throws `Loan is not
yet granted to all or some of the members.`; every non-empty body status other than
`loan_paid` makes the request fail; and a failed request leaves the store as it was. -/
theorem loan_paid_override_guard (id : Nat) (db : Db) (group : Group)
    (hg : findOne (fun g => g._id == id) db.groups = some group) :
    (succeeded (GroupCtl.updateGroupStatus true id (some "loan_paid") db) = true ↔
      (group.status = "loan_granted" ∨ group.status = "payment_in_progress")) ∧
    (group.status = "ACAT-Authorized" →
      GroupCtl.updateGroupStatus true id (some "loan_paid") db =
        .error { type := "GROUP_UPDATE_STATUS_ERROR",
                 message := "Loan is not yet granted to all or some of the members." }) ∧
    (∀ s : String, s ≠ "" → s ≠ "loan_paid" →
      succeeded (GroupCtl.updateGroupStatus true id (some s) db) = false) ∧
    (∀ s : String,
      succeeded (GroupCtl.updateGroupStatus true id (some s) db) = false →
      storeAfter db (GroupCtl.updateGroupStatus true id (some s) db) = db) := by
  refine ⟨?_, ?_, ?_, ?_⟩
  · constructor
    · intro h
      by_contra hs
      rw [updateGroupStatus_override_error id db group hg hs] at h
      cases h
    · intro hs
      rw [updateGroupStatus_override_ok id db group hg hs]
      rfl
  · intro h1
    simp [GroupCtl.updateGroupStatus, hg, h1]
  · intro s hne hs
    simp [GroupCtl.updateGroupStatus, hg, hne, hs, succeeded]
  · intro s h
    cases hr : GroupCtl.updateGroupStatus true id (some s) db with
    | error e => rfl
    | ok d => rw [hr] at h; cases h

/-- Witness for C19 (amended): the override succeeds on the granted group and fails on
the `ACAT-Authorized` one. -/
theorem loan_paid_override_guard_witness :
    succeeded (GroupCtl.updateGroupStatus true 1 (some "loan_paid") grantedDb) = true ∧
    GroupCtl.updateGroupStatus true 1 (some "loan_paid") authorizedDb =
      .error { type := "GROUP_UPDATE_STATUS_ERROR",
               message := "Loan is not yet granted to all or some of the members." } ∧
    succeeded (GroupCtl.updateGroupStatus true 1 (some "loan_granted") grantedDb) = false :=
  ⟨(loan_paid_override_guard 1 grantedDb _ rfl).1.2 (Or.inl rfl),
   (loan_paid_override_guard 1 authorizedDb _ rfl).2.1 rfl,
   (loan_paid_override_guard 1 grantedDb _ rfl).2.2.1 "loan_granted" (by decide) (by decide)⟩

/-- C20: a successful loan-paid override makes the group read back with status
`loan_paid` and `total_paid_amount` equal to its prior `total_granted_amount` (every
other field, `total_granted_amount` included, as before), makes every member that has
a client record read back with status `loan_paid`, and in the ledger of the group sets
`total_paid_amount` of the first cycle record whose number is the loan cycle number of
the group to that amount, leaving the other cycle records as they were. -/
theorem loan_paid_override_effect (id : Nat) (db db1 : Db) (group : Group)
    (hg : findOne (fun g => g._id == id) db.groups = some group)
    (hok : GroupCtl.updateGroupStatus true id (some "loan_paid") db = .ok db1) :
    findOne (fun g => g._id == id) db1.groups =
      some { group with status := "loan_paid",
                        total_paid_amount := group.total_granted_amount } ∧
    (∀ m ∈ group.members, ∀ c, findOne (fun x => x._id == m) db.clients = some c →
      findOne (fun x => x._id == m) db1.clients = some { c with status := "loan_paid" }) ∧
    (∀ (history : GroupHistory) (pre post : List CycleRecord) (c : CycleRecord),
      findOne (fun h => h.group == id) db.groupHistories = some history →
      history.cycles = pre ++ c :: post →
      (∀ x ∈ pre, x.cycle_number ≠ group.loan_cycle_number) →
      c.cycle_number = group.loan_cycle_number →
      findOne (fun h => h.group == id) db1.groupHistories =
        some { history with
          cycles := pre ++
            { c with total_paid_amount := group.total_granted_amount } :: post }) := by
  have hs : group.status = "loan_granted" ∨ group.status = "payment_in_progress" := by
    by_contra hs
    have := updateGroupStatus_override_error id db group hg hs
    rw [hok] at this
    cases this
  rw [updateGroupStatus_override_ok id db group hg hs] at hok
  cases hok
  have hid : group._id = id := by simpa using findOne_sat _ _ _ hg
  subst hid
  refine ⟨?_, ?_, ?_⟩
  · simp only [recordCycleAmount]
    rw [(clients_foldl_frame "loan_paid" group.members _).1]
    simp only [GroupDal.updateWith]
    refine findOne_findOneAndUpdate _ _ ?_ _ _ hg
    intro y
    rfl
  · intro m hm c hc
    simp only [recordCycleAmount]
    have := clients_foldl_status "loan_paid" m group.members
      (GroupDal.updateWith db group._id (fun g =>
        { g with status := "loan_paid",
                 total_paid_amount := group.total_granted_amount })) c hc
    rw [this]
    simp [hm]
  · intro history pre post c hh hcy hpre hc
    simp only [recordCycleAmount]
    rw [(clients_foldl_frame "loan_paid" group.members _).2]
    simp only [GroupDal.updateWith]
    have hany : history.cycles.any (fun c => c.cycle_number == group.loan_cycle_number) =
        true := by
      rw [hcy]
      simp [hc]
    have hq := findOne_and (fun h : GroupHistory => h.group == group._id)
      (fun h => h.cycles.any (fun c => c.cycle_number == group.loan_cycle_number))
      _ _ hh hany
    have hupd := findOne_update_same (fun h : GroupHistory => h.group == group._id)
      (fun h => h.group == group._id &&
        h.cycles.any (fun c => c.cycle_number == group.loan_cycle_number))
      (fun h =>
        { h with
          cycles := findOneAndUpdate (fun c => c.cycle_number == group.loan_cycle_number)
            (fun c => { c with total_paid_amount := group.total_granted_amount })
            h.cycles })
      (fun _ => rfl) _ _ hh hq
    rw [hupd]
    simp only [hcy]
    rw [findOneAndUpdate_append_cons _ _ c post pre
      (fun x hx => by simpa using hpre x hx) (by simpa using hc)]

/-- Witness for C20: the override on the granted group. -/
theorem loan_paid_override_effect_witness :
    ∃ db1, GroupCtl.updateGroupStatus true 1 (some "loan_paid") grantedDb = .ok db1 ∧
      findOne (fun g => g._id == 1) db1.groups =
        some { cycleGroup with status := "loan_paid", total_granted_amount := 900,
                               total_paid_amount := 900 } ∧
      db1.clients = [{ _id := 101, status := "loan_paid" },
                     { _id := 102, status := "loan_paid" }] :=
  ⟨_, rfl,
   (loan_paid_override_effect 1 grantedDb _
      { cycleGroup with status := "loan_granted", total_granted_amount := 900 } rfl rfl).1,
   rfl⟩

/-! ## The reducers as functions of the set of statuses -/

theorem containsOnly_congr (a b against : List String) (h : ∀ x, x ∈ a ↔ x ∈ b) :
    containsOnly a against = containsOnly b against := by
  rw [Bool.eq_iff_iff, containsOnly_iff_mem, containsOnly_iff_mem]
  constructor
  · intro ha x
    rw [← h x]; exact ha x
  · intro hb x
    rw [h x]; exact hb x

theorem contains_congr (a b : List String) (s : String) (h : ∀ x, x ∈ a ↔ x ∈ b) :
    a.contains s = b.contains s := by
  rw [Bool.eq_iff_iff]
  simpa using h s

/-- C27: the ACAT `statusChecker` is the six-step ladder of its specification, first
match wins; in particular a list that contains `resubmitted` and none of `new`,
`declined_for_review`, `inprogress` yields `ACAT-Resubmitted`/`resubmitted`. -/
theorem acat_statusChecker_is_ladder (acats : List MemberRecord) :
    GroupACATCtl.statusChecker acats = acatLadder (statusesOf acats) ∧
    ("resubmitted" ∈ statusesOf acats → "new" ∉ statusesOf acats →
      "declined_for_review" ∉ statusesOf acats → "inprogress" ∉ statusesOf acats →
      GroupACATCtl.statusChecker acats =
        { group := "ACAT-Resubmitted", group_acat := "resubmitted",
          all_submitted := none, for_review := none }) := by
  constructor
  · rw [acat_statusChecker_ladder]
    simp [acatLadder, not_or]
  · intro hres hnew hdfr hinp
    rw [acat_statusChecker_ladder]
    simp [not_allAre_of_mem (s := "new") hres (by decide),
      not_allAre_of_mem (s := "submitted") hres (by decide),
      not_allAre_of_mem (s := "authorized") hres (by decide), hres, hnew, hdfr, hinp]

/-- Witness for C27: one authorized and one resubmitted member. -/
theorem acat_statusChecker_is_ladder_witness :
    GroupACATCtl.statusChecker [⟨1, "authorized"⟩, ⟨2, "resubmitted"⟩] =
      { group := "ACAT-Resubmitted", group_acat := "resubmitted",
        all_submitted := none, for_review := none } :=
  (acat_statusChecker_is_ladder _).2 (by decide) (by decide) (by decide) (by decide)

/-- C29: each reducer depends only on the set of distinct statuses present: two lists
with the same elements, whatever their order and multiplicity, give the same result in
the screening, loan and ACAT `statusChecker` and in the group payment `statusChecker`. -/
theorem statusChecker_depends_on_status_set (l1 l2 : List MemberRecord)
    (s1 s2 : List String)
    (h : ∀ x, x ∈ statusesOf l1 ↔ x ∈ statusesOf l2) (hs : ∀ x, x ∈ s1 ↔ x ∈ s2) :
    GroupScreeningCtl.statusChecker l1 = GroupScreeningCtl.statusChecker l2 ∧
    GroupLoanCtl.statusChecker l1 = GroupLoanCtl.statusChecker l2 ∧
    GroupACATCtl.statusChecker l1 = GroupACATCtl.statusChecker l2 ∧
    GroupCtl.statusChecker s1 = GroupCtl.statusChecker s2 := by
  have hco := fun t => containsOnly_congr (statusesOf l1) (statusesOf l2) t h
  have hct := fun s => contains_congr (statusesOf l1) (statusesOf l2) s h
  simp only [statusesOf] at hco hct
  refine ⟨?_, ?_, ?_, ?_⟩
  · simp only [GroupScreeningCtl.statusChecker, hco, hct]
  · simp only [GroupLoanCtl.statusChecker, hco, hct]
  · simp only [GroupACATCtl.statusChecker, hco, hct]
  · simp only [GroupCtl.statusChecker, containsOnly_congr s1 s2 _ hs,
      contains_congr s1 s2 _ hs]

/-- Witness for C29: a reordered list with a repeated status. -/
theorem statusChecker_depends_on_status_set_witness :
    GroupScreeningCtl.statusChecker [⟨1, "approved"⟩, ⟨2, "declined_final"⟩] =
      GroupScreeningCtl.statusChecker
        [⟨3, "declined_final"⟩, ⟨4, "approved"⟩, ⟨5, "declined_final"⟩] ∧
    GroupCtl.statusChecker ["loan_granted", "loan_paid"] =
      GroupCtl.statusChecker ["loan_paid", "loan_granted", "loan_paid"] :=
  ⟨(statusChecker_depends_on_status_set _ _ ["loan_granted", "loan_paid"]
      ["loan_paid", "loan_granted", "loan_paid"]
      (fun x => by simp [statusesOf]; tauto) (fun x => by simp; tauto)).1,
   (statusChecker_depends_on_status_set [⟨1, "approved"⟩, ⟨2, "declined_final"⟩]
      [⟨3, "declined_final"⟩, ⟨4, "approved"⟩, ⟨5, "declined_final"⟩] _ _
      (fun x => by simp [statusesOf]; tauto) (fun x => by simp; tauto)).2.2.2⟩

/-! ## The loan ladder as a renaming of the screening ladder -/

theorem statusesOf_map_renameRecord (records : List MemberRecord) :
    statusesOf (records.map renameRecord) = (statusesOf records).map renameStatus := by
  simp [statusesOf, renameRecord, Function.comp_def]

/-- Membership of `t` after a renaming that sends exactly `s` to `t` within `st`. -/
theorem mem_map_of_rename (f : String → String) (st : List String) (s t : String)
    (h : ∀ x ∈ st, f x = t ↔ x = s) : t ∈ st.map f ↔ s ∈ st := by
  rw [List.mem_map]
  constructor
  · rintro ⟨x, hx, hfx⟩
    rw [← (h x hx).1 hfx]; exact hx
  · intro hs
    exact ⟨s, hs, (h s hs).2 rfl⟩

theorem allAre_map_of_rename (f : String → String) (st : List String) (s t : String)
    (h : ∀ x ∈ st, f x = t ↔ x = s) : allAre t (st.map f) ↔ allAre s st := by
  unfold allAre
  constructor
  · rintro ⟨hne, hall⟩
    refine ⟨by simpa using hne, fun x hx => (h x hx).1 (hall _ (List.mem_map_of_mem f hx))⟩
  · rintro ⟨hne, hall⟩
    refine ⟨by simpa using hne, ?_⟩
    intro y hy
    obtain ⟨x, hx, rfl⟩ := List.mem_map.1 hy
    exact (h x hx).2 (hall x hx)

theorem renameStatus_eq_new (x : String) : renameStatus x = "new" ↔ x = "new" := by
  unfold renameStatus
  split_ifs with h1 h2 h3 <;> simp_all

theorem renameStatus_eq_submitted (x : String) :
    renameStatus x = "submitted" ↔ x = "submitted" := by
  unfold renameStatus
  split_ifs with h1 h2 h3 <;> simp_all

theorem renameStatus_eq_declined_under_review (x : String) :
    renameStatus x = "declined_under_review" ↔ x = "declined_under_review" := by
  unfold renameStatus
  split_ifs with h1 h2 h3 <;> simp_all

theorem renameStatus_eq_accepted (x : String) (h : x ≠ "accepted") :
    renameStatus x = "accepted" ↔ x = "approved" := by
  unfold renameStatus
  split_ifs with h1 h2 h3 <;> simp_all

theorem renameStatus_eq_rejected (x : String) (h : x ≠ "rejected") :
    renameStatus x = "rejected" ↔ x = "declined_final" := by
  unfold renameStatus
  split_ifs with h1 h2 h3 <;> simp_all

theorem renameStatus_eq_inprogress (x : String) (h : x ≠ "inprogress") :
    renameStatus x = "inprogress" ↔ x = "screening_inprogress" := by
  unfold renameStatus
  split_ifs with h1 h2 h3 <;> simp_all

/-- C26 fails as stated: on the single member status `accepted`, a word of the loan
vocabulary, the screening reducer takes its default case while the loan reducer on the
renamed list takes the all-accepted case. -/
theorem loan_renaming_counterexample :
    ¬ ∀ records : List MemberRecord,
        GroupLoanCtl.statusChecker (records.map renameRecord) =
          renameResult (GroupScreeningCtl.statusChecker records) := by
  intro h
  have h1 := h [⟨1, "accepted"⟩]
  revert h1
  decide

/-- C26 (amended): on every list of member records whose statuses avoid the three
loan-only words `accepted`, `rejected` and `inprogress`, the loan `statusChecker` on the
renamed records is the renamed result of the screening `statusChecker`, flags kept. -/
theorem loan_statusChecker_is_renamed_screening (records : List MemberRecord)
    (ha : "accepted" ∉ statusesOf records) (hr : "rejected" ∉ statusesOf records)
    (hi : "inprogress" ∉ statusesOf records) :
    GroupLoanCtl.statusChecker (records.map renameRecord) =
      renameResult (GroupScreeningCtl.statusChecker records) := by
  have hne : ∀ (w : String), w ∉ statusesOf records → ∀ x ∈ statusesOf records, x ≠ w :=
    fun w hw x hx hxw => hw (hxw ▸ hx)
  rw [loan_statusChecker_ladder, screening_statusChecker_ladder, statusesOf_map_renameRecord]
  simp only [
    allAre_map_of_rename renameStatus _ "new" "new" (fun x _ => renameStatus_eq_new x),
    allAre_map_of_rename renameStatus _ "submitted" "submitted"
      (fun x _ => renameStatus_eq_submitted x),
    allAre_map_of_rename renameStatus _ "approved" "accepted"
      (fun x hx => renameStatus_eq_accepted x (hne _ ha x hx)),
    mem_map_of_rename renameStatus _ "new" "new" (fun x _ => renameStatus_eq_new x),
    mem_map_of_rename renameStatus _ "submitted" "submitted"
      (fun x _ => renameStatus_eq_submitted x),
    mem_map_of_rename renameStatus _ "declined_under_review" "declined_under_review"
      (fun x _ => renameStatus_eq_declined_under_review x),
    mem_map_of_rename renameStatus _ "declined_final" "rejected"
      (fun x hx => renameStatus_eq_rejected x (hne _ hr x hx)),
    mem_map_of_rename renameStatus _ "screening_inprogress" "inprogress"
      (fun x hx => renameStatus_eq_inprogress x (hne _ hi x hx))]
  split_ifs <;> rfl

/-- Witness for C26 (amended): an approved and a finally declined member. -/
theorem loan_statusChecker_is_renamed_screening_witness :
    GroupLoanCtl.statusChecker [⟨1, "accepted"⟩, ⟨2, "rejected"⟩] =
      { group := "loan_application_rejected", group_loan := "rejected" } :=
  loan_statusChecker_is_renamed_screening [⟨1, "approved"⟩, ⟨2, "declined_final"⟩]
    (by decide) (by decide) (by decide)

/-! ## The derived group payment status -/

theorem containsOnly_pair_iff (st : List String) (a b : String) :
    containsOnly st [a, b] = true ↔ st.toFinset = {a, b} := by
  rw [containsOnly_iff_mem, Finset.ext_iff]
  simp

theorem contains_iff_mem_string (st : List String) (s : String) :
    st.contains s = true ↔ s ∈ st := by simp

theorem group_statusChecker_ladder (st : List String) :
    GroupCtl.statusChecker st =
      (paymentLadder st).map (fun s => ({ group := s } : GroupCtl.Statuses)) := by
  unfold GroupCtl.statusChecker paymentLadder
  simp only [containsOnly_singleton, containsOnly_pair_iff, contains_iff_mem_string]
  split_ifs <;> rfl

theorem paymentLadder_values (st : List String) (s : String)
    (h : paymentLadder st = some s) :
    s = "loan_granted" ∨ s = "loan_paid" ∨ s = "payment_in_progress" ∨
      s = "appraisal_in_progress" := by
  unfold paymentLadder at h
  split_ifs at h <;> simp at h <;> simp [← h]

/-- The statuses the member loop accumulates are those of the members' clients, in the
order of the members. -/
theorem collectMembers_statuses (db : Db) :
    ∀ (members : List Nat) (acc totals : GroupCtl.MemberTotals),
      GroupCtl.collectMembers db members acc = .ok totals →
      ∃ l, totals.statuses = acc.statuses ++ l ∧
        List.Forall₂ (fun m s => ∃ c, findOne (fun c => c._id == m) db.clients = some c ∧
          c.status = s) members l
  | [], acc, totals, h => by
    simp only [GroupCtl.collectMembers, Except.ok.injEq] at h
    exact ⟨[], by simp [h], List.Forall₂.nil⟩
  | m :: ms, acc, totals, h => by
    simp only [GroupCtl.collectMembers] at h
    cases hc : findOne (fun c => c._id == m) db.clients with
    | none => simp [hc] at h
    | some client =>
      simp only [hc] at h
      cases hp : findOneSortDesc (fun p => p.date_created) (fun p => p.client == m)
          db.loanProposals with
      | none => simp [hp] at h
      | some loanProposal =>
        simp only [hp] at h
        obtain ⟨l, hl, hf⟩ := collectMembers_statuses db ms _ totals h
        exact ⟨client.status :: l, by simp [hl], List.Forall₂.cons ⟨client, hc, rfl⟩ hf⟩

theorem updateGroupStatus_derived_none (id : Nat) (db : Db) (group : Group)
    (totals : GroupCtl.MemberTotals) (body : Option String) (hb : body.getD "" = "")
    (hg : findOne (fun g => g._id == id) db.groups = some group)
    (hm : GroupCtl.collectMembers db group.members {} = .ok totals)
    (hn : paymentLadder totals.statuses = none) :
    GroupCtl.updateGroupStatus true id body db = .ok db := by
  have hs : GroupCtl.statusChecker totals.statuses = none := by
    rw [group_statusChecker_ladder, hn]; rfl
  simp [GroupCtl.updateGroupStatus, hg, hm, hs, hb]

theorem updateGroupStatus_derived_some (id : Nat) (db : Db) (group : Group)
    (totals : GroupCtl.MemberTotals) (body : Option String) (hb : body.getD "" = "")
    (s : String)
    (hg : findOne (fun g => g._id == id) db.groups = some group)
    (hm : GroupCtl.collectMembers db group.members {} = .ok totals)
    (hn : paymentLadder totals.statuses = some s) :
    ∃ db1 g1, GroupCtl.updateGroupStatus true id body db = .ok db1 ∧
      findOne (fun g => g._id == id) db1.groups = some g1 ∧ g1.status = s := by
  have hs : GroupCtl.statusChecker totals.statuses = some { group := s } := by
    rw [group_statusChecker_ladder, hn]; rfl
  have hgr := findOne_findOneAndUpdate (fun g : Group => g._id == id)
    (fun g => { g with status := s, total_granted_amount := totals.granted_amount })
    (fun _ => rfl) db.groups group hg
  have hpa := findOne_findOneAndUpdate (fun g : Group => g._id == id)
    (fun g => { g with status := s, total_paid_amount := totals.paid_amount })
    (fun _ => rfl) db.groups group hg
  rcases paymentLadder_values _ _ hn with h | h | h | h <;> subst h
  · exact ⟨_, _, by simp [GroupCtl.updateGroupStatus, hg, hm, hs, hb]; rfl, hgr, rfl⟩
  · exact ⟨_, _, by simp [GroupCtl.updateGroupStatus, hg, hm, hs, hb]; rfl, hpa, rfl⟩
  · exact ⟨_, _, by simp [GroupCtl.updateGroupStatus, hg, hm, hs, hb]; rfl, hpa, rfl⟩
  · exact ⟨_, _, by simp [GroupCtl.updateGroupStatus, hg, hm, hs, hb]; rfl, hgr, rfl⟩

/-- C28: when `updateStatus` is called without a body status on an existing group
whose members all have a client and a loan proposal, the statuses collected are those
of the members' clients, the nested `statusChecker` derives from them `loan_granted`
(all granted), `loan_paid` (all paid), `payment_in_progress` (the set of statuses is
exactly granted and paid), `appraisal_in_progress` (granted present with another
status) and nothing otherwise; the derived status is written to the group, and when
nothing is derived, as for a group with no members, the store is left as it was. -/
theorem derived_group_status (id : Nat) (db : Db) (group : Group)
    (totals : GroupCtl.MemberTotals)
    (hg : findOne (fun g => g._id == id) db.groups = some group)
    (hm : GroupCtl.collectMembers db group.members {} = .ok totals) :
    (∀ st, GroupCtl.statusChecker st =
      (paymentLadder st).map (fun s => ({ group := s } : GroupCtl.Statuses))) ∧
    List.Forall₂ (fun m s => ∃ c, findOne (fun c => c._id == m) db.clients = some c ∧
      c.status = s) group.members totals.statuses ∧
    (∀ s, paymentLadder totals.statuses = some s →
      ∃ db1 g1, GroupCtl.updateGroupStatus true id none db = .ok db1 ∧
        findOne (fun g => g._id == id) db1.groups = some g1 ∧ g1.status = s) ∧
    (paymentLadder totals.statuses = none →
      GroupCtl.updateGroupStatus true id none db = .ok db) ∧
    (group.members = [] → GroupCtl.updateGroupStatus true id none db = .ok db) := by
  refine ⟨group_statusChecker_ladder, ?_, ?_, ?_, ?_⟩
  · obtain ⟨l, hl, hf⟩ := collectMembers_statuses db _ _ _ hm
    have : totals.statuses = l := by simpa using hl
    rw [this]; exact hf
  · intro s hs
    exact updateGroupStatus_derived_some id db group totals none rfl s hg hm hs
  · intro hn
    exact updateGroupStatus_derived_none id db group totals none rfl hg hm hn
  · intro he
    rw [he] at hm
    have ht : totals = {} := by
      simp only [GroupCtl.collectMembers, Except.ok.injEq] at hm
      exact hm.symm
    refine updateGroupStatus_derived_none id db group totals none rfl hg ?_ ?_
    · rw [he, ht]; rfl
    · rw [ht]; decide

/-- Witness for C28: the group whose two members are granted. -/
theorem derived_group_status_witness :
    ∃ db1 g1, GroupCtl.updateGroupStatus true 1 none authorizedDb = .ok db1 ∧
      findOne (fun g => g._id == 1) db1.groups = some g1 ∧ g1.status = "loan_granted" :=
  (derived_group_status 1 authorizedDb { cycleGroup with status := "ACAT-Authorized" }
    { statuses := ["loan_granted", "loan_granted"], granted_amount := 900, paid_amount := 0 }
    rfl rfl).2.2.1 "loan_granted" (by decide)

/-! ## Members and leader -/

/-- C21: `addMembers` does not preserve `members.length <= no_of_members`. The group
of `smallDb` has one member and room for two; the capacity test compares the current
count with `no_of_members` for equality only, so a request with three new members
succeeds and leaves the group with four members. -/
theorem addMembers_exceeds_capacity :
    smallGroup.members.length ≤ smallGroup.no_of_members ∧
    ∃ db1 g, GroupCtl.addMembers true 7 2 (some [102, 103, 104]) smallDb = .ok db1 ∧
      findOne (fun x => x._id == 2) db1.groups = some g ∧
      g.members = [101, 102, 103, 104] ∧ g.no_of_members = 2 ∧
      ¬ g.members.length ≤ g.no_of_members :=
  ⟨by decide, _, _, rfl, rfl, rfl, rfl, by decide⟩

theorem mem_uniq {α : Type} [DecidableEq α] : ∀ (l : List α) (x : α), x ∈ uniq l ↔ x ∈ l
  | [], x => by simp [uniq]
  | y :: ys, x => by
    by_cases hxy : x = y
    · simp [uniq, hxy]
    · simp [uniq, hxy, mem_uniq ys x]

/-- Every document of an updated collection is an old document or the update of the
first document matching the query. -/
theorem mem_findOneAndUpdate {α : Type} (q : α → Bool) (upd : α → α) :
    ∀ (docs : List α) (y : α), y ∈ findOneAndUpdate q upd docs →
      y ∈ docs ∨ ∃ x, findOne q docs = some x ∧ y = upd x
  | [], y, h => by simp [findOneAndUpdate] at h
  | d :: ds, y, h => by
    by_cases hd : q d = true
    · simp only [findOneAndUpdate, hd, if_true, List.mem_cons] at h
      rcases h with h | h
      · exact Or.inr ⟨d, by simp [findOne, List.find?, hd], h⟩
      · exact Or.inl (by simp [h])
    · have hd' : q d = false := by simpa using hd
      simp only [findOneAndUpdate, hd', Bool.false_eq_true, if_false, List.mem_cons] at h
      rcases h with h | h
      · exact Or.inl (by simp [h])
      · rcases mem_findOneAndUpdate q upd ds y h with h1 | ⟨x, hx, hy⟩
        · exact Or.inl (by simp [h1])
        · exact Or.inr ⟨x, by simpa [findOne, List.find?, hd'] using hx, hy⟩

theorem createGroup_groups (isPermitted : Bool) (user now : Nat) (body : GroupBody)
    (db db1 : Db) (h : GroupCtl.createGroup isPermitted user now body db = .ok db1) :
    ∃ g : Group, db1.groups = db.groups ++ [g] ∧ g.leader = body.leader ∧ g.members = [] ∧
      g.loan_cycle_number = 1 ∧ g._id = freshId (db.groups.map (fun g => g._id)) := by
  unfold GroupCtl.createGroup at h
  split_ifs at h with h1 h2 h3
  simp only [Except.ok.injEq] at h
  subst h
  have hm : body.members = none := by
    cases hb : body.members with
    | none => rfl
    | some ms => simp [hb] at h3
  exact ⟨_, rfl, rfl, by simp [GroupDal.create, hm], rfl, rfl⟩

theorem addMembers_groups (isPermitted : Bool) (user id : Nat)
    (bodyMembers : Option (List Nat)) (db db1 : Db)
    (h : GroupCtl.addMembers isPermitted user id bodyMembers db = .ok db1) :
    ∃ group newMembers, findOne (fun g => g._id == id) db.groups = some group ∧
      bodyMembers = some newMembers ∧
      db1.groups = findOneAndUpdate (fun g => g._id == id)
        (fun g => { g with members := uniq (group.members ++ newMembers) }) db.groups := by
  unfold GroupCtl.addMembers at h
  split_ifs at h
  cases bodyMembers with
  | none => simp at h
  | some newMembers =>
    cases hg : findOne (fun g => g._id == id) db.groups with
    | none => simp [hg] at h
    | some group =>
      have hid : group._id = id := by simpa using findOne_sat _ _ _ hg
      simp only [hg] at h
      split_ifs at h
      cases hs : findOne (fun d => d.group == group._id) db.groupScreenings with
      | none => simp [hs] at h
      | some groupScreening =>
        simp only [hs, Except.ok.injEq] at h
        subst h
        exact ⟨group, newMembers, rfl, rfl, by
          simp [LogDal.track, GroupDal.updateWith, GroupScreeningDal.updateScreenings, hid]⟩

theorem addLeader_groups (isPermitted : Bool) (user id : Nat) (bodyLeader : Option Nat)
    (db db1 : Db) (h : GroupCtl.addLeader isPermitted user id bodyLeader db = .ok db1) :
    ∃ group leader, findOne (fun g => g._id == id) db.groups = some group ∧
      bodyLeader = some leader ∧ leader ∈ group.members ∧
      db1.groups = findOneAndUpdate (fun g => g._id == id)
        (fun g => { g with leader := some leader }) db.groups := by
  unfold GroupCtl.addLeader at h
  split_ifs at h
  cases bodyLeader with
  | none => simp at h
  | some leader =>
    cases hg : findOne (fun g => g._id == id) db.groups with
    | none => simp [hg] at h
    | some group =>
      have hid : group._id = id := by simpa using findOne_sat _ _ _ hg
      simp only [hg] at h
      split_ifs at h with hm
      simp only [Except.ok.injEq] at h
      subst h
      refine ⟨group, leader, rfl, rfl, ?_, by simp [LogDal.track, GroupDal.updateWith, hid]⟩
      simpa using hm

/-- Group creation keeps the invariant when the request body has no `leader`. -/
theorem leaderIsMember_createGroup (isPermitted : Bool) (user now : Nat) (body : GroupBody)
    (db db1 : Db) (hb : body.leader = none) (ih : leaderIsMember db)
    (hok : GroupCtl.createGroup isPermitted user now body db = .ok db1) :
    leaderIsMember db1 := by
  obtain ⟨g, hgs, hl, _, _, _⟩ := createGroup_groups _ _ _ _ _ _ hok
  intro x hx l hxl
  rw [hgs, List.mem_append, List.mem_singleton] at hx
  rcases hx with hx | hx
  · exact ih x hx l hxl
  · subst hx; rw [hl, hb] at hxl; cases hxl

/-- A successful `addMembers` keeps the invariant. -/
theorem leaderIsMember_addMembers (isPermitted : Bool) (user id : Nat)
    (bodyMembers : Option (List Nat)) (db db1 : Db) (ih : leaderIsMember db)
    (hok : GroupCtl.addMembers isPermitted user id bodyMembers db = .ok db1) :
    leaderIsMember db1 := by
  obtain ⟨group, newMembers, hg, _, hgs⟩ := addMembers_groups _ _ _ _ _ _ hok
  intro x hx l hxl
  rw [hgs] at hx
  rcases mem_findOneAndUpdate _ _ _ _ hx with hx | ⟨y, hy, hxy⟩
  · exact ih x hx l hxl
  · rw [hg] at hy
    cases hy
    subst hxy
    have hmem := ih group (findOne_mem _ _ _ hg) l hxl
    show l ∈ uniq (group.members ++ newMembers)
    rw [mem_uniq]
    exact List.mem_append_left _ hmem

/-- A successful `addLeader` keeps the invariant. -/
theorem leaderIsMember_addLeader (isPermitted : Bool) (user id : Nat)
    (bodyLeader : Option Nat) (db db1 : Db) (ih : leaderIsMember db)
    (hok : GroupCtl.addLeader isPermitted user id bodyLeader db = .ok db1) :
    leaderIsMember db1 := by
  obtain ⟨group, leader, hg, _, hmem, hgs⟩ := addLeader_groups _ _ _ _ _ _ hok
  intro x hx l hxl
  rw [hgs] at hx
  rcases mem_findOneAndUpdate _ _ _ _ hx with hx | ⟨y, hy, hxy⟩
  · exact ih x hx l hxl
  · rw [hg] at hy
    cases hy
    subst hxy
    have hll : leader = l := by simpa using hxl
    rw [← hll]
    exact hmem

theorem addLeader_rejects_non_member (isPermitted : Bool) (user id leader : Nat)
    (d : Db) (group : Group)
    (hg : findOne (fun g => g._id == id) d.groups = some group)
    (hl : leader ∉ group.members) :
    GroupCtl.addLeader isPermitted user id (some leader) d =
      .error { type := "GROUP_UPDATE_LEADER_ERROR",
               message := if isPermitted then "Selected Leader is Not a Member of this group"
                          else notPermittedMessage } := by
  cases isPermitted
  · simp [GroupCtl.addLeader]
  · have : (group.members.any (fun member => member == leader)) = false := by
      rw [List.any_eq_false]
      intro x hx
      have hne : x ≠ leader := fun hxl => hl (hxl ▸ hx)
      simpa using hne
    simp [GroupCtl.addLeader, hg, this]

theorem addMembers_keeps_members (isPermitted : Bool) (user id : Nat)
    (bodyMembers : Option (List Nat)) (d d1 : Db) (group : Group)
    (hg : findOne (fun g => g._id == id) d.groups = some group)
    (hok : GroupCtl.addMembers isPermitted user id bodyMembers d = .ok d1) :
    ∃ g1, findOne (fun g => g._id == id) d1.groups = some g1 ∧
      ∀ m ∈ group.members, m ∈ g1.members := by
  obtain ⟨group2, newMembers, hg2, _, hgs⟩ := addMembers_groups _ _ _ _ _ _ hok
  rw [hg] at hg2
  cases hg2
  refine ⟨{ group with members := uniq (group.members ++ newMembers) }, ?_, ?_⟩
  · rw [hgs]
    refine findOne_findOneAndUpdate (fun g : Group => g._id == id)
      (fun g => { g with members := uniq (group.members ++ newMembers) }) ?_ _ _ hg
    intro y; rfl
  · intro m hm
    show m ∈ uniq (group.members ++ newMembers)
    rw [mem_uniq]
    exact List.mem_append_left _ hm

/-- C22: the invariant fails in a store reachable through group creation alone.
`createGroup` refuses a request body with `members` but not one with `leader` (the
handler `update` refuses both) and passes the body to the DAL: on the empty store a
create request with `leader: 101` succeeds and saves a group whose leader is 101 and
which has no members. -/
theorem createGroup_keeps_body_leader :
    ∃ db1,
      GroupCtl.createGroup true 9 0
        { name := some "Tana", branch := some 5, no_of_members := some 2,
          total_amount := some 100, leader := some 101 } {} = .ok db1 ∧
      Reachable db1 ∧
      (∃ g ∈ db1.groups, g.leader = some 101 ∧ g.members = []) ∧
      ¬ leaderIsMember db1 := by
  refine ⟨_, rfl,
    Reachable.create {} _ true 9 0
      { name := some "Tana", branch := some 5, no_of_members := some 2,
        total_amount := some 100, leader := some 101 } Reachable.empty rfl,
    ⟨_, List.mem_singleton.2 rfl, rfl, rfl⟩, ?_⟩
  intro h
  have hm := h _ (List.mem_singleton.2 rfl) 101 rfl
  simp [GroupDal.create] at hm

/-! ## Group status after a stage start -/

theorem exists_findOne_update {α : Type} (q : α → Bool) (upd : α → α)
    (hq : ∀ x, q (upd x) = q x) (docs : List α) (x : α) (h : findOne q docs = some x)
    (P : α → Prop) (hP : P (upd x)) :
    ∃ y, findOne q (findOneAndUpdate q upd docs) = some y ∧ P y :=
  ⟨upd x, findOne_findOneAndUpdate q upd hq docs x h, hP⟩

/-- C23 fails as stated: after a successful stage start the group status is not the
in-progress group status of the stage. The new cycle on the paid store leaves `new`, not
`screening_in_progress`; loan initialization on the screened store leaves
`loan_application_new`, not `loan_application_inprogress`; ACAT creation on the store
with the accepted loan leaves `ACAT_New`, not `ACAT_IN_PROGRESS`. -/
theorem stage_start_status_counterexample :
    ((GroupScreeningCtl.createGroupScreening true 7 500 okScreeningService
        { group := some 1, total_amount := 2000 } paidDb).error = none ∧
      (findOne (fun x => x._id == 1)
        (GroupScreeningCtl.createGroupScreening true 7 500 okScreeningService
          { group := some 1, total_amount := 2000 } paidDb).db.groups).map
          (fun x => x.status) ≠ some "screening_in_progress") ∧
    ((GroupLoanCtl.initializeGroupLoan true 7 500 okLoanService 1 screenedDb).error = none ∧
      (findOne (fun x => x._id == 1)
        (GroupLoanCtl.initializeGroupLoan true 7 500 okLoanService 1
          screenedDb).db.groups).map (fun x => x.status) ≠
          some "loan_application_inprogress") ∧
    ((GroupACATCtl.createGroupACAT true 7 500 (some 1) loanDb).error = none ∧
      (findOne (fun x => x._id == 1)
        (GroupACATCtl.createGroupACAT true 7 500 (some 1) loanDb).db.groups).map
          (fun x => x.status) ≠ some "ACAT_IN_PROGRESS") ∧
    (GroupScreeningCtl.statusChecker [⟨101, "new"⟩, ⟨102, "new"⟩]).group =
      "screening_in_progress" ∧
    (GroupLoanCtl.statusChecker [⟨101, "new"⟩, ⟨102, "new"⟩]).group =
      "loan_application_inprogress" ∧
    (GroupACATCtl.statusChecker [⟨101, "new"⟩, ⟨102, "new"⟩]).group = "ACAT_IN_PROGRESS" := by
  have h1 : (findOne (fun x => x._id == 1)
      (GroupScreeningCtl.createGroupScreening true 7 500 okScreeningService
        { group := some 1, total_amount := 2000 } paidDb).db.groups).map
        (fun x => x.status) = some "new" := rfl
  have h2 : (findOne (fun x => x._id == 1)
      (GroupLoanCtl.initializeGroupLoan true 7 500 okLoanService 1
        screenedDb).db.groups).map (fun x => x.status) = some "loan_application_new" := rfl
  have h3 : (findOne (fun x => x._id == 1)
      (GroupACATCtl.createGroupACAT true 7 500 (some 1) loanDb).db.groups).map
        (fun x => x.status) = some "ACAT_New" := rfl
  rw [h1, h2, h3]
  exact ⟨⟨rfl, by decide⟩, ⟨rfl, by decide⟩, ⟨rfl, by decide⟩, rfl, rfl, rfl⟩

/-- C23 (amended): after a successful stage start for the group `g`, the status of
the group is the constant the handler writes: `new` after a new screening cycle is
started, `loan_application_new` after loan initialization and `ACAT_New` after ACAT
creation. -/
theorem stage_start_group_status (isPermitted : Bool) (user now : Nat)
    (createScreening : MemberRecord → Except String MemberRecord)
    (createLoanApplication : Nat → Except String MemberRecord)
    (body : GroupScreeningBody) (g : Nat) (db : Db) :
    ((GroupScreeningCtl.createGroupScreening isPermitted user now createScreening body
        db).error = none → body.group = some g →
      ∃ group, findOne (fun x => x._id == g)
          (GroupScreeningCtl.createGroupScreening isPermitted user now createScreening body
            db).db.groups = some group ∧ group.status = "new") ∧
    ((GroupLoanCtl.initializeGroupLoan isPermitted user now createLoanApplication g
        db).error = none →
      ∃ group, findOne (fun x => x._id == g)
          (GroupLoanCtl.initializeGroupLoan isPermitted user now createLoanApplication g
            db).db.groups = some group ∧ group.status = "loan_application_new") ∧
    ((GroupACATCtl.createGroupACAT isPermitted user now (some g) db).error = none →
      ∃ group, findOne (fun x => x._id == g)
          (GroupACATCtl.createGroupACAT isPermitted user now (some g) db).db.groups =
            some group ∧ group.status = "ACAT_New") := by
  refine ⟨?_, ?_, ?_⟩
  · intro hok hb
    have htry := createGroupScreening_ok isPermitted user now createScreening body db hok
    obtain ⟨g1, group, history, last, newScreenings, hb1, _, hg, _, _, hgroups, _⟩ :=
      createGroupScreeningTry_ok user now createScreening body db _ htry
    rw [hb] at hb1
    cases hb1
    rw [hgroups]
    refine exists_findOne_update _ _ ?_ _ _ hg _ ?_
    · intro y; rfl
    · rfl
  · intro hok
    have htry := initializeGroupLoan_ok isPermitted user now createLoanApplication g db hok
    obtain ⟨group, history, pre, c, post, hg, _, _, _, _, _, _, _, _, hgroups, _⟩ :=
      initializeGroupLoanTry_ok user now createLoanApplication g db _ htry
    rw [hgroups]
    refine exists_findOne_update _ _ ?_ _ _ hg _ ?_
    · intro y; rfl
    · rfl
  · intro hok
    obtain ⟨g1, hg1, htry⟩ := createGroupACAT_ok isPermitted user now (some g) db hok
    cases hg1
    obtain ⟨group, history, pre, c, post, hg, _, _, _, _, _, _, _, _, _, hgroups, _⟩ :=
      createGroupACATTry_ok user now g db _ htry
    rw [hgroups]
    refine exists_findOne_update _ _ ?_ _ _ hg _ ?_
    · intro y; rfl
    · rfl

/-- Witness for C23 (amended): loan initialization on the screened store. -/
theorem stage_start_group_status_witness :
    ∃ group, findOne (fun x => x._id == 1)
        (GroupLoanCtl.initializeGroupLoan true 7 500 okLoanService 1 screenedDb).db.groups =
          some group ∧ group.status = "loan_application_new" :=
  (stage_start_group_status true 7 500 okScreeningService okLoanService
    { group := some 1, total_amount := 2000 } 1 screenedDb).2.1 rfl

/-! ## Order of the stages within a cycle -/

/-- C25: whenever loan initialization for the group `g` succeeds, the active cycle
record of its ledger (the first record of the current cycle number) has a screening
reference and no GroupScreening of the group is `new`, `screening_inprogress` or
`submitted`; whenever ACAT creation succeeds, the active cycle record has a screening
and a loan reference and no GroupLoan of the group is `new`, `submitted` or
`inprogress`. -/
theorem stage_attached_after_previous_resolved (isPermitted : Bool) (user now : Nat)
    (createLoanApplication : Nat → Except String MemberRecord) (g : Nat) (db : Db) :
    ((GroupLoanCtl.initializeGroupLoan isPermitted user now createLoanApplication g
        db).error = none →
      ∃ history pre c post,
        findOne (fun x => x.group == g) db.groupHistories = some history ∧
        history.cycles = pre ++ c :: post ∧
        (∀ x ∈ pre, x.cycle_number ≠ history.cycle_number) ∧
        c.cycle_number = history.cycle_number ∧
        c.screening ≠ none ∧
        ∀ s ∈ db.groupScreenings, s.group = g →
          s.status ∉ ["new", "screening_inprogress", "submitted"]) ∧
    ((GroupACATCtl.createGroupACAT isPermitted user now (some g) db).error = none →
      ∃ history pre c post,
        findOne (fun x => x.group == g) db.groupHistories = some history ∧
        history.cycles = pre ++ c :: post ∧
        (∀ x ∈ pre, x.cycle_number ≠ history.cycle_number) ∧
        c.cycle_number = history.cycle_number ∧
        c.screening ≠ none ∧ c.loan ≠ none ∧
        ∀ l ∈ db.groupLoans, l.group = g → l.status ∉ ["new", "submitted", "inprogress"]) := by
  constructor
  · intro hok
    have htry := initializeGroupLoan_ok isPermitted user now createLoanApplication g db hok
    obtain ⟨group, history, pre, c, post, _, _, ⟨r, hv⟩, hh, hcy, hpre, hc, hs, _⟩ :=
      initializeGroupLoanTry_ok user now createLoanApplication g db _ htry
    refine ⟨history, pre, c, post, hh, hcy, hpre, hc, ?_, ?_⟩
    · intro hn; rw [hn] at hs; cases hs
    · intro s hs1 hsg hmem
      have hopen := (loan_gate_ok db g r hv).1 s hs1 hsg
      rw [(screeningOpen_iff s.status).2 hmem] at hopen
      cases hopen
  · intro hok
    obtain ⟨g1, hg1, htry⟩ := createGroupACAT_ok isPermitted user now (some g) db hok
    cases hg1
    obtain ⟨group, history, pre, c, post, _, _, ⟨r, hv⟩, hh, hcy, hpre, hc, hs, hl, _⟩ :=
      createGroupACATTry_ok user now g db _ htry
    refine ⟨history, pre, c, post, hh, hcy, hpre, hc, ?_, ?_, ?_⟩
    · intro hn; rw [hn] at hs; cases hs
    · intro hn; rw [hn] at hl; cases hl
    · intro l hl1 hlg hmem
      have hopen := (acat_gate_ok db g r hv).2.1 l hl1 hlg
      rw [(loanOpen_iff l.status).2 hmem] at hopen
      cases hopen

/-- Witness for C25: ACAT creation on the store with the accepted loan. -/
theorem stage_attached_after_previous_resolved_witness :
    ∃ history pre c post,
      findOne (fun x => x.group == 1) loanDb.groupHistories = some history ∧
      history.cycles = pre ++ c :: post ∧
      (∀ x ∈ pre, x.cycle_number ≠ history.cycle_number) ∧
      c.cycle_number = history.cycle_number ∧
      c.screening ≠ none ∧ c.loan ≠ none ∧
      ∀ l ∈ loanDb.groupLoans, l.group = 1 → l.status ∉ ["new", "submitted", "inprogress"] :=
  (stage_attached_after_previous_resolved true 7 500 okLoanService 1 loanDb).2 rfl

/-! ## The ACAT gate without a loan -/

theorem findOneSortDesc_none {α : Type} (date : α → Nat) (q : α → Bool) (docs : List α)
    (h : ∀ x ∈ docs, q x = false) : findOneSortDesc date q docs = none := by
  unfold findOneSortDesc
  have : docs.filter q = [] := by
    rw [List.filter_eq_nil_iff]
    intro x hx
    simp [h x hx]
  rw [this]
  rfl

/-- C30: the ACAT gate never succeeds for a group without a GroupLoan; when the group
has at least one GroupScreening, all in terminal statuses, the gate fails with the
TypeError of reading `status` of the absent most recent loan, and ACAT creation fails
and leaves the whole store as it was: no GroupACAT is created and no group or ledger is
changed. -/
theorem acat_gate_fails_without_loan (isPermitted : Bool) (user now g : Nat) (db : Db)
    (hl : ∀ l ∈ db.groupLoans, l.group ≠ g) :
    (∀ r, GroupACATCtl.validateGroupCycle db g ≠ .ok r) ∧
    ((∃ s ∈ db.groupScreenings, s.group = g) →
      (∀ s ∈ db.groupScreenings, s.group = g →
        s.status ∉ ["new", "screening_inprogress", "submitted"]) →
      GroupACATCtl.validateGroupCycle db g = .error (nullPropertyMessage "status")) ∧
    (GroupACATCtl.createGroupACAT isPermitted user now (some g) db).error ≠ none ∧
    (GroupACATCtl.createGroupACAT isPermitted user now (some g) db).db = db := by
  have hnone : findOneSortDesc (fun d => d.date_created) (fun d => d.group == g)
      db.groupLoans = none :=
    findOneSortDesc_none _ _ _ (fun x hx => by simpa using hl x hx)
  have hgate : ∀ r, GroupACATCtl.validateGroupCycle db g ≠ .ok r := by
    intro r hr
    obtain ⟨_, _, _, ⟨loan, hloan, _⟩, _⟩ := acat_gate_ok db g r hr
    rw [hnone] at hloan
    cases hloan
  have hfilter : db.groupLoans.filter (fun d => d.group == g) = [] := by
    rw [List.filter_eq_nil_iff]
    intro x hx
    simpa using hl x hx
  refine ⟨hgate, ?_, ?_⟩
  · rintro ⟨s, hs, hsg⟩ hterm
    have hlen : (db.groupScreenings.filter (fun d => d.group == g)).length ≠ 0 := by
      intro h0
      have hmem : s ∈ db.groupScreenings.filter (fun d => d.group == g) := by
        simp [List.mem_filter, hs, hsg]
      rw [List.length_eq_zero.1 h0] at hmem
      cases hmem
    have hany : (db.groupScreenings.filter (fun d => d.group == g)).any
        (fun screening => screeningOpen screening.status) = false := by
      rw [List.any_eq_false]
      intro x hx
      rw [List.mem_filter] at hx
      have hxg : x.group = g := by simpa using hx.2
      have := hterm x hx.1 hxg
      rw [← screeningOpen_iff] at this
      exact this
    simp [GroupACATCtl.validateGroupCycle, hlen, hany, hfilter, hnone]
  · obtain ⟨m, hm⟩ := except_error_of_not_ok _ hgate
    obtain ⟨m1, hm1⟩ := createGroupACATTry_gate_error user now g db m hm
    cases isPermitted
    · simp [GroupACATCtl.createGroupACAT]
    · simp [GroupACATCtl.createGroupACAT, hm1]

/-- Witness for C30: ACAT creation on the screened store, which has no loan. -/
theorem acat_gate_fails_without_loan_witness :
    GroupACATCtl.validateGroupCycle screenedDb 1 = .error (nullPropertyMessage "status") ∧
    (GroupACATCtl.createGroupACAT true 7 500 (some 1) screenedDb).db = screenedDb :=
  ⟨(acat_gate_fails_without_loan true 7 500 1 screenedDb (by simp [screenedDb])).2.1
      ⟨approvedScreening, by simp [screenedDb], rfl⟩ (by decide),
   (acat_gate_fails_without_loan true 7 500 1 screenedDb (by simp [screenedDb])).2.2.2⟩

/-! ## The ledger mirrors the group -/

theorem forall₂_findOneAndUpdate {α : Type} (R : α → α → Prop) (q : α → Bool)
    (upd : α → α) (hrefl : ∀ a, R a a) :
    ∀ docs : List α, (∀ a, findOne q docs = some a → R a (upd a)) →
      List.Forall₂ R docs (findOneAndUpdate q upd docs)
  | [], _ => List.Forall₂.nil
  | d :: ds, h => by
    by_cases hd : q d = true
    · simp only [findOneAndUpdate, hd, if_true]
      exact List.Forall₂.cons (h d (by simp [findOne, List.find?, hd]))
        (List.forall₂_same.2 (fun a _ => hrefl a))
    · have hd' : q d = false := by simpa using hd
      simp only [findOneAndUpdate, hd', Bool.false_eq_true, if_false]
      refine List.Forall₂.cons (hrefl d) (forall₂_findOneAndUpdate R q upd hrefl ds ?_)
      intro a ha
      exact h a (by simpa [findOne, List.find?, hd'] using ha)

theorem findOne_rel {α : Type} (R : α → α → Prop) (q : α → Bool)
    (hR : ∀ a b, R a b → q b = q a) {l l1 : List α} (h : List.Forall₂ R l l1) :
    optRel R (findOne q l) (findOne q l1) := by
  induction h with
  | nil => exact Or.inl ⟨rfl, rfl⟩
  | @cons a b l l1 hab _ ih =>
    by_cases ha : q a = true
    · have hb : q b = true := by rw [hR a b hab]; exact ha
      exact Or.inr ⟨a, b, by simp [findOne, List.find?, ha], by simp [findOne, List.find?, hb],
        hab⟩
    · have ha' : q a = false := by simpa using ha
      have hb : q b = false := by rw [hR a b hab]; exact ha'
      simpa [findOne, List.find?, ha', hb] using ih

theorem forall₂_trans {α : Type} (R S T : α → α → Prop)
    (h : ∀ x y z, R x y → S y z → T x z) {a b : List α} (hab : List.Forall₂ R a b) :
    ∀ {c : List α}, List.Forall₂ S b c → List.Forall₂ T a c := by
  induction hab with
  | nil => intro c hbc; cases hbc; exact List.Forall₂.nil
  | cons hxy _ ih =>
    intro c hbc
    cases hbc with
    | cons hyz hrest => exact List.Forall₂.cons (h _ _ _ hxy hyz) (ih hrest)

theorem sameCycles_refl (db : Db) : sameCycles db db :=
  ⟨List.forall₂_same.2 (fun _ _ => ⟨rfl, rfl⟩),
   List.forall₂_same.2 (fun _ _ => ⟨rfl, rfl, rfl, rfl⟩)⟩

theorem sameCycles_trans {a b c : Db} (h1 : sameCycles a b) (h2 : sameCycles b c) :
    sameCycles a c := by
  refine ⟨forall₂_trans _ _ _ ?_ h1.1 h2.1, forall₂_trans _ _ _ ?_ h1.2 h2.2⟩
  · intro x y z hxy hyz
    exact ⟨hyz.1.trans hxy.1, hyz.2.trans hxy.2⟩
  · intro x y z hxy hyz
    exact ⟨hyz.1.trans hxy.1, hyz.2.1.trans hxy.2.1, hyz.2.2.1.trans hxy.2.2.1,
      hyz.2.2.2.trans hxy.2.2.2⟩

theorem sameCycles_of_eq (db db1 : Db) (hg : db1.groups = db.groups)
    (hh : db1.groupHistories = db.groupHistories) : sameCycles db db1 := by
  unfold sameCycles
  rw [hg, hh]
  exact sameCycles_refl db

/-- A store obtained by one group update that keeps the id and the cycle number of
the group, the ledgers being the same. -/
theorem sameCycles_of_group_update (db db1 : Db) (id : Nat) (upd : Group → Group)
    (hupd : ∀ a, (upd a)._id = a._id ∧ (upd a).loan_cycle_number = a.loan_cycle_number)
    (hg : db1.groups = findOneAndUpdate (fun g => g._id == id) upd db.groups)
    (hh : db1.groupHistories = db.groupHistories) : sameCycles db db1 := by
  unfold sameCycles
  rw [hg, hh]
  exact ⟨forall₂_findOneAndUpdate _ _ _ (fun _ => ⟨rfl, rfl⟩) _ (fun a _ => hupd a),
    List.forall₂_same.2 (fun _ _ => ⟨rfl, rfl, rfl, rfl⟩)⟩

theorem sameCycles_of_status_update (db db1 : Db) (id : Nat) (s : String)
    (hg : db1.groups =
      findOneAndUpdate (fun g => g._id == id) (fun g => { g with status := s }) db.groups)
    (hh : db1.groupHistories = db.groupHistories) : sameCycles db db1 :=
  sameCycles_of_group_update db db1 id (fun g => { g with status := s })
    (fun _ => ⟨rfl, rfl⟩) hg hh

theorem ledgerMirrorsGroup_of_sameCycles (db db1 : Db) (g : Nat) (h : sameCycles db db1)
    (hm : ledgerMirrorsGroup db g) : ledgerMirrorsGroup db1 g := by
  obtain ⟨group, history, hg, hh, hn, hc⟩ := hm
  have h1 := findOne_rel _ (fun x : Group => x._id == g)
    (fun a b hab => by simp [hab.1]) h.1
  have h2 := findOne_rel _ (fun x : GroupHistory => x.group == g)
    (fun a b hab => by simp [hab.2.1]) h.2
  rw [hg] at h1
  rw [hh] at h2
  rcases h1 with ⟨h1, _⟩ | ⟨x, y, hx, hy, hxy⟩
  · cases h1
  rcases h2 with ⟨h2, _⟩ | ⟨x2, y2, hx2, hy2, hxy2⟩
  · cases h2
  cases hx
  cases hx2
  refine ⟨y, y2, hy, hy2, ?_, ?_⟩
  · rw [hxy2.2.2.1, hxy.2, hn]
  · rw [hxy2.2.2.2, hxy2.2.2.1, hc]

theorem history_ids_of_sameCycles (db db1 : Db) (h : sameCycles db db1) :
    db1.groupHistories.map (fun x => x._id) = db.groupHistories.map (fun x => x._id) := by
  have := h.2
  generalize db.groupHistories = l at this
  generalize db1.groupHistories = l1 at this
  induction this with
  | nil => rfl
  | cons hab _ ih => simp [hab.1, ih]

theorem submitGroupScreenings_sameCycles (isPermitted : Bool) (user id : Nat) (db : Db) :
    sameCycles db
      (storeAfter db (GroupScreeningCtl.submitGroupScreenings isPermitted user id db)) := by
  unfold GroupScreeningCtl.submitGroupScreenings
  split_ifs
  · exact sameCycles_refl db
  · split
    · exact sameCycles_refl db
    · split
      · exact sameCycles_refl db
      · simp only []
        split_ifs <;>
          first
          | exact sameCycles_refl db
          | exact sameCycles_of_status_update _ _ _ _ rfl rfl

theorem approveGroupScreenings_sameCycles (isPermitted : Bool) (user id : Nat) (db : Db) :
    sameCycles db (storeAfter db (GroupScreeningCtl.approveGroupScreenings isPermitted user id db)) := by
  unfold GroupScreeningCtl.approveGroupScreenings
  split_ifs
  · exact sameCycles_refl db
  · split
    · exact sameCycles_refl db
    · split
      · exact sameCycles_refl db
      · simp only []
        split_ifs <;>
          first
          | exact sameCycles_refl db
          | exact sameCycles_of_status_update _ _ _ _ rfl rfl

theorem updateGroupScreeningStatus_sameCycles (isPermitted : Bool) (user id : Nat) (db : Db) :
    sameCycles db (storeAfter db (GroupScreeningCtl.updateGroupScreeningStatus isPermitted user id db)) := by
  unfold GroupScreeningCtl.updateGroupScreeningStatus
  split_ifs
  · exact sameCycles_refl db
  · split
    · exact sameCycles_refl db
    · split
      · exact sameCycles_refl db
      · simp only []
        split_ifs <;>
          first
          | exact sameCycles_refl db
          | exact sameCycles_of_status_update _ _ _ _ rfl rfl

theorem submitGroupLoans_sameCycles (isPermitted : Bool) (user id : Nat) (db : Db) :
    sameCycles db (storeAfter db (GroupLoanCtl.submitGroupLoans isPermitted user id db)) := by
  unfold GroupLoanCtl.submitGroupLoans
  split_ifs
  · exact sameCycles_refl db
  · split
    · exact sameCycles_refl db
    · split
      · exact sameCycles_refl db
      · simp only []
        split_ifs <;>
          first
          | exact sameCycles_refl db
          | exact sameCycles_of_status_update _ _ _ _ rfl rfl

theorem approveGroupLoans_sameCycles (isPermitted : Bool) (user id : Nat) (db : Db) :
    sameCycles db (storeAfter db (GroupLoanCtl.approveGroupLoans isPermitted user id db)) := by
  unfold GroupLoanCtl.approveGroupLoans
  split_ifs
  · exact sameCycles_refl db
  · split
    · exact sameCycles_refl db
    · split
      · exact sameCycles_refl db
      · simp only []
        split_ifs <;>
          first
          | exact sameCycles_refl db
          | exact sameCycles_of_status_update _ _ _ _ rfl rfl

theorem updateGroupLoanStatus_sameCycles (isPermitted : Bool) (user id : Nat) (db : Db) :
    sameCycles db (storeAfter db (GroupLoanCtl.updateGroupLoanStatus isPermitted user id db)) := by
  unfold GroupLoanCtl.updateGroupLoanStatus
  split_ifs
  · exact sameCycles_refl db
  · split
    · exact sameCycles_refl db
    · split
      · exact sameCycles_refl db
      · simp only []
        split_ifs <;>
          first
          | exact sameCycles_refl db
          | exact sameCycles_of_status_update _ _ _ _ rfl rfl

theorem submitGroupACATs_sameCycles (isPermitted : Bool) (user id : Nat) (db : Db) :
    sameCycles db (storeAfter db (GroupACATCtl.submitGroupACATs isPermitted user id db)) := by
  unfold GroupACATCtl.submitGroupACATs
  split_ifs
  · exact sameCycles_refl db
  · split
    · exact sameCycles_refl db
    · split
      · exact sameCycles_refl db
      · simp only []
        split_ifs <;>
          first
          | exact sameCycles_refl db
          | exact sameCycles_of_status_update _ _ _ _ rfl rfl

theorem approveGroupACATs_sameCycles (isPermitted : Bool) (user id : Nat) (db : Db) :
    sameCycles db (storeAfter db (GroupACATCtl.approveGroupACATs isPermitted user id db)) := by
  unfold GroupACATCtl.approveGroupACATs
  split_ifs
  · exact sameCycles_refl db
  · split
    · exact sameCycles_refl db
    · split
      · exact sameCycles_refl db
      · simp only []
        split_ifs <;>
          first
          | exact sameCycles_refl db
          | exact sameCycles_of_status_update _ _ _ _ rfl rfl

theorem updateGroupACATStatus_sameCycles (isPermitted : Bool) (user id : Nat) (db : Db) :
    sameCycles db (storeAfter db (GroupACATCtl.updateGroupACATStatus isPermitted user id db)) := by
  unfold GroupACATCtl.updateGroupACATStatus
  split_ifs
  · exact sameCycles_refl db
  · split
    · exact sameCycles_refl db
    · split
      · exact sameCycles_refl db
      · simp only []
        split_ifs <;>
          first
          | exact sameCycles_refl db
          | exact sameCycles_of_status_update _ _ _ _ rfl rfl
theorem map_findOneAndUpdate_of_eq {α β : Type} (f : α → β) (q : α → Bool) (upd : α → α)
    (h : ∀ a, f (upd a) = f a) :
    ∀ docs : List α, (findOneAndUpdate q upd docs).map f = docs.map f
  | [] => rfl
  | d :: ds => by
    by_cases hd : q d = true
    · simp [findOneAndUpdate, hd, h]
    · have hd' : q d = false := by simpa using hd
      simp [findOneAndUpdate, hd', map_findOneAndUpdate_of_eq f q upd h ds]

theorem sameCycles_updateWith (db : Db) (id : Nat) (upd : Group → Group)
    (hupd : ∀ a, (upd a)._id = a._id ∧ (upd a).loan_cycle_number = a.loan_cycle_number) :
    sameCycles db (GroupDal.updateWith db id upd) :=
  sameCycles_of_group_update db _ id upd hupd rfl rfl

theorem sameCycles_recordCycleAmount (db : Db) (g n : Nat) (u : CycleRecord → CycleRecord)
    (hu : ∀ c, (u c).cycle_number = c.cycle_number) :
    sameCycles db (recordCycleAmount db g n u) := by
  refine ⟨List.forall₂_same.2 (fun _ _ => ⟨rfl, rfl⟩), ?_⟩
  unfold recordCycleAmount
  refine forall₂_findOneAndUpdate _ _ _ (fun _ => ⟨rfl, rfl, rfl, rfl⟩) _ ?_
  intro a _
  exact ⟨rfl, rfl, rfl, map_findOneAndUpdate_of_eq _ _ _ hu _⟩

theorem sameCycles_clients_foldl (s : String) (members : List Nat) (db : Db) :
    sameCycles db (members.foldl (fun d member => ClientDal.update d member s) db) :=
  sameCycles_of_eq _ _ (clients_foldl_frame s members db).1 (clients_foldl_frame s members db).2

theorem updateGroupStatus_sameCycles (isPermitted : Bool) (id : Nat)
    (bodyStatus : Option String) (db : Db) :
    sameCycles db (storeAfter db (GroupCtl.updateGroupStatus isPermitted id bodyStatus db)) := by
  unfold GroupCtl.updateGroupStatus
  simp only []
  repeat' split
  all_goals
    first
    | exact sameCycles_refl db
    | (refine sameCycles_trans (sameCycles_updateWith db _ _ ?_)
        (sameCycles_trans (sameCycles_clients_foldl _ _ _)
          (sameCycles_recordCycleAmount _ _ _ _ ?_)) <;> intro a <;>
        first | rfl | exact ⟨rfl, rfl⟩)
    | (refine sameCycles_trans (sameCycles_updateWith db _ _ ?_)
        (sameCycles_recordCycleAmount _ _ _ _ ?_) <;> intro a <;>
        first | rfl | exact ⟨rfl, rfl⟩)
theorem createLoanApplications_groups (svc : Nat → Except String MemberRecord)
    (members : List Nat) (db : Db) (acc : List MemberRecord) :
    (GroupLoanCtl.createLoanApplications svc members db acc).1.groups = db.groups ∧
    (GroupLoanCtl.createLoanApplications svc members db acc).1.groupHistories =
      db.groupHistories := by
  rw [createLoanApplications_frame svc members db acc]
  exact ⟨rfl, rfl⟩

theorem createScreenings_groups (svc : MemberRecord → Except String MemberRecord)
    (lasts : List MemberRecord) (db : Db) (acc : List MemberRecord) :
    (GroupScreeningCtl.createScreenings svc lasts db acc).1.groups = db.groups ∧
    (GroupScreeningCtl.createScreenings svc lasts db acc).1.groupHistories =
      db.groupHistories := by
  rw [createScreenings_frame svc lasts db acc]
  exact ⟨rfl, rfl⟩

theorem initializeGroupLoanTry_fail (user now : Nat)
    (svc : Nat → Except String MemberRecord) (g : Nat) (db : Db) :
    (GroupLoanCtl.initializeGroupLoanTry user now svc g db).2 ≠ none →
    (GroupLoanCtl.initializeGroupLoanTry user now svc g db).1.groupHistories =
      db.groupHistories ∧
    ((GroupLoanCtl.initializeGroupLoanTry user now svc g db).1.groups = db.groups ∨
     (GroupLoanCtl.initializeGroupLoanTry user now svc g db).1.groups =
      findOneAndUpdate (fun x => x._id == g)
        (fun x => { x with status := "loan_application_new" }) db.groups) := by
  unfold GroupLoanCtl.initializeGroupLoanTry
  simp only []
  repeat' split
  all_goals
    first
    | (intro _; exact ⟨rfl, Or.inl rfl⟩)
    | (intro h; exact absurd rfl h)
    | (rename_i heq
       have h1 := congrArg Prod.fst heq
       simp only at h1
       subst h1
       intro _
       exact ⟨(createLoanApplications_groups _ _ _ _).2,
         Or.inr (createLoanApplications_groups _ _ _ _).1⟩)
    | (rename_i heq _ _
       have h1 := congrArg Prod.fst heq
       simp only at h1
       subst h1
       intro _
       exact ⟨(createLoanApplications_groups _ _ _ _).2,
         Or.inr (createLoanApplications_groups _ _ _ _).1⟩)
theorem createGroupACATTry_fail (user now g : Nat) (db : Db) :
    (GroupACATCtl.createGroupACATTry user now g db).2 ≠ none →
    (GroupACATCtl.createGroupACATTry user now g db).1.groupHistories = db.groupHistories ∧
    ((GroupACATCtl.createGroupACATTry user now g db).1.groups = db.groups ∨
     (GroupACATCtl.createGroupACATTry user now g db).1.groups =
      findOneAndUpdate (fun x => x._id == g)
        (fun x => { x with status := "ACAT_New" }) db.groups) := by
  unfold GroupACATCtl.createGroupACATTry
  simp only []
  repeat' split
  all_goals
    first
    | (intro _; exact ⟨rfl, Or.inl rfl⟩)
    | (intro _; exact ⟨rfl, Or.inr rfl⟩)
    | (intro h; exact absurd rfl h)

theorem createGroupScreeningTry_fail (user now : Nat)
    (svc : MemberRecord → Except String MemberRecord) (body : GroupScreeningBody) (db : Db) :
    (GroupScreeningCtl.createGroupScreeningTry user now svc body db).2 ≠ none →
    (GroupScreeningCtl.createGroupScreeningTry user now svc body db).1.groupHistories =
      db.groupHistories ∧
    (GroupScreeningCtl.createGroupScreeningTry user now svc body db).1.groups = db.groups := by
  unfold GroupScreeningCtl.createGroupScreeningTry
  simp only []
  repeat' split
  all_goals
    first
    | (intro _; exact ⟨rfl, rfl⟩)
    | (intro h; exact absurd rfl h)
    | (rename_i heq
       have h1 := congrArg Prod.fst heq
       simp only at h1
       subst h1
       intro _
       exact ⟨(createScreenings_groups _ _ _ _).2, (createScreenings_groups _ _ _ _).1⟩)
theorem initializeGroupLoan_sameCycles (isPermitted : Bool) (user now : Nat)
    (svc : Nat → Except String MemberRecord) (g : Nat) (db : Db)
    (hnd : (db.groupHistories.map (fun x => x._id)).Nodup) :
    sameCycles db (GroupLoanCtl.initializeGroupLoan isPermitted user now svc g db).db := by
  cases herr : (GroupLoanCtl.initializeGroupLoan isPermitted user now svc g db).error with
  | none =>
    have htry := initializeGroupLoan_ok isPermitted user now svc g db herr
    obtain ⟨group, history, pre, c, post, hg, _, _, hh, hcy, _, _, _, _, hgroups, hhist, _⟩ :=
      initializeGroupLoanTry_ok user now svc g db _ htry
    have hid : findOne (fun x => x._id == history._id) db.groupHistories = some history :=
      findOne_of_nodup (fun x : GroupHistory => x._id) _ _ hnd (findOne_mem _ _ _ hh)
    refine ⟨?_, ?_⟩
    · rw [hgroups]
      exact forall₂_findOneAndUpdate _ _ _ (fun _ => ⟨rfl, rfl⟩) _ (fun a _ => ⟨rfl, rfl⟩)
    · rw [hhist]
      refine forall₂_findOneAndUpdate _ _ _ (fun _ => ⟨rfl, rfl, rfl, rfl⟩) _ ?_
      intro a ha
      rw [hid] at ha
      cases ha
      refine ⟨rfl, rfl, rfl, ?_⟩
      simp [hcy]
  | some e =>
    unfold GroupLoanCtl.initializeGroupLoan at herr ⊢
    cases isPermitted
    · exact sameCycles_refl db
    · have hfail := initializeGroupLoanTry_fail user now svc g db
      generalize GroupLoanCtl.initializeGroupLoanTry user now svc g db = res at herr hfail ⊢
      obtain ⟨db1, o⟩ := res
      cases o with
      | none => simp at herr
      | some m =>
        obtain ⟨hh, hg | hg⟩ := hfail (by simp)
        · exact sameCycles_of_eq _ _ hg hh
        · exact sameCycles_of_status_update _ _ _ _ hg hh

theorem createGroupACAT_sameCycles (isPermitted : Bool) (user now : Nat)
    (bodyGroup : Option Nat) (db : Db)
    (hnd : (db.groupHistories.map (fun x => x._id)).Nodup) :
    sameCycles db (GroupACATCtl.createGroupACAT isPermitted user now bodyGroup db).db := by
  cases herr : (GroupACATCtl.createGroupACAT isPermitted user now bodyGroup db).error with
  | none =>
    obtain ⟨g, hbg, htry⟩ := createGroupACAT_ok isPermitted user now bodyGroup db herr
    obtain ⟨group, history, pre, c, post, hg, _, _, hh, hcy, _, _, _, _, _, hgroups, hhist, _⟩ :=
      createGroupACATTry_ok user now g db _ htry
    have hid : findOne (fun x => x._id == history._id) db.groupHistories = some history :=
      findOne_of_nodup (fun x : GroupHistory => x._id) _ _ hnd (findOne_mem _ _ _ hh)
    refine ⟨?_, ?_⟩
    · rw [hgroups]
      exact forall₂_findOneAndUpdate _ _ _ (fun _ => ⟨rfl, rfl⟩) _ (fun a _ => ⟨rfl, rfl⟩)
    · rw [hhist]
      refine forall₂_findOneAndUpdate _ _ _ (fun _ => ⟨rfl, rfl, rfl, rfl⟩) _ ?_
      intro a ha
      rw [hid] at ha
      cases ha
      refine ⟨rfl, rfl, rfl, ?_⟩
      simp [hcy]
  | some e =>
    unfold GroupACATCtl.createGroupACAT at herr ⊢
    cases isPermitted
    · exact sameCycles_refl db
    · cases bodyGroup with
      | none => exact sameCycles_refl db
      | some g =>
        have hfail := createGroupACATTry_fail user now g db
        simp only [Bool.not_true, Bool.false_eq_true, if_false] at herr ⊢
        generalize GroupACATCtl.createGroupACATTry user now g db = res at herr hfail ⊢
        obtain ⟨db1, o⟩ := res
        cases o with
        | none => simp at herr
        | some m =>
          obtain ⟨hh, hg | hg⟩ := hfail (by simp)
          · exact sameCycles_of_eq _ _ hg hh
          · exact sameCycles_of_status_update _ _ _ _ hg hh
theorem findOne_update_other_of_first {α : Type} (q q1 : α → Bool) (upd : α → α)
    (hq : ∀ y, q (upd y) = q y) :
    ∀ docs : List α, (∀ a, findOne q1 docs = some a → q a = false) →
      findOne q (findOneAndUpdate q1 upd docs) = findOne q docs
  | [], _ => rfl
  | d :: ds, h => by
    by_cases hd1 : q1 d = true
    · have hqd : q d = false := h d (by simp [findOne, List.find?, hd1])
      simp [findOne, findOneAndUpdate, hd1, hq, hqd, List.find?]
    · have hd1' : q1 d = false := by simpa using hd1
      have ih := findOne_update_other_of_first q q1 upd hq ds
        (fun a ha => h a (by simpa [findOne, List.find?, hd1'] using ha))
      by_cases hqd : q d = true
      · simp [findOne, findOneAndUpdate, hd1', hqd, List.find?]
      · have hqd' : q d = false := by simpa using hqd
        simpa [findOne, findOneAndUpdate, hd1', hqd', List.find?] using ih

/-- A new-cycle start keeps the ledger of every group in step with the group, and
keeps the ids of the ledgers. -/
theorem createGroupScreening_ledger (isPermitted : Bool) (user now : Nat)
    (svc : MemberRecord → Except String MemberRecord) (body : GroupScreeningBody)
    (db : Db) (g : Nat)
    (hnd : (db.groupHistories.map (fun x => x._id)).Nodup)
    (hm : ledgerMirrorsGroup db g) :
    ledgerMirrorsGroup
      (GroupScreeningCtl.createGroupScreening isPermitted user now svc body db).db g ∧
    (GroupScreeningCtl.createGroupScreening isPermitted user now svc body
      db).db.groupHistories.map (fun x => x._id) = db.groupHistories.map (fun x => x._id) := by
  cases herr : (GroupScreeningCtl.createGroupScreening isPermitted user now svc body
      db).error with
  | none =>
    have htry := createGroupScreening_ok isPermitted user now svc body db herr
    obtain ⟨g1, group, history, last, newScreenings, hb, _, hg, _, hh, hgroups, hhist, _⟩ :=
      createGroupScreeningTry_ok user now svc body db _ htry
    have hid : findOne (fun x => x._id == history._id) db.groupHistories = some history :=
      findOne_of_nodup (fun x : GroupHistory => x._id) _ _ hnd (findOne_mem _ _ _ hh)
    have hhg : history.group = g1 := by simpa using findOne_sat _ _ _ hh
    constructor
    · obtain ⟨grp, hist, hgrp, hhist0, hn, hc⟩ := hm
      by_cases hgg : g = g1
      · subst hgg
        rw [hg] at hgrp
        rw [hh] at hhist0
        cases hgrp
        cases hhist0
        rw [ledgerMirrorsGroup, hgroups, hhist]
        refine ⟨_, _, findOne_findOneAndUpdate (fun x : Group => x._id == g) _ ?_ _ _ hg,
          findOne_update_same (fun x : GroupHistory => x.group == g) _ _ ?_ _ _ hh hid,
          ?_, ?_⟩
        · intro y; rfl
        · intro y; rfl
        · show history.cycle_number + 1 = group.loan_cycle_number + 1
          rw [hn]
        · show (history.cycles ++ _).map (fun c => c.cycle_number) =
            List.range' 1 (history.cycle_number + 1)
          rw [List.map_append, hc, List.range'_1_concat]
          simp [Nat.add_comm]
      · refine ⟨grp, hist, ?_, ?_, hn, hc⟩
        · rw [hgroups, ← hgrp]
          refine findOne_update_other (fun x : Group => x._id == g) _ _ ?_ ?_ _
          · intro y; rfl
          · intro y hy
            have : y._id = g1 := by simpa using hy
            simp [this, Ne.symm hgg]
        · rw [hhist, ← hhist0]
          refine findOne_update_other_of_first (fun x : GroupHistory => x.group == g) _ _ ?_ _ ?_
          · intro y; rfl
          · intro a ha
            rw [hid] at ha
            cases ha
            simp [hhg, Ne.symm hgg]
    · rw [hhist]
      refine map_findOneAndUpdate_of_eq _ _ _ ?_ _
      intro y; rfl
  | some e =>
    have hsame : sameCycles db
        (GroupScreeningCtl.createGroupScreening isPermitted user now svc body db).db := by
      unfold GroupScreeningCtl.createGroupScreening at herr ⊢
      cases isPermitted
      · exact sameCycles_refl db
      · have hfail := createGroupScreeningTry_fail user now svc body db
        generalize GroupScreeningCtl.createGroupScreeningTry user now svc body db = res
          at herr hfail ⊢
        obtain ⟨db1, o⟩ := res
        cases o with
        | none => simp at herr
        | some m =>
          obtain ⟨hh, hg⟩ := hfail (by simp)
          exact sameCycles_of_eq _ _ hg hh
    exact ⟨ledgerMirrorsGroup_of_sameCycles _ _ g hsame hm,
      history_ids_of_sameCycles _ _ hsame⟩
theorem findOne_append_of_some {α : Type} (q : α → Bool) (l m : List α) (x : α)
    (h : findOne q l = some x) : findOne q (l ++ m) = some x := by
  unfold findOne at h ⊢
  rw [List.find?_append, h]
  rfl

theorem findOne_append_of_none {α : Type} (q : α → Bool) (l : List α) (x : α)
    (h : ∀ y ∈ l, q y = false) (hx : q x = true) : findOne q (l ++ [x]) = some x := by
  unfold findOne
  rw [List.find?_append]
  have : l.find? q = none := by
    rw [List.find?_eq_none]
    intro y hy
    simp [h y hy]
  rw [this]
  simp [List.find?, hx]

theorem freshId_ne_of_mem (ids : List Nat) (x : Nat) (h : x ∈ ids) : x ≠ freshId ids := by
  intro hx
  exact freshId_not_mem ids (hx ▸ h)

/-- What `createGroup` saves: the group with cycle number 1 and its ledger with cycle
number 1 and one cycle record, started and last edited by the creator. -/
theorem createGroup_effect (isPermitted : Bool) (user now : Nat) (body : GroupBody)
    (db db1 : Db) (h : GroupCtl.createGroup isPermitted user now body db = .ok db1) :
    ∃ group history c,
      db1.groups = db.groups ++ [group] ∧
      db1.groupHistories = db.groupHistories ++ [history] ∧
      group._id = freshId (db.groups.map (fun g => g._id)) ∧
      history._id = freshId (db.groupHistories.map (fun x => x._id)) ∧
      group.loan_cycle_number = 1 ∧ history.group = group._id ∧
      history.cycle_number = 1 ∧ history.cycles = [c] ∧ c.cycle_number = 1 ∧
      c.started_by = some user ∧ c.last_edit_by = some user := by
  unfold GroupCtl.createGroup at h
  split_ifs at h
  simp only [Except.ok.injEq] at h
  subst h
  exact ⟨_, _, _, rfl, rfl, rfl, rfl, rfl, rfl, rfl, rfl, rfl, rfl, rfl⟩

theorem createGroup_ledger (isPermitted : Bool) (user now : Nat) (body : GroupBody)
    (db db1 : Db) (h : GroupCtl.createGroup isPermitted user now body db = .ok db1) :
    (∀ g, ledgerInvariant db g → ledgerInvariant db1 g) ∧
    ((db.groupHistories.map (fun x => x._id)).Nodup →
      (∀ x ∈ db.groupHistories, x.group ≠ freshId (db.groups.map (fun g => g._id))) →
      ledgerInvariant db1 (freshId (db.groups.map (fun g => g._id)))) := by
  obtain ⟨group, history, c, hgs, hhs, hgid, hhid, hn, hhg, hcn, hcy, hc, _, _⟩ :=
    createGroup_effect isPermitted user now body db db1 h
  have hnodup : (db.groupHistories.map (fun x => x._id)).Nodup →
      (db1.groupHistories.map (fun x => x._id)).Nodup := by
    intro hnd
    rw [hhs, List.map_append, List.nodup_append]
    refine ⟨hnd, by simp, ?_⟩
    intro a ha hb
    have : a = history._id := by simpa using hb
    rw [this, hhid] at ha
    exact freshId_not_mem _ ha
  constructor
  · rintro g ⟨hnd, grp, hist, hgrp, hhist, hn1, hc1⟩
    refine ⟨hnodup hnd, grp, hist, ?_, ?_, hn1, hc1⟩
    · rw [hgs]; exact findOne_append_of_some _ _ _ _ hgrp
    · rw [hhs]; exact findOne_append_of_some _ _ _ _ hhist
  · intro hnd hfree
    refine ⟨hnodup hnd, group, history, ?_, ?_, ?_, ?_⟩
    · rw [hgs]
      refine findOne_append_of_none _ _ _ ?_ (by simp [hgid])
      intro y hy
      have := freshId_ne_of_mem (db.groups.map (fun g => g._id)) y._id
        (List.mem_map_of_mem _ hy)
      simpa using this
    · rw [hhs]
      refine findOne_append_of_none _ _ _ ?_ (by simp [hhg, hgid])
      intro y hy
      simpa using hfree y hy
    · rw [hcn, hn]
    · rw [hcy, hcn]
      simp [hc]
theorem ledgerInvariant_of_sameCycles (db db1 : Db) (g : Nat) (h : sameCycles db db1)
    (hi : ledgerInvariant db g) : ledgerInvariant db1 g := by
  refine ⟨?_, ledgerMirrorsGroup_of_sameCycles db db1 g h hi.2⟩
  rw [history_ids_of_sameCycles db db1 h]
  exact hi.1

/-- C24: `createGroup` saves a group with `loan_cycle_number = 1` and a ledger with
`cycle_number = 1` holding exactly one cycle record, of cycle number 1, started and
last edited by the creator; and on a store whose ledgers have distinct ids every later
lifecycle operation, on any group (new-cycle start, loan initialization, ACAT creation,
submit, approve and status refresh of the three stages, the group status refresh and
the loan-paid override), whether it returns or throws, keeps for each group the ledger
cycle number equal to `loan_cycle_number` of the group and the cycle numbers of the
cycle records equal to 1, 2, up to the ledger cycle number, in this order. -/
theorem ledger_mirrors_group_invariant :
    (∀ (isPermitted : Bool) (user now : Nat) (body : GroupBody) (db db1 : Db),
      GroupCtl.createGroup isPermitted user now body db = .ok db1 →
      (∃ group history c,
        db1.groups = db.groups ++ [group] ∧
        db1.groupHistories = db.groupHistories ++ [history] ∧
        group.loan_cycle_number = 1 ∧ history.group = group._id ∧
        history.cycle_number = 1 ∧ history.cycles = [c] ∧ c.cycle_number = 1 ∧
        c.started_by = some user ∧ c.last_edit_by = some user ∧
        ((db.groupHistories.map (fun x => x._id)).Nodup →
          (∀ x ∈ db.groupHistories, x.group ≠ group._id) →
          ledgerInvariant db1 group._id)) ∧
      (∀ g, ledgerInvariant db g → ledgerInvariant db1 g)) ∧
    (∀ (db : Db) (g : Nat), ledgerInvariant db g →
      (∀ (isPermitted : Bool) (user now : Nat)
          (createScreening : MemberRecord → Except String MemberRecord)
          (body : GroupScreeningBody),
        ledgerInvariant
          (GroupScreeningCtl.createGroupScreening isPermitted user now createScreening body
            db).db g) ∧
      (∀ (isPermitted : Bool) (user now : Nat)
          (createLoanApplication : Nat → Except String MemberRecord) (groupId : Nat),
        ledgerInvariant
          (GroupLoanCtl.initializeGroupLoan isPermitted user now createLoanApplication groupId
            db).db g) ∧
      (∀ (isPermitted : Bool) (user now : Nat) (bodyGroup : Option Nat),
        ledgerInvariant (GroupACATCtl.createGroupACAT isPermitted user now bodyGroup db).db g) ∧
      (∀ (isPermitted : Bool) (user id : Nat),
        ledgerInvariant
          (storeAfter db (GroupScreeningCtl.submitGroupScreenings isPermitted user id db)) g ∧
        ledgerInvariant
          (storeAfter db (GroupScreeningCtl.approveGroupScreenings isPermitted user id db)) g ∧
        ledgerInvariant
          (storeAfter db (GroupScreeningCtl.updateGroupScreeningStatus isPermitted user id
            db)) g ∧
        ledgerInvariant
          (storeAfter db (GroupLoanCtl.submitGroupLoans isPermitted user id db)) g ∧
        ledgerInvariant
          (storeAfter db (GroupLoanCtl.approveGroupLoans isPermitted user id db)) g ∧
        ledgerInvariant
          (storeAfter db (GroupLoanCtl.updateGroupLoanStatus isPermitted user id db)) g ∧
        ledgerInvariant
          (storeAfter db (GroupACATCtl.submitGroupACATs isPermitted user id db)) g ∧
        ledgerInvariant
          (storeAfter db (GroupACATCtl.approveGroupACATs isPermitted user id db)) g ∧
        ledgerInvariant
          (storeAfter db (GroupACATCtl.updateGroupACATStatus isPermitted user id db)) g) ∧
      (∀ (isPermitted : Bool) (id : Nat) (bodyStatus : Option String),
        ledgerInvariant
          (storeAfter db (GroupCtl.updateGroupStatus isPermitted id bodyStatus db)) g)) := by
  constructor
  · intro isPermitted user now body db db1 h
    obtain ⟨group, history, c, hgs, hhs, hgid, _, hn, hhg, hcn, hcy, hc, hs, he⟩ :=
      createGroup_effect isPermitted user now body db db1 h
    have hl := createGroup_ledger isPermitted user now body db db1 h
    refine ⟨⟨group, history, c, hgs, hhs, hn, hhg, hcn, hcy, hc, hs, he, ?_⟩, hl.1⟩
    rw [hgid]
    exact hl.2
  · intro db g hi
    refine ⟨?_, ?_, ?_, ?_, ?_⟩
    · intro isPermitted user now createScreening body
      obtain ⟨h1, h2⟩ :=
        createGroupScreening_ledger isPermitted user now createScreening body db g hi.1 hi.2
      exact ⟨by rw [h2]; exact hi.1, h1⟩
    · intro isPermitted user now createLoanApplication groupId
      exact ledgerInvariant_of_sameCycles _ _ g
        (initializeGroupLoan_sameCycles isPermitted user now createLoanApplication groupId db
          hi.1) hi
    · intro isPermitted user now bodyGroup
      exact ledgerInvariant_of_sameCycles _ _ g
        (createGroupACAT_sameCycles isPermitted user now bodyGroup db hi.1) hi
    · intro isPermitted user id
      exact ⟨ledgerInvariant_of_sameCycles _ _ g (submitGroupScreenings_sameCycles _ _ _ _) hi,
        ledgerInvariant_of_sameCycles _ _ g (approveGroupScreenings_sameCycles _ _ _ _) hi,
        ledgerInvariant_of_sameCycles _ _ g (updateGroupScreeningStatus_sameCycles _ _ _ _) hi,
        ledgerInvariant_of_sameCycles _ _ g (submitGroupLoans_sameCycles _ _ _ _) hi,
        ledgerInvariant_of_sameCycles _ _ g (approveGroupLoans_sameCycles _ _ _ _) hi,
        ledgerInvariant_of_sameCycles _ _ g (updateGroupLoanStatus_sameCycles _ _ _ _) hi,
        ledgerInvariant_of_sameCycles _ _ g (submitGroupACATs_sameCycles _ _ _ _) hi,
        ledgerInvariant_of_sameCycles _ _ g (approveGroupACATs_sameCycles _ _ _ _) hi,
        ledgerInvariant_of_sameCycles _ _ g (updateGroupACATStatus_sameCycles _ _ _ _) hi⟩
    · intro isPermitted id bodyStatus
      exact ledgerInvariant_of_sameCycles _ _ g
        (updateGroupStatus_sameCycles isPermitted id bodyStatus db) hi

/-- Witness for C24: the paid group, whose ledger mirrors it, starts its second
cycle. -/
theorem ledger_mirrors_group_invariant_witness :
    ledgerInvariant paidDb 1 ∧
    ledgerInvariant
      (GroupScreeningCtl.createGroupScreening true 7 500 okScreeningService
        { group := some 1, total_amount := 2000 } paidDb).db 1 ∧
    (findOne (fun x => x.group == 1)
      (GroupScreeningCtl.createGroupScreening true 7 500 okScreeningService
        { group := some 1, total_amount := 2000 } paidDb).db.groupHistories).map
        (fun x => x.cycle_number) = some 2 :=
  ⟨⟨by decide, _, _, rfl, rfl, rfl, by decide⟩,
   (ledger_mirrors_group_invariant.2 paidDb 1
      ⟨by decide, _, _, rfl, rfl, rfl, by decide⟩).1 true 7 500 okScreeningService
      { group := some 1, total_amount := 2000 },
   rfl⟩
end BidirGroup
